import Mathlib

/-!
Verification of `pyz80/machinestates.py` — a cycle-accurate Z80 CPU core.

The development shallowly embeds the source file's machine-state pipeline:
Python integers become `Int`/`Nat` with explicit masking (`& 0xFF`, `& 0xFFFF`,
two's-complement `%`), the decode table becomes an association list of its
metadata plus a small semantic table for the opcodes executed here, and the
generator-based machine states (`OCF`, `OD`, `MR`, `MW`, `SR`, `SW`, `IO`)
become big-step functions that also report the number of T-cycles they
consume (one T-cycle per call of `MachineState.clock`, i.e. the number of
`yield`s of the state's `run` generator plus the final call that raises
`StopIteration` and pops the state).

The register file, membus and the per-tick CPU driver are external to the
source file (they live in the `CPU` object); where they are needed they are
modelled from the spec and marked `Modelled from the spec` in their doc
comments.
-/

set_option maxRecDepth 40000

namespace PyZ80


/-- The eight Z80 flags.  `F5`/`F3` are the undocumented copies of result
bits 5 and 3, `PV` is the shared parity/overflow bit, `Hf`/`Cf` avoid
clashing with register names. -/
inductive Flag where
  | S | Z | F5 | Hf | F3 | PV | N | Cf
deriving DecidableEq

/-- Bit position of a flag inside F (spec §3: S,Z,5,H,3,P/V,N,C from bit 7
down to bit 0). -/
def Flag.bit : Flag → Nat
  | .S => 7
  | .Z => 6
  | .F5 => 5
  | .Hf => 4
  | .F3 => 3
  | .PV => 2
  | .N => 1
  | .Cf => 0

/-- Modelled from the spec (§4.1 `set(flag)`): set one flag bit of F. -/
def setflag (f : Flag) (F : Nat) : Nat := F ||| (1 <<< f.bit)

/-- Modelled from the spec (§4.1 `reset(flag)`): clear one flag bit of F
(the in-file idiom for clearing a bit is `F & (0xFF - (1 << n))`;
F is an 8-bit register so the `0xFF` mask is harmless). -/
def resetflag (f : Flag) (F : Nat) : Nat := F &&& (255 - (1 <<< f.bit))

/-- Modelled from the spec (§4.1 `get(flag)`): read one flag bit of F as
0 or 1 (the source compares the result with 0 and 1). -/
def getflag (f : Flag) (F : Nat) : Nat := (F >>> f.bit) &&& 1

/-- The even-parity loop of `set_flags` (lines 248–250):
`p = d; while p > 1: p = (p & 0x1) ^ (p >> 1)`; the result is 0 for even
parity of the low bits, 1 for odd. -/
def parityLoop (p : Nat) : Nat :=
  if h : 1 < p then parityLoop ((p &&& 1) ^^^ (p >>> 1)) else p
termination_by p
decreasing_by
  have hand : p &&& 1 ≤ 1 := Nat.and_le_right
  have hq : p >>> 1 = p / 2 := by
    rw [Nat.shiftRight_eq_div_pow]
  have hq1 : 1 ≤ p / 2 := by omega
  have hsz : 1 ≤ (p / 2).size := Nat.size_pos.2 (by omega)
  have hlt : p &&& 1 < 2 ^ (p / 2).size := by
    have h21 : (2 : Nat) ^ 1 ≤ 2 ^ (p / 2).size := Nat.pow_le_pow_right (by norm_num) hsz
    omega
  have hlt2 : p >>> 1 < 2 ^ (p / 2).size := by
    rw [hq]; exact Nat.lt_size_self _
  have hxor := Nat.xor_lt_two_pow hlt hlt2
  have hszle : 2 ^ (p / 2).size ≤ 2 * (p / 2) := by
    have h2 : 2 ^ ((p / 2).size - 1) ≤ p / 2 := Nat.lt_size.1 (by omega)
    calc 2 ^ (p / 2).size = 2 * 2 ^ ((p / 2).size - 1) := by
          rw [← pow_succ']
          congr 1
          omega
    _ ≤ 2 * (p / 2) := by omega
  omega

/-- One step of the literal-forcing loop of `set_flags` (lines 260–264):
`for n in range(0,7): if flags[7-n] == '1': F |= 1 << n elif ... == '0':
F &= 0xFF - (1 << n)`.  `c` is the template character `flags[7-n]`. -/
def litStep (c : Char) (n : Nat) (F : Nat) : Nat :=
  if c = '1' then F ||| (1 <<< n)
  else if c = '0' then F &&& (255 - (1 <<< n))
  else F

/-- Branch of `set_flags` for `flags[0] == 'S'` (lines 217–221). -/
def sfStageS (c0 : Char) (d F : Nat) : Nat :=
  if c0 = 'S' then
    (if (d >>> 7) &&& 1 = 1 then setflag .S F else resetflag .S F) else F

/-- Branch of `set_flags` for `flags[1] == 'Z'` (lines 222–226). -/
def sfStageZ (c1 : Char) (d F : Nat) : Nat :=
  if c1 = 'Z' then
    (if d = 0 then setflag .Z F else resetflag .Z F) else F

/-- Branch of `set_flags` for `flags[2] == '5'` (lines 227–231). -/
def sfStage5 (c2 : Char) (d F : Nat) : Nat :=
  if c2 = '5' then
    (if (d >>> 5) &&& 1 = 1 then setflag .F5 F else resetflag .F5 F) else F

/-- Branch of `set_flags` for `flags[4] == '3'` (lines 232–236). -/
def sfStage3 (c4 : Char) (d F : Nat) : Nat :=
  if c4 = '3' then
    (if (d >>> 3) &&& 1 = 1 then setflag .F3 F else resetflag .F3 F) else F

/-- Branch chain of `set_flags` for `flags[5]` ∈ `*`/`V`/`P`
(lines 237–254): IFF2 copy, signed overflow on the raw value, or
even parity of the low byte. -/
def sfStagePV (c5 : Char) (D : Int) (d iff2 F : Nat) : Nat :=
  if c5 = '*' then
    (if iff2 = 1 then setflag .PV F else resetflag .PV F)
  else if c5 = 'V' then
    (if 127 < D ∨ D < -128 then setflag .PV F else resetflag .PV F)
  else if c5 = 'P' then
    (if parityLoop d = 0 then setflag .PV F else resetflag .PV F)
  else F

/-- Branch of `set_flags` for `flags[7] == 'C'` (lines 255–259): carry from
the raw (9-bit / signed) value. -/
def sfStageC (c7 : Char) (D : Int) (F : Nat) : Nat :=
  if c7 = 'C' then
    (if 255 < D ∨ D < 0 then setflag .Cf F else resetflag .Cf F) else F

/-- Core of `set_flags` (lines 201–264): given the eight template characters
`flags[0]`…`flags[7]`, the raw value `D` (a Python int, possibly negative or
above 255), the current F and IFF2, compute the new F.  Mirrors the source
branch for branch: recompute branches for S/Z/5/3 on `d = D & 0xFF`, the
`*`/`V`/`P` chain on position 5, the C branch on the raw `D`, then the
literal `0`/`1` loop `for n in range(0,7)` on character `flags[7-n]`
(so bit 7 is never forced by a literal). -/
def set_flags_core (c0 c1 c2 c3 c4 c5 c6 c7 : Char) (D : Int) (F iff2 : Nat) :
    Nat :=
  let d : Nat := (D % 256).toNat
  litStep c1 6 (litStep c2 5 (litStep c3 4 (litStep c4 3 (litStep c5 2
    (litStep c6 1 (litStep c7 0
      (sfStageC c7 D (sfStagePV c5 D d iff2 (sfStage3 c4 d
        (sfStage5 c2 d (sfStageZ c1 d (sfStageS c0 d F))))))))))))

/-- `high_after_low(x, y) = (x << 8) | y` on Python ints. -/
def high_after_low (x y : Int) : Int := Int.lor (x <<< (8 : Int)) y

/-- An opcode key of `INSTRUCTION_STATES`: a single byte or a 2- or 3-byte
prefix tuple. -/
inductive InstKey where
  | one (b : Nat)
  | two (a b : Nat)
  | three (a b c : Nat)
deriving DecidableEq

/-- The decidable metadata of one decode-table entry: elements 0
(`extra` OCF ticks), 3 (mnemonic) and 4 (byte length, absent for the six
malformed 4-element entries). -/
structure MetaEntry where
  extra : Nat
  mnemonic : String
  length : Option Nat
deriving DecidableEq

/-- Metadata of the full `INSTRUCTION_STATES` table, one item per source
entry, in source order. -/
def INSTRUCTION_STATES_meta : List (InstKey × MetaEntry) := [
  (InstKey.one 0x00, MetaEntry.mk 0 "NOP" (some 1)),
  (InstKey.one 0x01, MetaEntry.mk 0 "LD BC,nn" (some 3)),
  (InstKey.one 0x02, MetaEntry.mk 0 "LD (BC),A" (some 1)),
  (InstKey.one 0x03, MetaEntry.mk 0 "INC BC" (some 1)),
  (InstKey.one 0x04, MetaEntry.mk 0 "INC B" (some 1)),
  (InstKey.one 0x05, MetaEntry.mk 0 "DEC B" (some 1)),
  (InstKey.one 0x06, MetaEntry.mk 0 "LD B,n" (some 2)),
  (InstKey.one 0x07, MetaEntry.mk 0 "RLCA" (some 1)),
  (InstKey.one 0x08, MetaEntry.mk 0 "EX AF,AF\x27" (some 1)),
  (InstKey.one 0x09, MetaEntry.mk 0 "ADD HL,BC" (some 1)),
  (InstKey.one 0x0B, MetaEntry.mk 0 "DEC BC" (some 1)),
  (InstKey.one 0x0C, MetaEntry.mk 0 "INC C" (some 1)),
  (InstKey.one 0x0D, MetaEntry.mk 0 "DEC C" (some 1)),
  (InstKey.one 0x0E, MetaEntry.mk 0 "LD C,n" (some 2)),
  (InstKey.one 0x0F, MetaEntry.mk 0 "RRCA" (some 1)),
  (InstKey.one 0x0A, MetaEntry.mk 0 "LD A,(BC)" (some 1)),
  (InstKey.one 0x10, MetaEntry.mk 1 "DJNZ n" (some 2)),
  (InstKey.one 0x11, MetaEntry.mk 0 "LD DE,nn" (some 3)),
  (InstKey.one 0x12, MetaEntry.mk 0 "LD (DE),A" (some 1)),
  (InstKey.one 0x13, MetaEntry.mk 0 "INC DE" (some 1)),
  (InstKey.one 0x14, MetaEntry.mk 0 "INC D" (some 1)),
  (InstKey.one 0x15, MetaEntry.mk 0 "DEC D" (some 1)),
  (InstKey.one 0x16, MetaEntry.mk 0 "LD D,n" (some 2)),
  (InstKey.one 0x17, MetaEntry.mk 0 "RLA" (some 1)),
  (InstKey.one 0x18, MetaEntry.mk 0 "JR n" (some 2)),
  (InstKey.one 0x19, MetaEntry.mk 0 "ADD HL,DE" (some 1)),
  (InstKey.one 0x1B, MetaEntry.mk 0 "DEC DE" (some 1)),
  (InstKey.one 0x1A, MetaEntry.mk 0 "LD A,(DE)" (some 1)),
  (InstKey.one 0x1C, MetaEntry.mk 0 "INC E" (some 1)),
  (InstKey.one 0x1D, MetaEntry.mk 0 "DEC E" (some 1)),
  (InstKey.one 0x1E, MetaEntry.mk 0 "LD E,n" (some 2)),
  (InstKey.one 0x1F, MetaEntry.mk 0 "RRA" (some 1)),
  (InstKey.one 0x20, MetaEntry.mk 0 "JR NZ,n" (some 2)),
  (InstKey.one 0x21, MetaEntry.mk 0 "LD HL,nn" (some 3)),
  (InstKey.one 0x22, MetaEntry.mk 0 "LD (nn),HL" (some 3)),
  (InstKey.one 0x23, MetaEntry.mk 0 "INC HL" (some 1)),
  (InstKey.one 0x24, MetaEntry.mk 0 "INC H" (some 1)),
  (InstKey.one 0x25, MetaEntry.mk 0 "DEC H" (some 1)),
  (InstKey.one 0x26, MetaEntry.mk 0 "LD H,n" (some 2)),
  (InstKey.one 0x27, MetaEntry.mk 0 "DAA" (some 2)),
  (InstKey.one 0x28, MetaEntry.mk 0 "JR Z,n" (some 2)),
  (InstKey.one 0x29, MetaEntry.mk 0 "ADD HL,HL" (some 1)),
  (InstKey.one 0x2A, MetaEntry.mk 0 "LD HL,(nn)" (some 3)),
  (InstKey.one 0x2B, MetaEntry.mk 0 "DEC HL" (some 1)),
  (InstKey.one 0x2C, MetaEntry.mk 0 "INC L" (some 1)),
  (InstKey.one 0x2D, MetaEntry.mk 0 "DEC L" (some 1)),
  (InstKey.one 0x2E, MetaEntry.mk 0 "LD L,n" none),
  (InstKey.one 0x2F, MetaEntry.mk 0 "CPL" (some 1)),
  (InstKey.one 0x30, MetaEntry.mk 0 "JR NC,n" (some 2)),
  (InstKey.one 0x31, MetaEntry.mk 0 "LD SP,nn" (some 3)),
  (InstKey.one 0x32, MetaEntry.mk 0 "LD (nn),A" (some 3)),
  (InstKey.one 0x33, MetaEntry.mk 0 "INC SP" (some 1)),
  (InstKey.one 0x34, MetaEntry.mk 0 "INC (HL)" (some 1)),
  (InstKey.one 0x35, MetaEntry.mk 0 "DEC (HL)" (some 1)),
  (InstKey.one 0x36, MetaEntry.mk 0 "LD (HL),n" (some 2)),
  (InstKey.one 0x37, MetaEntry.mk 0 "SCF" (some 1)),
  (InstKey.one 0x38, MetaEntry.mk 0 "JR C,n" (some 2)),
  (InstKey.one 0x39, MetaEntry.mk 0 "ADD HL,SP" (some 1)),
  (InstKey.one 0x3B, MetaEntry.mk 0 "DEC SP" (some 1)),
  (InstKey.one 0x3C, MetaEntry.mk 0 "INC A" (some 1)),
  (InstKey.one 0x3D, MetaEntry.mk 0 "DEC A" (some 1)),
  (InstKey.one 0x3A, MetaEntry.mk 0 "LD A,(nn)" (some 3)),
  (InstKey.one 0x3E, MetaEntry.mk 0 "LD A,n" (some 2)),
  (InstKey.one 0x3F, MetaEntry.mk 0 "CCF" (some 1)),
  (InstKey.one 0x40, MetaEntry.mk 0 "LD B,B" (some 1)),
  (InstKey.one 0x41, MetaEntry.mk 0 "LD B,C" (some 1)),
  (InstKey.one 0x42, MetaEntry.mk 0 "LD B,D" (some 1)),
  (InstKey.one 0x43, MetaEntry.mk 0 "LD B,E" (some 1)),
  (InstKey.one 0x44, MetaEntry.mk 0 "LD B,H" (some 1)),
  (InstKey.one 0x45, MetaEntry.mk 0 "LD B,L" (some 1)),
  (InstKey.one 0x46, MetaEntry.mk 0 "LD B,(HL)" (some 1)),
  (InstKey.one 0x47, MetaEntry.mk 0 "LD B,A" (some 1)),
  (InstKey.one 0x48, MetaEntry.mk 0 "LD C,B" (some 1)),
  (InstKey.one 0x49, MetaEntry.mk 0 "LD C,C" (some 1)),
  (InstKey.one 0x4A, MetaEntry.mk 0 "LD C,D" (some 1)),
  (InstKey.one 0x4B, MetaEntry.mk 0 "LD C,E" (some 1)),
  (InstKey.one 0x4C, MetaEntry.mk 0 "LD C,H" (some 1)),
  (InstKey.one 0x4D, MetaEntry.mk 0 "LD C,L" (some 1)),
  (InstKey.one 0x4E, MetaEntry.mk 0 "LD C,(HL)" (some 1)),
  (InstKey.one 0x4F, MetaEntry.mk 0 "LD C,A" (some 1)),
  (InstKey.one 0x50, MetaEntry.mk 0 "LD D,B" (some 1)),
  (InstKey.one 0x51, MetaEntry.mk 0 "LD D,C" (some 1)),
  (InstKey.one 0x52, MetaEntry.mk 0 "LD D,D" (some 1)),
  (InstKey.one 0x53, MetaEntry.mk 0 "LD D,E" (some 1)),
  (InstKey.one 0x54, MetaEntry.mk 0 "LD D,H" (some 1)),
  (InstKey.one 0x55, MetaEntry.mk 0 "LD D,L" (some 1)),
  (InstKey.one 0x56, MetaEntry.mk 0 "LD D,(HL)" (some 1)),
  (InstKey.one 0x57, MetaEntry.mk 0 "LD D,A" (some 1)),
  (InstKey.one 0x58, MetaEntry.mk 0 "LD E,B" (some 1)),
  (InstKey.one 0x59, MetaEntry.mk 0 "LD E,C" (some 1)),
  (InstKey.one 0x5A, MetaEntry.mk 0 "LD E,D" (some 1)),
  (InstKey.one 0x5B, MetaEntry.mk 0 "LD E,E" (some 1)),
  (InstKey.one 0x5C, MetaEntry.mk 0 "LD E,H" (some 1)),
  (InstKey.one 0x5D, MetaEntry.mk 0 "LD E,L" (some 1)),
  (InstKey.one 0x5E, MetaEntry.mk 0 "LD E,(HL)" (some 1)),
  (InstKey.one 0x5F, MetaEntry.mk 0 "LD E,A" (some 1)),
  (InstKey.one 0x60, MetaEntry.mk 0 "LD H,B" (some 1)),
  (InstKey.one 0x61, MetaEntry.mk 0 "LD H,C" (some 1)),
  (InstKey.one 0x62, MetaEntry.mk 0 "LD H,D" (some 1)),
  (InstKey.one 0x63, MetaEntry.mk 0 "LD H,E" (some 1)),
  (InstKey.one 0x64, MetaEntry.mk 0 "LD H,H" (some 1)),
  (InstKey.one 0x65, MetaEntry.mk 0 "LD H,L" (some 1)),
  (InstKey.one 0x66, MetaEntry.mk 0 "LD H,(HL)" (some 1)),
  (InstKey.one 0x67, MetaEntry.mk 0 "LD H,A" (some 1)),
  (InstKey.one 0x68, MetaEntry.mk 0 "LD L,B" (some 1)),
  (InstKey.one 0x69, MetaEntry.mk 0 "LD L,C" (some 1)),
  (InstKey.one 0x6A, MetaEntry.mk 0 "LD L,D" (some 1)),
  (InstKey.one 0x6B, MetaEntry.mk 0 "LD L,E" (some 1)),
  (InstKey.one 0x6C, MetaEntry.mk 0 "LD L,H" (some 1)),
  (InstKey.one 0x6D, MetaEntry.mk 0 "LD L,L" (some 1)),
  (InstKey.one 0x6E, MetaEntry.mk 0 "LD L,(HL)" (some 1)),
  (InstKey.one 0x6F, MetaEntry.mk 0 "LD L,A" (some 1)),
  (InstKey.one 0x70, MetaEntry.mk 0 "LD (HL),B" (some 1)),
  (InstKey.one 0x71, MetaEntry.mk 0 "LD (HL),C" (some 1)),
  (InstKey.one 0x72, MetaEntry.mk 0 "LD (HL),D" (some 1)),
  (InstKey.one 0x73, MetaEntry.mk 0 "LD (HL),E" (some 1)),
  (InstKey.one 0x74, MetaEntry.mk 0 "LD (HL),H" (some 1)),
  (InstKey.one 0x75, MetaEntry.mk 0 "LD (HL),L" (some 1)),
  (InstKey.one 0x76, MetaEntry.mk 0 "HALT" (some 1)),
  (InstKey.one 0x77, MetaEntry.mk 0 "LD (HL),A" (some 1)),
  (InstKey.one 0x78, MetaEntry.mk 0 "LD A,B" (some 1)),
  (InstKey.one 0x79, MetaEntry.mk 0 "LD A,C" (some 1)),
  (InstKey.one 0x7A, MetaEntry.mk 0 "LD A,D" (some 1)),
  (InstKey.one 0x7B, MetaEntry.mk 0 "LD A,E" (some 1)),
  (InstKey.one 0x7C, MetaEntry.mk 0 "LD A,H" (some 1)),
  (InstKey.one 0x7D, MetaEntry.mk 0 "LD A,L" (some 1)),
  (InstKey.one 0x7E, MetaEntry.mk 0 "LD A, (HL)" (some 1)),
  (InstKey.one 0x7F, MetaEntry.mk 0 "LD A,A" (some 1)),
  (InstKey.one 0x80, MetaEntry.mk 0 "ADD B" (some 1)),
  (InstKey.one 0x81, MetaEntry.mk 0 "ADD C" (some 1)),
  (InstKey.one 0x82, MetaEntry.mk 0 "ADD D" (some 1)),
  (InstKey.one 0x83, MetaEntry.mk 0 "ADD E" (some 1)),
  (InstKey.one 0x84, MetaEntry.mk 0 "ADD H" (some 1)),
  (InstKey.one 0x85, MetaEntry.mk 0 "ADD L" (some 1)),
  (InstKey.one 0x86, MetaEntry.mk 0 "ADD (HL)" (some 1)),
  (InstKey.one 0x87, MetaEntry.mk 0 "ADD A" (some 1)),
  (InstKey.one 0x88, MetaEntry.mk 0 "ADC B" (some 1)),
  (InstKey.one 0x89, MetaEntry.mk 0 "ADC C" (some 1)),
  (InstKey.one 0x8A, MetaEntry.mk 0 "ADC D" (some 1)),
  (InstKey.one 0x8B, MetaEntry.mk 0 "ADC E" (some 1)),
  (InstKey.one 0x8C, MetaEntry.mk 0 "ADC H" (some 1)),
  (InstKey.one 0x8D, MetaEntry.mk 0 "ADC L" (some 1)),
  (InstKey.one 0x8E, MetaEntry.mk 0 "ADC (HL)" (some 1)),
  (InstKey.one 0x8F, MetaEntry.mk 0 "ADC A" (some 1)),
  (InstKey.one 0x90, MetaEntry.mk 0 "SUB B" (some 1)),
  (InstKey.one 0x91, MetaEntry.mk 0 "SUB C" (some 1)),
  (InstKey.one 0x92, MetaEntry.mk 0 "SUB D" (some 1)),
  (InstKey.one 0x93, MetaEntry.mk 0 "SUB E" (some 1)),
  (InstKey.one 0x94, MetaEntry.mk 0 "SUB H" (some 1)),
  (InstKey.one 0x95, MetaEntry.mk 0 "SUB L" (some 1)),
  (InstKey.one 0x96, MetaEntry.mk 0 "SUB (HL)" none),
  (InstKey.one 0x97, MetaEntry.mk 0 "SUB A" (some 1)),
  (InstKey.one 0x98, MetaEntry.mk 0 "SBC B" (some 1)),
  (InstKey.one 0x99, MetaEntry.mk 0 "SBC C" (some 1)),
  (InstKey.one 0x9A, MetaEntry.mk 0 "SBC D" (some 1)),
  (InstKey.one 0x9B, MetaEntry.mk 0 "SBC E" (some 1)),
  (InstKey.one 0x9C, MetaEntry.mk 0 "SBC H" (some 1)),
  (InstKey.one 0x9D, MetaEntry.mk 0 "SBC L" (some 1)),
  (InstKey.one 0x9E, MetaEntry.mk 0 "SBC (HL)" (some 1)),
  (InstKey.one 0x9F, MetaEntry.mk 0 "SBC A" (some 1)),
  (InstKey.one 0xA0, MetaEntry.mk 0 "AND B" (some 1)),
  (InstKey.one 0xA1, MetaEntry.mk 0 "AND C" (some 1)),
  (InstKey.one 0xA2, MetaEntry.mk 0 "AND D" (some 1)),
  (InstKey.one 0xA3, MetaEntry.mk 0 "AND E" (some 1)),
  (InstKey.one 0xA4, MetaEntry.mk 0 "AND H" (some 1)),
  (InstKey.one 0xA5, MetaEntry.mk 0 "AND L" (some 1)),
  (InstKey.one 0xA6, MetaEntry.mk 0 "AND (HL)" (some 1)),
  (InstKey.one 0xA7, MetaEntry.mk 0 "AND A" (some 1)),
  (InstKey.one 0xA8, MetaEntry.mk 0 "XOR B" (some 1)),
  (InstKey.one 0xA9, MetaEntry.mk 0 "XOR C" (some 1)),
  (InstKey.one 0xAA, MetaEntry.mk 0 "XOR D" (some 1)),
  (InstKey.one 0xAB, MetaEntry.mk 0 "XOR E" (some 1)),
  (InstKey.one 0xAC, MetaEntry.mk 0 "XOR H" (some 1)),
  (InstKey.one 0xAD, MetaEntry.mk 0 "XOR L" (some 1)),
  (InstKey.one 0xAE, MetaEntry.mk 0 "XOR (HL)" (some 1)),
  (InstKey.one 0xAF, MetaEntry.mk 0 "XOR A" (some 1)),
  (InstKey.one 0xB0, MetaEntry.mk 0 "OR B" (some 1)),
  (InstKey.one 0xB1, MetaEntry.mk 0 "OR C" (some 1)),
  (InstKey.one 0xB2, MetaEntry.mk 0 "OR D" (some 1)),
  (InstKey.one 0xB3, MetaEntry.mk 0 "OR E" (some 1)),
  (InstKey.one 0xB4, MetaEntry.mk 0 "OR H" (some 1)),
  (InstKey.one 0xB5, MetaEntry.mk 0 "OR L" (some 1)),
  (InstKey.one 0xB6, MetaEntry.mk 0 "OR (HL)" (some 1)),
  (InstKey.one 0xB7, MetaEntry.mk 0 "OR A" (some 1)),
  (InstKey.one 0xB8, MetaEntry.mk 0 "CP B" (some 1)),
  (InstKey.one 0xB9, MetaEntry.mk 0 "CP C" (some 1)),
  (InstKey.one 0xBA, MetaEntry.mk 0 "CP D" (some 1)),
  (InstKey.one 0xBB, MetaEntry.mk 0 "CP E" (some 1)),
  (InstKey.one 0xBC, MetaEntry.mk 0 "CP H" (some 1)),
  (InstKey.one 0xBD, MetaEntry.mk 0 "CP L" (some 1)),
  (InstKey.one 0xBE, MetaEntry.mk 0 "CP (HL)" (some 1)),
  (InstKey.one 0xBF, MetaEntry.mk 0 "CP A" (some 1)),
  (InstKey.one 0xC0, MetaEntry.mk 1 "RET NZ" (some 1)),
  (InstKey.one 0xC1, MetaEntry.mk 0 "POP BC" (some 1)),
  (InstKey.one 0xC2, MetaEntry.mk 0 "JP NZ,nn" (some 3)),
  (InstKey.one 0xC3, MetaEntry.mk 0 "JP nn" (some 3)),
  (InstKey.one 0xC4, MetaEntry.mk 0 "CALL NZ,nn" (some 3)),
  (InstKey.one 0xC5, MetaEntry.mk 1 "PUSH BC" (some 1)),
  (InstKey.one 0xC6, MetaEntry.mk 0 "ADD n" (some 2)),
  (InstKey.one 0xC7, MetaEntry.mk 1 "RST 00H" (some 1)),
  (InstKey.one 0xC8, MetaEntry.mk 1 "RET NZ" (some 1)),
  (InstKey.one 0xC9, MetaEntry.mk 0 "RET" (some 1)),
  (InstKey.one 0xCA, MetaEntry.mk 0 "JP Z,nn" (some 3)),
  (InstKey.one 0xCB, MetaEntry.mk 0 "" (some 0)),
  (InstKey.one 0xCC, MetaEntry.mk 0 "CALL Z,nn" (some 3)),
  (InstKey.one 0xCD, MetaEntry.mk 0 "CALL nn" (some 3)),
  (InstKey.one 0xCE, MetaEntry.mk 0 "ADC n" (some 2)),
  (InstKey.one 0xCF, MetaEntry.mk 1 "RST 08H" (some 1)),
  (InstKey.one 0xD0, MetaEntry.mk 1 "RET NC" (some 1)),
  (InstKey.one 0xD1, MetaEntry.mk 0 "POP DE" (some 1)),
  (InstKey.one 0xD2, MetaEntry.mk 0 "JP NC,nn" (some 3)),
  (InstKey.one 0xD3, MetaEntry.mk 0 "OUT (n),A" (some 2)),
  (InstKey.one 0xD4, MetaEntry.mk 0 "CALL NC,nn" (some 3)),
  (InstKey.one 0xD5, MetaEntry.mk 1 "PUSH DE" (some 1)),
  (InstKey.one 0xD6, MetaEntry.mk 0 "SUB n" (some 2)),
  (InstKey.one 0xD7, MetaEntry.mk 1 "RST 10H" (some 1)),
  (InstKey.one 0xD8, MetaEntry.mk 1 "RET C" (some 1)),
  (InstKey.one 0xDA, MetaEntry.mk 0 "JP C,nn" (some 3)),
  (InstKey.one 0xDB, MetaEntry.mk 0 "IN A,n" (some 2)),
  (InstKey.one 0xDC, MetaEntry.mk 0 "CALL C,nn" (some 3)),
  (InstKey.one 0xDE, MetaEntry.mk 0 "SBC n" (some 2)),
  (InstKey.one 0xD9, MetaEntry.mk 0 "EXX" (some 1)),
  (InstKey.one 0xDD, MetaEntry.mk 0 "" (some 0)),
  (InstKey.one 0xDF, MetaEntry.mk 1 "RST 18H" (some 1)),
  (InstKey.one 0xE0, MetaEntry.mk 1 "RET PO" (some 1)),
  (InstKey.one 0xE1, MetaEntry.mk 0 "POP HL" (some 1)),
  (InstKey.one 0xE2, MetaEntry.mk 0 "JP PO,nn" (some 3)),
  (InstKey.one 0xE3, MetaEntry.mk 0 "EX (SP),HL" (some 1)),
  (InstKey.one 0xE4, MetaEntry.mk 0 "CALL PO,nn" (some 3)),
  (InstKey.one 0xE5, MetaEntry.mk 1 "PUSH HL" (some 1)),
  (InstKey.one 0xE6, MetaEntry.mk 0 "AND n" (some 2)),
  (InstKey.one 0xE7, MetaEntry.mk 1 "RST 20H" (some 1)),
  (InstKey.one 0xE8, MetaEntry.mk 1 "RET PE" (some 1)),
  (InstKey.one 0xE9, MetaEntry.mk 0 "JP (HL)" (some 1)),
  (InstKey.one 0xEA, MetaEntry.mk 0 "JP PE,nn" (some 3)),
  (InstKey.one 0xEB, MetaEntry.mk 0 "EX DE,HL" (some 1)),
  (InstKey.one 0xEC, MetaEntry.mk 0 "CALL PE,nn" (some 3)),
  (InstKey.one 0xED, MetaEntry.mk 0 "" (some 0)),
  (InstKey.one 0xEE, MetaEntry.mk 0 "XOR n" (some 2)),
  (InstKey.one 0xEF, MetaEntry.mk 1 "RST 28H" (some 1)),
  (InstKey.one 0xF0, MetaEntry.mk 1 "RET P" (some 1)),
  (InstKey.one 0xF1, MetaEntry.mk 0 "POP AF" (some 1)),
  (InstKey.one 0xF2, MetaEntry.mk 0 "JP P,nn" (some 3)),
  (InstKey.one 0xF3, MetaEntry.mk 0 "DI" (some 1)),
  (InstKey.one 0xF4, MetaEntry.mk 0 "CALL P,nn" (some 3)),
  (InstKey.one 0xF5, MetaEntry.mk 1 "PUSH AF" (some 1)),
  (InstKey.one 0xF6, MetaEntry.mk 0 "OR n" (some 2)),
  (InstKey.one 0xF7, MetaEntry.mk 1 "RST 30H" (some 1)),
  (InstKey.one 0xF8, MetaEntry.mk 1 "RET M" (some 1)),
  (InstKey.one 0xF9, MetaEntry.mk 0 "LD SP,HL" (some 1)),
  (InstKey.one 0xFA, MetaEntry.mk 0 "JP M,nn" (some 3)),
  (InstKey.one 0xFB, MetaEntry.mk 0 "EI" (some 1)),
  (InstKey.one 0xFC, MetaEntry.mk 0 "CALL M,nn" (some 3)),
  (InstKey.one 0xFD, MetaEntry.mk 0 "" (some 0)),
  (InstKey.one 0xFE, MetaEntry.mk 0 "CP n" (some 2)),
  (InstKey.one 0xFF, MetaEntry.mk 1 "RST 38H" (some 1)),
  (InstKey.two 0xCB 0x00, MetaEntry.mk 0 "RLC B" (some 2)),
  (InstKey.two 0xCB 0x01, MetaEntry.mk 0 "RLC C" (some 2)),
  (InstKey.two 0xCB 0x02, MetaEntry.mk 0 "RLC D" (some 2)),
  (InstKey.two 0xCB 0x03, MetaEntry.mk 0 "RLC E" (some 2)),
  (InstKey.two 0xCB 0x04, MetaEntry.mk 0 "RLC H" (some 2)),
  (InstKey.two 0xCB 0x05, MetaEntry.mk 0 "RLC L" (some 2)),
  (InstKey.two 0xCB 0x06, MetaEntry.mk 0 "RLC (HL)" (some 2)),
  (InstKey.two 0xCB 0x07, MetaEntry.mk 0 "RLC A" (some 2)),
  (InstKey.two 0xCB 0x08, MetaEntry.mk 0 "RRC B" (some 2)),
  (InstKey.two 0xCB 0x09, MetaEntry.mk 0 "RRC C" (some 2)),
  (InstKey.two 0xCB 0x0A, MetaEntry.mk 0 "RRC D" (some 2)),
  (InstKey.two 0xCB 0x0B, MetaEntry.mk 0 "RRC E" (some 2)),
  (InstKey.two 0xCB 0x0C, MetaEntry.mk 0 "RRC H" (some 2)),
  (InstKey.two 0xCB 0x0D, MetaEntry.mk 0 "RRC L" (some 2)),
  (InstKey.two 0xCB 0x0E, MetaEntry.mk 0 "RRC (HL)" (some 2)),
  (InstKey.two 0xCB 0x0F, MetaEntry.mk 0 "RRC A" (some 2)),
  (InstKey.two 0xCB 0x10, MetaEntry.mk 0 "RL B" (some 2)),
  (InstKey.two 0xCB 0x11, MetaEntry.mk 0 "RL C" (some 2)),
  (InstKey.two 0xCB 0x12, MetaEntry.mk 0 "RL D" (some 2)),
  (InstKey.two 0xCB 0x13, MetaEntry.mk 0 "RL E" (some 2)),
  (InstKey.two 0xCB 0x14, MetaEntry.mk 0 "RL H" (some 2)),
  (InstKey.two 0xCB 0x15, MetaEntry.mk 0 "RL L" (some 2)),
  (InstKey.two 0xCB 0x16, MetaEntry.mk 0 "RL (HL)" (some 2)),
  (InstKey.two 0xCB 0x17, MetaEntry.mk 0 "RL A" (some 2)),
  (InstKey.two 0xCB 0x18, MetaEntry.mk 0 "RR B" (some 2)),
  (InstKey.two 0xCB 0x19, MetaEntry.mk 0 "RR C" (some 2)),
  (InstKey.two 0xCB 0x1A, MetaEntry.mk 0 "RR D" (some 2)),
  (InstKey.two 0xCB 0x1B, MetaEntry.mk 0 "RR E" (some 2)),
  (InstKey.two 0xCB 0x1C, MetaEntry.mk 0 "RR H" (some 2)),
  (InstKey.two 0xCB 0x1D, MetaEntry.mk 0 "RR L" (some 2)),
  (InstKey.two 0xCB 0x1E, MetaEntry.mk 0 "RR (HL)" (some 2)),
  (InstKey.two 0xCB 0x1F, MetaEntry.mk 0 "RR A" (some 2)),
  (InstKey.two 0xCB 0x20, MetaEntry.mk 0 "SLA B" (some 2)),
  (InstKey.two 0xCB 0x21, MetaEntry.mk 0 "SLA C" (some 2)),
  (InstKey.two 0xCB 0x22, MetaEntry.mk 0 "SLA D" (some 2)),
  (InstKey.two 0xCB 0x23, MetaEntry.mk 0 "SLA E" (some 2)),
  (InstKey.two 0xCB 0x24, MetaEntry.mk 0 "SLA H" (some 2)),
  (InstKey.two 0xCB 0x25, MetaEntry.mk 0 "SLA L" (some 2)),
  (InstKey.two 0xCB 0x26, MetaEntry.mk 0 "SLA (HL)" (some 2)),
  (InstKey.two 0xCB 0x27, MetaEntry.mk 0 "SLA A" (some 2)),
  (InstKey.two 0xCB 0x28, MetaEntry.mk 0 "SRA B" (some 2)),
  (InstKey.two 0xCB 0x29, MetaEntry.mk 0 "SRA C" (some 2)),
  (InstKey.two 0xCB 0x2A, MetaEntry.mk 0 "SRA D" (some 2)),
  (InstKey.two 0xCB 0x2B, MetaEntry.mk 0 "SRA E" (some 2)),
  (InstKey.two 0xCB 0x2C, MetaEntry.mk 0 "SRA H" (some 2)),
  (InstKey.two 0xCB 0x2D, MetaEntry.mk 0 "SRA L" (some 2)),
  (InstKey.two 0xCB 0x2E, MetaEntry.mk 0 "SRA (HL)" (some 2)),
  (InstKey.two 0xCB 0x2F, MetaEntry.mk 0 "SRA A" (some 2)),
  (InstKey.two 0xCB 0x30, MetaEntry.mk 0 "SL1 B (undocumemnted)" (some 2)),
  (InstKey.two 0xCB 0x31, MetaEntry.mk 0 "SL1 C (undocumemnted)" (some 2)),
  (InstKey.two 0xCB 0x32, MetaEntry.mk 0 "SL1 D (undocumemnted)" (some 2)),
  (InstKey.two 0xCB 0x33, MetaEntry.mk 0 "SL1 E (undocumemnted)" (some 2)),
  (InstKey.two 0xCB 0x34, MetaEntry.mk 0 "SL1 H (undocumemnted)" (some 2)),
  (InstKey.two 0xCB 0x35, MetaEntry.mk 0 "SL1 L (undocumemnted)" (some 2)),
  (InstKey.two 0xCB 0x36, MetaEntry.mk 0 "SL1 (HL) (undocumemnted)" (some 2)),
  (InstKey.two 0xCB 0x37, MetaEntry.mk 0 "SL1 A (undocumemnted)" (some 2)),
  (InstKey.two 0xCB 0x38, MetaEntry.mk 0 "SRL B" (some 2)),
  (InstKey.two 0xCB 0x39, MetaEntry.mk 0 "SRL C" (some 2)),
  (InstKey.two 0xCB 0x3A, MetaEntry.mk 0 "SRL D" (some 2)),
  (InstKey.two 0xCB 0x3B, MetaEntry.mk 0 "SRL E" (some 2)),
  (InstKey.two 0xCB 0x3C, MetaEntry.mk 0 "SRL H" (some 2)),
  (InstKey.two 0xCB 0x3D, MetaEntry.mk 0 "SRL L" (some 2)),
  (InstKey.two 0xCB 0x3E, MetaEntry.mk 0 "SRL (HL)" (some 2)),
  (InstKey.two 0xCB 0x3F, MetaEntry.mk 0 "SRL A" (some 2)),
  (InstKey.two 0xCB 0x40, MetaEntry.mk 0 "BIT 0,B" (some 2)),
  (InstKey.two 0xCB 0x41, MetaEntry.mk 0 "BIT 0,C" (some 2)),
  (InstKey.two 0xCB 0x42, MetaEntry.mk 0 "BIT 0,D" (some 2)),
  (InstKey.two 0xCB 0x43, MetaEntry.mk 0 "BIT 0,E" (some 2)),
  (InstKey.two 0xCB 0x44, MetaEntry.mk 0 "BIT 0,H" (some 2)),
  (InstKey.two 0xCB 0x45, MetaEntry.mk 0 "BIT 0,L" (some 2)),
  (InstKey.two 0xCB 0x46, MetaEntry.mk 0 "BIT 0,(HL)" (some 2)),
  (InstKey.two 0xCB 0x47, MetaEntry.mk 0 "BIT 0,A" (some 2)),
  (InstKey.two 0xCB 0x48, MetaEntry.mk 0 "BIT 1,B" (some 2)),
  (InstKey.two 0xCB 0x49, MetaEntry.mk 0 "BIT 1,C" (some 2)),
  (InstKey.two 0xCB 0x4A, MetaEntry.mk 0 "BIT 1,D" (some 2)),
  (InstKey.two 0xCB 0x4B, MetaEntry.mk 0 "BIT 1,E" (some 2)),
  (InstKey.two 0xCB 0x4C, MetaEntry.mk 0 "BIT 1,H" (some 2)),
  (InstKey.two 0xCB 0x4D, MetaEntry.mk 0 "BIT 1,L" (some 2)),
  (InstKey.two 0xCB 0x4E, MetaEntry.mk 0 "BIT 1,(HL)" (some 2)),
  (InstKey.two 0xCB 0x4F, MetaEntry.mk 0 "BIT 1,A" (some 2)),
  (InstKey.two 0xCB 0x50, MetaEntry.mk 0 "BIT 2,B" (some 2)),
  (InstKey.two 0xCB 0x51, MetaEntry.mk 0 "BIT 2,C" (some 2)),
  (InstKey.two 0xCB 0x52, MetaEntry.mk 0 "BIT 2,D" (some 2)),
  (InstKey.two 0xCB 0x53, MetaEntry.mk 0 "BIT 2,E" (some 2)),
  (InstKey.two 0xCB 0x54, MetaEntry.mk 0 "BIT 2,H" (some 2)),
  (InstKey.two 0xCB 0x55, MetaEntry.mk 0 "BIT 2,L" (some 2)),
  (InstKey.two 0xCB 0x56, MetaEntry.mk 0 "BIT 2,(HL)" (some 2)),
  (InstKey.two 0xCB 0x57, MetaEntry.mk 0 "BIT 2,A" (some 2)),
  (InstKey.two 0xCB 0x58, MetaEntry.mk 0 "BIT 3,B" (some 2)),
  (InstKey.two 0xCB 0x59, MetaEntry.mk 0 "BIT 3,C" (some 2)),
  (InstKey.two 0xCB 0x5A, MetaEntry.mk 0 "BIT 3,D" (some 2)),
  (InstKey.two 0xCB 0x5B, MetaEntry.mk 0 "BIT 3,E" (some 2)),
  (InstKey.two 0xCB 0x5C, MetaEntry.mk 0 "BIT 3,H" (some 2)),
  (InstKey.two 0xCB 0x5D, MetaEntry.mk 0 "BIT 3,L" (some 2)),
  (InstKey.two 0xCB 0x5E, MetaEntry.mk 0 "BIT 3,(HL)" (some 2)),
  (InstKey.two 0xCB 0x5F, MetaEntry.mk 0 "BIT 3,A" (some 2)),
  (InstKey.two 0xCB 0x60, MetaEntry.mk 0 "BIT 4,B" (some 2)),
  (InstKey.two 0xCB 0x61, MetaEntry.mk 0 "BIT 4,C" (some 2)),
  (InstKey.two 0xCB 0x62, MetaEntry.mk 0 "BIT 4,D" (some 2)),
  (InstKey.two 0xCB 0x63, MetaEntry.mk 0 "BIT 4,E" (some 2)),
  (InstKey.two 0xCB 0x64, MetaEntry.mk 0 "BIT 4,H" (some 2)),
  (InstKey.two 0xCB 0x65, MetaEntry.mk 0 "BIT 4,L" (some 2)),
  (InstKey.two 0xCB 0x66, MetaEntry.mk 0 "BIT 4,(HL)" (some 2)),
  (InstKey.two 0xCB 0x67, MetaEntry.mk 0 "BIT 4,A" (some 2)),
  (InstKey.two 0xCB 0x68, MetaEntry.mk 0 "BIT 5,B" (some 2)),
  (InstKey.two 0xCB 0x69, MetaEntry.mk 0 "BIT 5,C" (some 2)),
  (InstKey.two 0xCB 0x6A, MetaEntry.mk 0 "BIT 5,D" (some 2)),
  (InstKey.two 0xCB 0x6B, MetaEntry.mk 0 "BIT 5,E" (some 2)),
  (InstKey.two 0xCB 0x6C, MetaEntry.mk 0 "BIT 5,H" (some 2)),
  (InstKey.two 0xCB 0x6D, MetaEntry.mk 0 "BIT 5,L" (some 2)),
  (InstKey.two 0xCB 0x6E, MetaEntry.mk 0 "BIT 5,(HL)" (some 2)),
  (InstKey.two 0xCB 0x6F, MetaEntry.mk 0 "BIT 5,A" (some 2)),
  (InstKey.two 0xCB 0x70, MetaEntry.mk 0 "BIT 6,B" (some 2)),
  (InstKey.two 0xCB 0x71, MetaEntry.mk 0 "BIT 6,C" (some 2)),
  (InstKey.two 0xCB 0x72, MetaEntry.mk 0 "BIT 6,D" (some 2)),
  (InstKey.two 0xCB 0x73, MetaEntry.mk 0 "BIT 6,E" (some 2)),
  (InstKey.two 0xCB 0x74, MetaEntry.mk 0 "BIT 6,H" (some 2)),
  (InstKey.two 0xCB 0x75, MetaEntry.mk 0 "BIT 6,L" (some 2)),
  (InstKey.two 0xCB 0x76, MetaEntry.mk 0 "BIT 6,(HL)" (some 2)),
  (InstKey.two 0xCB 0x77, MetaEntry.mk 0 "BIT 6,A" (some 2)),
  (InstKey.two 0xCB 0x78, MetaEntry.mk 0 "BIT 7,B" (some 2)),
  (InstKey.two 0xCB 0x79, MetaEntry.mk 0 "BIT 7,C" (some 2)),
  (InstKey.two 0xCB 0x7A, MetaEntry.mk 0 "BIT 7,D" (some 2)),
  (InstKey.two 0xCB 0x7B, MetaEntry.mk 0 "BIT 7,E" (some 2)),
  (InstKey.two 0xCB 0x7C, MetaEntry.mk 0 "BIT 7,H" (some 2)),
  (InstKey.two 0xCB 0x7D, MetaEntry.mk 0 "BIT 7,L" (some 2)),
  (InstKey.two 0xCB 0x7E, MetaEntry.mk 0 "BIT 7,(HL)" (some 2)),
  (InstKey.two 0xCB 0x7F, MetaEntry.mk 0 "BIT 7,A" (some 2)),
  (InstKey.two 0xCB 0x80, MetaEntry.mk 0 "RES 0,B" (some 2)),
  (InstKey.two 0xCB 0x81, MetaEntry.mk 0 "RES 0,C" (some 2)),
  (InstKey.two 0xCB 0x82, MetaEntry.mk 0 "RES 0,D" (some 2)),
  (InstKey.two 0xCB 0x83, MetaEntry.mk 0 "RES 0,E" (some 2)),
  (InstKey.two 0xCB 0x84, MetaEntry.mk 0 "RES 0,H" (some 2)),
  (InstKey.two 0xCB 0x85, MetaEntry.mk 0 "RES 0,L" (some 2)),
  (InstKey.two 0xCB 0x86, MetaEntry.mk 0 "RES 0,(HL)" (some 2)),
  (InstKey.two 0xCB 0x87, MetaEntry.mk 0 "RES 0,A" (some 2)),
  (InstKey.two 0xCB 0x88, MetaEntry.mk 0 "RES 1,B" (some 2)),
  (InstKey.two 0xCB 0x89, MetaEntry.mk 0 "RES 1,C" (some 2)),
  (InstKey.two 0xCB 0x8A, MetaEntry.mk 0 "RES 1,D" (some 2)),
  (InstKey.two 0xCB 0x8B, MetaEntry.mk 0 "RES 1,E" (some 2)),
  (InstKey.two 0xCB 0x8C, MetaEntry.mk 0 "RES 1,H" (some 2)),
  (InstKey.two 0xCB 0x8D, MetaEntry.mk 0 "RES 1,L" (some 2)),
  (InstKey.two 0xCB 0x8E, MetaEntry.mk 0 "RES 1,(HL)" (some 2)),
  (InstKey.two 0xCB 0x8F, MetaEntry.mk 0 "RES 1,A" (some 2)),
  (InstKey.two 0xCB 0x90, MetaEntry.mk 0 "RES 2,B" (some 2)),
  (InstKey.two 0xCB 0x91, MetaEntry.mk 0 "RES 2,C" (some 2)),
  (InstKey.two 0xCB 0x92, MetaEntry.mk 0 "RES 2,D" (some 2)),
  (InstKey.two 0xCB 0x93, MetaEntry.mk 0 "RES 2,E" (some 2)),
  (InstKey.two 0xCB 0x94, MetaEntry.mk 0 "RES 2,H" (some 2)),
  (InstKey.two 0xCB 0x95, MetaEntry.mk 0 "RES 2,L" (some 2)),
  (InstKey.two 0xCB 0x96, MetaEntry.mk 0 "RES 2,(HL)" (some 2)),
  (InstKey.two 0xCB 0x97, MetaEntry.mk 0 "RES 2,A" (some 2)),
  (InstKey.two 0xCB 0x98, MetaEntry.mk 0 "RES 3,B" (some 2)),
  (InstKey.two 0xCB 0x99, MetaEntry.mk 0 "RES 3,C" (some 2)),
  (InstKey.two 0xCB 0x9A, MetaEntry.mk 0 "RES 3,D" (some 2)),
  (InstKey.two 0xCB 0x9B, MetaEntry.mk 0 "RES 3,E" (some 2)),
  (InstKey.two 0xCB 0x9C, MetaEntry.mk 0 "RES 3,H" (some 2)),
  (InstKey.two 0xCB 0x9D, MetaEntry.mk 0 "RES 3,L" (some 2)),
  (InstKey.two 0xCB 0x9E, MetaEntry.mk 0 "RES 3,(HL)" (some 2)),
  (InstKey.two 0xCB 0x9F, MetaEntry.mk 0 "RES 3,A" (some 2)),
  (InstKey.two 0xCB 0xA0, MetaEntry.mk 0 "RES 4,B" (some 2)),
  (InstKey.two 0xCB 0xA1, MetaEntry.mk 0 "RES 4,C" (some 2)),
  (InstKey.two 0xCB 0xA2, MetaEntry.mk 0 "RES 4,D" (some 2)),
  (InstKey.two 0xCB 0xA3, MetaEntry.mk 0 "RES 4,E" (some 2)),
  (InstKey.two 0xCB 0xA4, MetaEntry.mk 0 "RES 4,H" (some 2)),
  (InstKey.two 0xCB 0xA5, MetaEntry.mk 0 "RES 4,L" (some 2)),
  (InstKey.two 0xCB 0xA6, MetaEntry.mk 0 "RES 4,(HL)" (some 2)),
  (InstKey.two 0xCB 0xA7, MetaEntry.mk 0 "RES 4,A" (some 2)),
  (InstKey.two 0xCB 0xA8, MetaEntry.mk 0 "RES 5,B" (some 2)),
  (InstKey.two 0xCB 0xA9, MetaEntry.mk 0 "RES 5,C" (some 2)),
  (InstKey.two 0xCB 0xAA, MetaEntry.mk 0 "RES 5,D" (some 2)),
  (InstKey.two 0xCB 0xAB, MetaEntry.mk 0 "RES 5,E" (some 2)),
  (InstKey.two 0xCB 0xAC, MetaEntry.mk 0 "RES 5,H" (some 2)),
  (InstKey.two 0xCB 0xAD, MetaEntry.mk 0 "RES 5,L" (some 2)),
  (InstKey.two 0xCB 0xAE, MetaEntry.mk 0 "RES 5,(HL)" (some 2)),
  (InstKey.two 0xCB 0xAF, MetaEntry.mk 0 "RES 5,A" (some 2)),
  (InstKey.two 0xCB 0xB0, MetaEntry.mk 0 "RES 6,B" (some 2)),
  (InstKey.two 0xCB 0xB1, MetaEntry.mk 0 "RES 6,C" (some 2)),
  (InstKey.two 0xCB 0xB2, MetaEntry.mk 0 "RES 6,D" (some 2)),
  (InstKey.two 0xCB 0xB3, MetaEntry.mk 0 "RES 6,E" (some 2)),
  (InstKey.two 0xCB 0xB4, MetaEntry.mk 0 "RES 6,H" (some 2)),
  (InstKey.two 0xCB 0xB5, MetaEntry.mk 0 "RES 6,L" (some 2)),
  (InstKey.two 0xCB 0xB6, MetaEntry.mk 0 "RES 6,(HL)" (some 2)),
  (InstKey.two 0xCB 0xB7, MetaEntry.mk 0 "RES 6,A" (some 2)),
  (InstKey.two 0xCB 0xB8, MetaEntry.mk 0 "RES 7,B" (some 2)),
  (InstKey.two 0xCB 0xB9, MetaEntry.mk 0 "RES 7,C" (some 2)),
  (InstKey.two 0xCB 0xBA, MetaEntry.mk 0 "RES 7,D" (some 2)),
  (InstKey.two 0xCB 0xBB, MetaEntry.mk 0 "RES 7,E" (some 2)),
  (InstKey.two 0xCB 0xBC, MetaEntry.mk 0 "RES 7,H" (some 2)),
  (InstKey.two 0xCB 0xBD, MetaEntry.mk 0 "RES 7,L" (some 2)),
  (InstKey.two 0xCB 0xBE, MetaEntry.mk 0 "RES 7,(HL)" (some 2)),
  (InstKey.two 0xCB 0xBF, MetaEntry.mk 0 "RES 7,A" (some 2)),
  (InstKey.two 0xCB 0xC0, MetaEntry.mk 0 "SET 0,B" (some 2)),
  (InstKey.two 0xCB 0xC1, MetaEntry.mk 0 "SET 0,C" (some 2)),
  (InstKey.two 0xCB 0xC2, MetaEntry.mk 0 "SET 0,D" (some 2)),
  (InstKey.two 0xCB 0xC3, MetaEntry.mk 0 "SET 0,E" (some 2)),
  (InstKey.two 0xCB 0xC4, MetaEntry.mk 0 "SET 0,H" (some 2)),
  (InstKey.two 0xCB 0xC5, MetaEntry.mk 0 "SET 0,L" (some 2)),
  (InstKey.two 0xCB 0xC6, MetaEntry.mk 0 "SET 0,(HL)" (some 2)),
  (InstKey.two 0xCB 0xC7, MetaEntry.mk 0 "SET 0,A" (some 2)),
  (InstKey.two 0xCB 0xC8, MetaEntry.mk 0 "SET 1,B" (some 2)),
  (InstKey.two 0xCB 0xC9, MetaEntry.mk 0 "SET 1,C" (some 2)),
  (InstKey.two 0xCB 0xCA, MetaEntry.mk 0 "SET 1,D" (some 2)),
  (InstKey.two 0xCB 0xCB, MetaEntry.mk 0 "SET 1,E" (some 2)),
  (InstKey.two 0xCB 0xCC, MetaEntry.mk 0 "SET 1,H" (some 2)),
  (InstKey.two 0xCB 0xCD, MetaEntry.mk 0 "SET 1,L" (some 2)),
  (InstKey.two 0xCB 0xCE, MetaEntry.mk 0 "SET 1,(HL)" (some 2)),
  (InstKey.two 0xCB 0xCF, MetaEntry.mk 0 "SET 1,A" (some 2)),
  (InstKey.two 0xCB 0xD0, MetaEntry.mk 0 "SET 2,B" (some 2)),
  (InstKey.two 0xCB 0xD1, MetaEntry.mk 0 "SET 2,C" (some 2)),
  (InstKey.two 0xCB 0xD2, MetaEntry.mk 0 "SET 2,D" (some 2)),
  (InstKey.two 0xCB 0xD3, MetaEntry.mk 0 "SET 2,E" (some 2)),
  (InstKey.two 0xCB 0xD4, MetaEntry.mk 0 "SET 2,H" (some 2)),
  (InstKey.two 0xCB 0xD5, MetaEntry.mk 0 "SET 2,L" (some 2)),
  (InstKey.two 0xCB 0xD6, MetaEntry.mk 0 "SET 2,(HL)" (some 2)),
  (InstKey.two 0xCB 0xD7, MetaEntry.mk 0 "SET 2,A" (some 2)),
  (InstKey.two 0xCB 0xD8, MetaEntry.mk 0 "SET 3,B" (some 2)),
  (InstKey.two 0xCB 0xD9, MetaEntry.mk 0 "SET 3,C" (some 2)),
  (InstKey.two 0xCB 0xDA, MetaEntry.mk 0 "SET 3,D" (some 2)),
  (InstKey.two 0xCB 0xDB, MetaEntry.mk 0 "SET 3,E" (some 2)),
  (InstKey.two 0xCB 0xDC, MetaEntry.mk 0 "SET 3,H" (some 2)),
  (InstKey.two 0xCB 0xDD, MetaEntry.mk 0 "SET 3,L" (some 2)),
  (InstKey.two 0xCB 0xDE, MetaEntry.mk 0 "SET 3,(HL)" (some 2)),
  (InstKey.two 0xCB 0xDF, MetaEntry.mk 0 "SET 3,A" (some 2)),
  (InstKey.two 0xCB 0xE0, MetaEntry.mk 0 "SET 4,B" (some 2)),
  (InstKey.two 0xCB 0xE1, MetaEntry.mk 0 "SET 4,C" (some 2)),
  (InstKey.two 0xCB 0xE2, MetaEntry.mk 0 "SET 4,D" (some 2)),
  (InstKey.two 0xCB 0xE3, MetaEntry.mk 0 "SET 4,E" (some 2)),
  (InstKey.two 0xCB 0xE4, MetaEntry.mk 0 "SET 4,H" (some 2)),
  (InstKey.two 0xCB 0xE5, MetaEntry.mk 0 "SET 4,L" (some 2)),
  (InstKey.two 0xCB 0xE6, MetaEntry.mk 0 "SET 4,(HL)" (some 2)),
  (InstKey.two 0xCB 0xE7, MetaEntry.mk 0 "SET 4,A" (some 2)),
  (InstKey.two 0xCB 0xE8, MetaEntry.mk 0 "SET 5,B" (some 2)),
  (InstKey.two 0xCB 0xE9, MetaEntry.mk 0 "SET 5,C" (some 2)),
  (InstKey.two 0xCB 0xEA, MetaEntry.mk 0 "SET 5,D" (some 2)),
  (InstKey.two 0xCB 0xEB, MetaEntry.mk 0 "SET 5,E" (some 2)),
  (InstKey.two 0xCB 0xEC, MetaEntry.mk 0 "SET 5,H" (some 2)),
  (InstKey.two 0xCB 0xED, MetaEntry.mk 0 "SET 5,L" (some 2)),
  (InstKey.two 0xCB 0xEE, MetaEntry.mk 0 "SET 5,(HL)" (some 2)),
  (InstKey.two 0xCB 0xEF, MetaEntry.mk 0 "SET 5,A" (some 2)),
  (InstKey.two 0xCB 0xF0, MetaEntry.mk 0 "SET 6,B" (some 2)),
  (InstKey.two 0xCB 0xF1, MetaEntry.mk 0 "SET 6,C" (some 2)),
  (InstKey.two 0xCB 0xF2, MetaEntry.mk 0 "SET 6,D" (some 2)),
  (InstKey.two 0xCB 0xF3, MetaEntry.mk 0 "SET 6,E" (some 2)),
  (InstKey.two 0xCB 0xF4, MetaEntry.mk 0 "SET 6,H" (some 2)),
  (InstKey.two 0xCB 0xF5, MetaEntry.mk 0 "SET 6,L" (some 2)),
  (InstKey.two 0xCB 0xF6, MetaEntry.mk 0 "SET 6,(HL)" (some 2)),
  (InstKey.two 0xCB 0xF7, MetaEntry.mk 0 "SET 6,A" (some 2)),
  (InstKey.two 0xCB 0xF8, MetaEntry.mk 0 "SET 7,B" (some 2)),
  (InstKey.two 0xCB 0xF9, MetaEntry.mk 0 "SET 7,C" (some 2)),
  (InstKey.two 0xCB 0xFA, MetaEntry.mk 0 "SET 7,D" (some 2)),
  (InstKey.two 0xCB 0xFB, MetaEntry.mk 0 "SET 7,E" (some 2)),
  (InstKey.two 0xCB 0xFC, MetaEntry.mk 0 "SET 7,H" (some 2)),
  (InstKey.two 0xCB 0xFD, MetaEntry.mk 0 "SET 7,L" (some 2)),
  (InstKey.two 0xCB 0xFE, MetaEntry.mk 0 "SET 7,(HL)" (some 2)),
  (InstKey.two 0xCB 0xFF, MetaEntry.mk 0 "SET 7,A" (some 2)),
  (InstKey.two 0xDD 0x09, MetaEntry.mk 0 "ADD IX,BC" (some 2)),
  (InstKey.two 0xDD 0x19, MetaEntry.mk 0 "ADD IX,DE" (some 2)),
  (InstKey.two 0xDD 0x29, MetaEntry.mk 0 "ADD IX,IX" (some 2)),
  (InstKey.two 0xDD 0x39, MetaEntry.mk 0 "ADD IX,SP" (some 2)),
  (InstKey.two 0xDD 0x21, MetaEntry.mk 0 "LD IX,nn" (some 4)),
  (InstKey.two 0xDD 0x22, MetaEntry.mk 0 "LD (nn),IX" (some 4)),
  (InstKey.two 0xDD 0x23, MetaEntry.mk 0 "INC IX" (some 2)),
  (InstKey.two 0xDD 0x2A, MetaEntry.mk 0 "LD IX,(nn)" (some 4)),
  (InstKey.two 0xDD 0x2B, MetaEntry.mk 0 "DEC IX" (some 2)),
  (InstKey.two 0xDD 0x34, MetaEntry.mk 0 "INC (IX+d)" (some 3)),
  (InstKey.two 0xDD 0x35, MetaEntry.mk 0 "DEC (IX+d)" (some 3)),
  (InstKey.two 0xDD 0x36, MetaEntry.mk 0 "LD (IX+d),n" (some 3)),
  (InstKey.two 0xDD 0x46, MetaEntry.mk 0 "LD B,(IX+d)" none),
  (InstKey.two 0xDD 0x4E, MetaEntry.mk 0 "LD C,(IX+d)" (some 3)),
  (InstKey.two 0xDD 0x56, MetaEntry.mk 0 "LD D,(IX+d)" (some 3)),
  (InstKey.two 0xDD 0x5E, MetaEntry.mk 0 "LD E,(IX+d)" (some 3)),
  (InstKey.two 0xDD 0x66, MetaEntry.mk 0 "LD H,(IX+d)" (some 3)),
  (InstKey.two 0xDD 0x6E, MetaEntry.mk 0 "LD L,(IX+d)" (some 3)),
  (InstKey.two 0xDD 0x70, MetaEntry.mk 0 "LD (IX+d),B" (some 3)),
  (InstKey.two 0xDD 0x71, MetaEntry.mk 0 "LD (IX+d),C" (some 3)),
  (InstKey.two 0xDD 0x72, MetaEntry.mk 0 "LD (IX+d),D" (some 3)),
  (InstKey.two 0xDD 0x73, MetaEntry.mk 0 "LD (IX+d),E" none),
  (InstKey.two 0xDD 0x74, MetaEntry.mk 0 "LD (IX+d),H" (some 3)),
  (InstKey.two 0xDD 0x75, MetaEntry.mk 0 "LD (IX+d),L" (some 3)),
  (InstKey.two 0xDD 0x77, MetaEntry.mk 0 "LD (IX+d),A" (some 3)),
  (InstKey.two 0xDD 0x7E, MetaEntry.mk 0 "LD A,(IX+d)" (some 3)),
  (InstKey.two 0xDD 0x86, MetaEntry.mk 0 "ADD (IX+d)" (some 3)),
  (InstKey.two 0xDD 0x8E, MetaEntry.mk 0 "ADC (IX+d)" (some 3)),
  (InstKey.two 0xDD 0x96, MetaEntry.mk 0 "SUB (IX+d)" (some 3)),
  (InstKey.two 0xDD 0x9E, MetaEntry.mk 0 "SBC (IX+d)" (some 3)),
  (InstKey.two 0xDD 0xA6, MetaEntry.mk 0 "AND (IX+d)" (some 3)),
  (InstKey.two 0xDD 0xAE, MetaEntry.mk 0 "XOR (IX+d)" (some 3)),
  (InstKey.two 0xDD 0xB6, MetaEntry.mk 0 "OR (IX+d)" (some 3)),
  (InstKey.two 0xDD 0xBE, MetaEntry.mk 0 "CP (IX+d)" (some 3)),
  (InstKey.two 0xDD 0xCB, MetaEntry.mk 0 "-- second and third bytes of 4 byte op-code" none),
  (InstKey.two 0xDD 0xE1, MetaEntry.mk 0 "POP IX" (some 2)),
  (InstKey.two 0xDD 0xE3, MetaEntry.mk 0 "EX (SP),IX" none),
  (InstKey.two 0xDD 0xE5, MetaEntry.mk 1 "PUSH IX" (some 2)),
  (InstKey.two 0xDD 0xE9, MetaEntry.mk 0 "JP (IX)" (some 2)),
  (InstKey.two 0xDD 0xF9, MetaEntry.mk 0 "LD SP,IX" (some 2)),
  (InstKey.two 0xED 0x40, MetaEntry.mk 0 "IN B,(C)" (some 2)),
  (InstKey.two 0xED 0x41, MetaEntry.mk 0 "OUT (C),B" (some 2)),
  (InstKey.two 0xED 0x42, MetaEntry.mk 0 "SBC HL,BC" (some 2)),
  (InstKey.two 0xED 0x43, MetaEntry.mk 0 "LD (nn),BC" (some 4)),
  (InstKey.two 0xED 0x44, MetaEntry.mk 0 "NEG" (some 2)),
  (InstKey.two 0xED 0x45, MetaEntry.mk 0 "RETN" (some 2)),
  (InstKey.two 0xED 0x46, MetaEntry.mk 0 "IM0" (some 2)),
  (InstKey.two 0xED 0x47, MetaEntry.mk 0 "LD I,A" (some 2)),
  (InstKey.two 0xED 0x48, MetaEntry.mk 0 "IN C,(C)" (some 2)),
  (InstKey.two 0xED 0x49, MetaEntry.mk 0 "OUT (C),C" (some 2)),
  (InstKey.two 0xED 0x4B, MetaEntry.mk 0 "LD BC,(nn)" (some 4)),
  (InstKey.two 0xED 0x4A, MetaEntry.mk 0 "ADC HL,BC" (some 2)),
  (InstKey.two 0xED 0x4D, MetaEntry.mk 0 "RETI" (some 2)),
  (InstKey.two 0xED 0x4F, MetaEntry.mk 0 "LD R,A" (some 2)),
  (InstKey.two 0xED 0x50, MetaEntry.mk 0 "IN D,(C)" (some 2)),
  (InstKey.two 0xED 0x51, MetaEntry.mk 0 "OUT (C),D" (some 2)),
  (InstKey.two 0xED 0x52, MetaEntry.mk 0 "SBC HL,DE" (some 2)),
  (InstKey.two 0xED 0x53, MetaEntry.mk 0 "LD (nn),DE" (some 4)),
  (InstKey.two 0xED 0x56, MetaEntry.mk 0 "IM1" (some 2)),
  (InstKey.two 0xED 0x57, MetaEntry.mk 0 "LD A,I" (some 2)),
  (InstKey.two 0xED 0x58, MetaEntry.mk 0 "IN E,(C)" (some 2)),
  (InstKey.two 0xED 0x59, MetaEntry.mk 0 "OUT (C),E" (some 2)),
  (InstKey.two 0xED 0x5A, MetaEntry.mk 0 "ADC HL,DE" (some 2)),
  (InstKey.two 0xED 0x5B, MetaEntry.mk 0 "LD DE,(nn)" (some 4)),
  (InstKey.two 0xED 0x5E, MetaEntry.mk 0 "IM2" (some 2)),
  (InstKey.two 0xED 0x5F, MetaEntry.mk 0 "LD A,R" (some 2)),
  (InstKey.two 0xED 0x60, MetaEntry.mk 0 "IN H,(C)" (some 2)),
  (InstKey.two 0xED 0x61, MetaEntry.mk 0 "OUT (C),H" (some 2)),
  (InstKey.two 0xED 0x62, MetaEntry.mk 0 "SBC HL,HL" (some 2)),
  (InstKey.two 0xED 0x67, MetaEntry.mk 0 "RRD" (some 2)),
  (InstKey.two 0xED 0x68, MetaEntry.mk 0 "IN L,(C)" (some 2)),
  (InstKey.two 0xED 0x69, MetaEntry.mk 0 "OUT (C),L" (some 2)),
  (InstKey.two 0xED 0x6A, MetaEntry.mk 0 "ADC HL,HL" (some 2)),
  (InstKey.two 0xED 0x6F, MetaEntry.mk 0 "RLD" (some 2)),
  (InstKey.two 0xED 0x70, MetaEntry.mk 0 "IN F,(C) (undocumented)" (some 2)),
  (InstKey.two 0xED 0x71, MetaEntry.mk 0 "OUT (C),F (undocumented)" (some 2)),
  (InstKey.two 0xED 0x72, MetaEntry.mk 0 "SBC HL,SP" (some 2)),
  (InstKey.two 0xED 0x73, MetaEntry.mk 0 "LD (nn),SP" (some 2)),
  (InstKey.two 0xED 0x78, MetaEntry.mk 0 "IN A,(C)" (some 2)),
  (InstKey.two 0xED 0x79, MetaEntry.mk 0 "OUT (C),A" (some 2)),
  (InstKey.two 0xED 0x7A, MetaEntry.mk 0 "ADC HL,SP" (some 2)),
  (InstKey.two 0xED 0x7B, MetaEntry.mk 0 "LD SP,(nn)" (some 4)),
  (InstKey.two 0xED 0xA0, MetaEntry.mk 0 "LDI" (some 2)),
  (InstKey.two 0xED 0xA1, MetaEntry.mk 0 "CPI" (some 2)),
  (InstKey.two 0xED 0xA2, MetaEntry.mk 0 "INI" (some 2)),
  (InstKey.two 0xED 0xA3, MetaEntry.mk 0 "OUTI" (some 2)),
  (InstKey.two 0xED 0xA8, MetaEntry.mk 0 "LDD" (some 2)),
  (InstKey.two 0xED 0xA9, MetaEntry.mk 0 "CPD" (some 2)),
  (InstKey.two 0xED 0xAA, MetaEntry.mk 0 "IND" (some 2)),
  (InstKey.two 0xED 0xAB, MetaEntry.mk 0 "OUTD" (some 2)),
  (InstKey.two 0xED 0xB0, MetaEntry.mk 0 "LDIR" (some 2)),
  (InstKey.two 0xED 0xB1, MetaEntry.mk 0 "CPIR" (some 2)),
  (InstKey.two 0xED 0xB2, MetaEntry.mk 0 "INIR" (some 2)),
  (InstKey.two 0xED 0xB3, MetaEntry.mk 0 "OUTIR" (some 2)),
  (InstKey.two 0xED 0xB8, MetaEntry.mk 0 "LDDR" (some 2)),
  (InstKey.two 0xED 0xB9, MetaEntry.mk 0 "CPDR" (some 2)),
  (InstKey.two 0xED 0xBA, MetaEntry.mk 0 "INDR" (some 2)),
  (InstKey.two 0xED 0xBB, MetaEntry.mk 0 "OUTDR" (some 2)),
  (InstKey.two 0xFD 0x09, MetaEntry.mk 0 "ADD IY,BC" (some 2)),
  (InstKey.two 0xFD 0x19, MetaEntry.mk 0 "ADD IY,DE" (some 2)),
  (InstKey.two 0xFD 0x23, MetaEntry.mk 0 "INC IY" (some 2)),
  (InstKey.two 0xFD 0x29, MetaEntry.mk 0 "ADD IY,IY" (some 2)),
  (InstKey.two 0xFD 0x2B, MetaEntry.mk 0 "DEC IY" (some 2)),
  (InstKey.two 0xFD 0x39, MetaEntry.mk 0 "ADD IY,SP" (some 2)),
  (InstKey.two 0xFD 0x21, MetaEntry.mk 0 "LD IY,nn" (some 4)),
  (InstKey.two 0xFD 0x22, MetaEntry.mk 0 "LD (nn),IY" (some 4)),
  (InstKey.two 0xFD 0x2A, MetaEntry.mk 0 "LD IY,(nn)" (some 4)),
  (InstKey.two 0xFD 0x34, MetaEntry.mk 0 "INC (IY+d)" (some 3)),
  (InstKey.two 0xFD 0x35, MetaEntry.mk 0 "DEC (IY+d)" (some 3)),
  (InstKey.two 0xFD 0x36, MetaEntry.mk 0 "LD (IY+d),n" (some 4)),
  (InstKey.two 0xFD 0x46, MetaEntry.mk 0 "LD B,(IY+d)" (some 3)),
  (InstKey.two 0xFD 0x4E, MetaEntry.mk 0 "LD C,(IY+d)" (some 3)),
  (InstKey.two 0xFD 0x56, MetaEntry.mk 0 "LD D,(IY+d)" (some 3)),
  (InstKey.two 0xFD 0x5E, MetaEntry.mk 0 "LD E,(IY+d)" (some 3)),
  (InstKey.two 0xFD 0x66, MetaEntry.mk 0 "LD H,(IY+d)" (some 3)),
  (InstKey.two 0xFD 0x6E, MetaEntry.mk 0 "LD L,(IY+d)" (some 3)),
  (InstKey.two 0xFD 0x70, MetaEntry.mk 0 "LD (IY+d),B" (some 3)),
  (InstKey.two 0xFD 0x71, MetaEntry.mk 0 "LD (IY+d),C" (some 3)),
  (InstKey.two 0xFD 0x72, MetaEntry.mk 0 "LD (IY+d),D" (some 3)),
  (InstKey.two 0xFD 0x73, MetaEntry.mk 0 "LD (IY+d),E" (some 3)),
  (InstKey.two 0xFD 0x74, MetaEntry.mk 0 "LD (IY+d),H" (some 3)),
  (InstKey.two 0xFD 0x75, MetaEntry.mk 0 "LD (IY+d),L" (some 3)),
  (InstKey.two 0xFD 0x77, MetaEntry.mk 0 "LD (IY+d),A" (some 3)),
  (InstKey.two 0xFD 0x7E, MetaEntry.mk 0 "LD A,(IY+d)" (some 3)),
  (InstKey.two 0xFD 0x86, MetaEntry.mk 0 "ADD (IY+d)" (some 3)),
  (InstKey.two 0xFD 0x8E, MetaEntry.mk 0 "ADC (IY+d)" (some 3)),
  (InstKey.two 0xFD 0x96, MetaEntry.mk 0 "SUB (IY+d)" (some 3)),
  (InstKey.two 0xFD 0x9E, MetaEntry.mk 0 "SBC (IY+d)" (some 3)),
  (InstKey.two 0xFD 0xA6, MetaEntry.mk 0 "AND (IY+d)" (some 3)),
  (InstKey.two 0xFD 0xAE, MetaEntry.mk 0 "XOR (IY+d)" (some 3)),
  (InstKey.two 0xFD 0xB6, MetaEntry.mk 0 "OR (IY+d)" (some 3)),
  (InstKey.two 0xFD 0xBE, MetaEntry.mk 0 "CP (IY+d)" (some 3)),
  (InstKey.two 0xFD 0xCB, MetaEntry.mk 0 "" (some 0)),
  (InstKey.two 0xFD 0xE1, MetaEntry.mk 0 "POP IY" (some 2)),
  (InstKey.two 0xFD 0xE3, MetaEntry.mk 0 "EX (SP),IY" (some 2)),
  (InstKey.two 0xFD 0xE5, MetaEntry.mk 1 "PUSH IY" (some 2)),
  (InstKey.two 0xFD 0xE9, MetaEntry.mk 0 "JP (IY)" (some 2)),
  (InstKey.two 0xFD 0xF9, MetaEntry.mk 0 "LD SP,IY" (some 2)),
  (InstKey.three 0xDD 0xCB 0x06, MetaEntry.mk 0 "RLC (IX+d)" (some 4)),
  (InstKey.three 0xDD 0xCB 0x0E, MetaEntry.mk 0 "RRC (IX+d)" (some 4)),
  (InstKey.three 0xDD 0xCB 0x16, MetaEntry.mk 0 "RL (IX+d)" (some 4)),
  (InstKey.three 0xDD 0xCB 0x1E, MetaEntry.mk 0 "RR (IX+d)" (some 4)),
  (InstKey.three 0xDD 0xCB 0x26, MetaEntry.mk 0 "SLA (IX+d)" (some 4)),
  (InstKey.three 0xDD 0xCB 0x2E, MetaEntry.mk 0 "SRA (IX+d)" (some 4)),
  (InstKey.three 0xDD 0xCB 0x36, MetaEntry.mk 0 "SL1 (IX+d) (undocumemnted)" (some 4)),
  (InstKey.three 0xDD 0xCB 0x3E, MetaEntry.mk 0 "SRA (IX+d)" (some 4)),
  (InstKey.three 0xDD 0xCB 0x46, MetaEntry.mk 0 "BIT 0,(IX+d)" (some 4)),
  (InstKey.three 0xDD 0xCB 0x4E, MetaEntry.mk 0 "BIT 1,(IX+d)" (some 4)),
  (InstKey.three 0xDD 0xCB 0x56, MetaEntry.mk 0 "BIT 2,(IX+d)" (some 4)),
  (InstKey.three 0xDD 0xCB 0x5E, MetaEntry.mk 0 "BIT 3,(IX+d)" (some 4)),
  (InstKey.three 0xDD 0xCB 0x66, MetaEntry.mk 0 "BIT 4,(IX+d)" (some 4)),
  (InstKey.three 0xDD 0xCB 0x6E, MetaEntry.mk 0 "BIT 5,(IX+d)" (some 4)),
  (InstKey.three 0xDD 0xCB 0x76, MetaEntry.mk 0 "BIT 6,(IX+d)" (some 4)),
  (InstKey.three 0xDD 0xCB 0x7E, MetaEntry.mk 0 "BIT 7,(IX+d)" (some 4)),
  (InstKey.three 0xDD 0xCB 0x86, MetaEntry.mk 0 "RES 0,(IX+d)" (some 4)),
  (InstKey.three 0xDD 0xCB 0x8E, MetaEntry.mk 0 "RES 1,(IX+d)" (some 4)),
  (InstKey.three 0xDD 0xCB 0x96, MetaEntry.mk 0 "RES 2,(IX+d)" (some 4)),
  (InstKey.three 0xDD 0xCB 0x9E, MetaEntry.mk 0 "RES 3,(IX+d)" (some 4)),
  (InstKey.three 0xDD 0xCB 0xA6, MetaEntry.mk 0 "RES 4,(IX+d)" (some 4)),
  (InstKey.three 0xDD 0xCB 0xAE, MetaEntry.mk 0 "RES 5,(IX+d)" (some 4)),
  (InstKey.three 0xDD 0xCB 0xB6, MetaEntry.mk 0 "RES 6,(IX+d)" (some 4)),
  (InstKey.three 0xDD 0xCB 0xBE, MetaEntry.mk 0 "RES 7,(IX+d)" (some 4)),
  (InstKey.three 0xDD 0xCB 0xC6, MetaEntry.mk 0 "SET 0,(IX+d)" (some 4)),
  (InstKey.three 0xDD 0xCB 0xCE, MetaEntry.mk 0 "SET 1,(IX+d)" (some 4)),
  (InstKey.three 0xDD 0xCB 0xD6, MetaEntry.mk 0 "SET 2,(IX+d)" (some 4)),
  (InstKey.three 0xDD 0xCB 0xDE, MetaEntry.mk 0 "SET 3,(IX+d)" (some 4)),
  (InstKey.three 0xDD 0xCB 0xE6, MetaEntry.mk 0 "SET 4,(IX+d)" (some 4)),
  (InstKey.three 0xDD 0xCB 0xEE, MetaEntry.mk 0 "SET 5,(IX+d)" (some 4)),
  (InstKey.three 0xDD 0xCB 0xF6, MetaEntry.mk 0 "SET 6,(IX+d)" (some 4)),
  (InstKey.three 0xDD 0xCB 0xFE, MetaEntry.mk 0 "SET 7,(IX+d)" (some 4)),
  (InstKey.three 0xFD 0xCB 0x06, MetaEntry.mk 0 "RLC (IY+d)" (some 4)),
  (InstKey.three 0xFD 0xCB 0x0E, MetaEntry.mk 0 "RRC (IY+d)" (some 4)),
  (InstKey.three 0xFD 0xCB 0x16, MetaEntry.mk 0 "RL (IY+d)" (some 4)),
  (InstKey.three 0xFD 0xCB 0x1E, MetaEntry.mk 0 "RR (IY+d)" (some 4)),
  (InstKey.three 0xFD 0xCB 0x26, MetaEntry.mk 0 "SLA (IY+d)" (some 4)),
  (InstKey.three 0xFD 0xCB 0x2E, MetaEntry.mk 0 "SRA (IY+d)" (some 4)),
  (InstKey.three 0xFD 0xCB 0x36, MetaEntry.mk 0 "SL1 (IY+d) (undocumemnted)" (some 4)),
  (InstKey.three 0xFD 0xCB 0x3E, MetaEntry.mk 0 "SRA (IY+d)" (some 4)),
  (InstKey.three 0xFD 0xCB 0x46, MetaEntry.mk 0 "BIT 0,(IY+d)" (some 4)),
  (InstKey.three 0xFD 0xCB 0x4E, MetaEntry.mk 0 "BIT 1,(IY+d)" (some 4)),
  (InstKey.three 0xFD 0xCB 0x56, MetaEntry.mk 0 "BIT 2,(IY+d)" (some 4)),
  (InstKey.three 0xFD 0xCB 0x5E, MetaEntry.mk 0 "BIT 3,(IY+d)" (some 4)),
  (InstKey.three 0xFD 0xCB 0x66, MetaEntry.mk 0 "BIT 4,(IY+d)" (some 4)),
  (InstKey.three 0xFD 0xCB 0x6E, MetaEntry.mk 0 "BIT 5,(IY+d)" (some 4)),
  (InstKey.three 0xFD 0xCB 0x76, MetaEntry.mk 0 "BIT 6,(IY+d)" (some 4)),
  (InstKey.three 0xFD 0xCB 0x7E, MetaEntry.mk 0 "BIT 7,(IY+d)" (some 4)),
  (InstKey.three 0xFD 0xCB 0x86, MetaEntry.mk 0 "RES 0,(IY+d)" (some 4)),
  (InstKey.three 0xFD 0xCB 0x8E, MetaEntry.mk 0 "RES 1,(IY+d)" (some 4)),
  (InstKey.three 0xFD 0xCB 0x96, MetaEntry.mk 0 "RES 2,(IY+d)" (some 4)),
  (InstKey.three 0xFD 0xCB 0x9E, MetaEntry.mk 0 "RES 3,(IY+d)" (some 4)),
  (InstKey.three 0xFD 0xCB 0xA6, MetaEntry.mk 0 "RES 4,(IY+d)" (some 4)),
  (InstKey.three 0xFD 0xCB 0xAE, MetaEntry.mk 0 "RES 5,(IY+d)" (some 4)),
  (InstKey.three 0xFD 0xCB 0xB6, MetaEntry.mk 0 "RES 6,(IY+d)" (some 4)),
  (InstKey.three 0xFD 0xCB 0xBE, MetaEntry.mk 0 "RES 7,(IY+d)" (some 4)),
  (InstKey.three 0xFD 0xCB 0xC6, MetaEntry.mk 0 "SET 0,(IY+d)" (some 4)),
  (InstKey.three 0xFD 0xCB 0xCE, MetaEntry.mk 0 "SET 1,(IY+d)" (some 4)),
  (InstKey.three 0xFD 0xCB 0xD6, MetaEntry.mk 0 "SET 2,(IY+d)" (some 4)),
  (InstKey.three 0xFD 0xCB 0xDE, MetaEntry.mk 0 "SET 3,(IY+d)" (some 4)),
  (InstKey.three 0xFD 0xCB 0xE6, MetaEntry.mk 0 "SET 4,(IY+d)" (some 4)),
  (InstKey.three 0xFD 0xCB 0xEE, MetaEntry.mk 0 "SET 5,(IY+d)" (some 4)),
  (InstKey.three 0xFD 0xCB 0xF6, MetaEntry.mk 0 "SET 6,(IY+d)" (some 4)),
  (InstKey.three 0xFD 0xCB 0xFE, MetaEntry.mk 0 "SET 7,(IY+d)" (some 4))
]

/-- Dictionary lookup `INSTRUCTION_STATES[key]` (the keys are pairwise
distinct in the source, so association-list lookup agrees with the dict). -/
def lookupMeta (k : InstKey) : Option MetaEntry :=
  (INSTRUCTION_STATES_meta.find? (fun p => decide (p.1 = k))).map Prod.snd

/-- The error type `UnrecognisedInstructionError` (machinestates.py lines
4–11): carries the offending instruction key verbatim in its `inst`
attribute (the constructor also formats a message string, which changes no
state). -/
structure UnrecognisedInstructionError where
  inst : InstKey
deriving DecidableEq

/-- Lines 2330–2335, `decode_instruction`: return
`INSTRUCTION_STATES[instruction][:3]` when the key is in the table, else
raise `UnrecognisedInstructionError(instruction)`.  The returned table row
is represented here by its `MetaEntry` (its first component `extra` is the
decoded triple's extra-tick count; the higher-order actions/states
components of the opcodes executed in this development are embedded by
`entrySem` below). -/
def decode_instruction (instruction : InstKey) :
    Except UnrecognisedInstructionError MetaEntry :=
  match lookupMeta instruction with
  | some e => Except.ok e
  | none => Except.error ⟨instruction⟩

/-! ## The register file

Modelled from the spec (§3, §4.1): the register file lives in the external
`CPU` object; named access to 8-bit registers and 16-bit views with the
high byte in the upper position; writes to an 8-bit register are masked to
8 bits, to a 16-bit register to 16 bits.  The shadow bank fields (`A2` …
`L2`) stand for A′ … L′. -/
structure Regs where
  A : Nat := 0
  F : Nat := 0
  B : Nat := 0
  C : Nat := 0
  D : Nat := 0
  E : Nat := 0
  H : Nat := 0
  L : Nat := 0
  A2 : Nat := 0
  F2 : Nat := 0
  B2 : Nat := 0
  C2 : Nat := 0
  D2 : Nat := 0
  E2 : Nat := 0
  H2 : Nat := 0
  L2 : Nat := 0
  IXH : Nat := 0
  IXL : Nat := 0
  IYH : Nat := 0
  IYL : Nat := 0
  I : Nat := 0
  R : Nat := 0
  SP : Nat := 0
  PC : Nat := 0
deriving DecidableEq

/-- Mask a Python int to an unsigned byte (`& 0xFF`, two's complement on
negatives, i.e. `%` with a nonnegative result). -/
def mask8 (v : Int) : Nat := (v % 256).toNat

/-- Mask a Python int to an unsigned 16-bit word (`& 0xFFFF`). -/
def mask16 (v : Int) : Nat := (v % 65536).toNat

/-- Register names, as the strings used by the decode table. -/
inductive RegName where
  | A | F | B | C | D | E | H | L
  | I | R
  | IXH | IXL | IYH | IYL
  | BC | DE | HL | AF | IX | IY
  | SP | PC
  | SPH | SPL | PCH | PCL
deriving DecidableEq

/-- `getattr(cpu.reg, name)`: read a register or 16-bit view. -/
def regGet (r : RegName) (rs : Regs) : Nat :=
  match r with
  | .A => rs.A
  | .F => rs.F
  | .B => rs.B
  | .C => rs.C
  | .D => rs.D
  | .E => rs.E
  | .H => rs.H
  | .L => rs.L
  | .I => rs.I
  | .R => rs.R
  | .IXH => rs.IXH
  | .IXL => rs.IXL
  | .IYH => rs.IYH
  | .IYL => rs.IYL
  | .BC => (rs.B <<< 8) ||| rs.C
  | .DE => (rs.D <<< 8) ||| rs.E
  | .HL => (rs.H <<< 8) ||| rs.L
  | .AF => (rs.A <<< 8) ||| rs.F
  | .IX => (rs.IXH <<< 8) ||| rs.IXL
  | .IY => (rs.IYH <<< 8) ||| rs.IYL
  | .SP => rs.SP
  | .PC => rs.PC
  | .SPH => (rs.SP >>> 8) &&& 255
  | .SPL => rs.SP &&& 255
  | .PCH => (rs.PC >>> 8) &&& 255
  | .PCL => rs.PC &&& 255

/-- `setattr(cpu.reg, name, v)`: write a register or 16-bit view, masked to
its width; a 16-bit view decomposes into its two 8-bit halves. -/
def regSet (r : RegName) (v : Int) (rs : Regs) : Regs :=
  match r with
  | .A => { rs with A := mask8 v }
  | .F => { rs with F := mask8 v }
  | .B => { rs with B := mask8 v }
  | .C => { rs with C := mask8 v }
  | .D => { rs with D := mask8 v }
  | .E => { rs with E := mask8 v }
  | .H => { rs with H := mask8 v }
  | .L => { rs with L := mask8 v }
  | .I => { rs with I := mask8 v }
  | .R => { rs with R := mask8 v }
  | .IXH => { rs with IXH := mask8 v }
  | .IXL => { rs with IXL := mask8 v }
  | .IYH => { rs with IYH := mask8 v }
  | .IYL => { rs with IYL := mask8 v }
  | .BC => { rs with B := (mask16 v) >>> 8, C := (mask16 v) &&& 255 }
  | .DE => { rs with D := (mask16 v) >>> 8, E := (mask16 v) &&& 255 }
  | .HL => { rs with H := (mask16 v) >>> 8, L := (mask16 v) &&& 255 }
  | .AF => { rs with A := (mask16 v) >>> 8, F := (mask16 v) &&& 255 }
  | .IX => { rs with IXH := (mask16 v) >>> 8, IXL := (mask16 v) &&& 255 }
  | .IY => { rs with IYH := (mask16 v) >>> 8, IYL := (mask16 v) &&& 255 }
  | .SP => { rs with SP := mask16 v }
  | .PC => { rs with PC := mask16 v }
  | .SPH => { rs with SP := ((mask8 v) <<< 8) ||| (rs.SP &&& 255) }
  | .SPL => { rs with SP := (rs.SP &&& 65280) ||| mask8 v }
  | .PCH => { rs with PC := ((mask8 v) <<< 8) ||| (rs.PC &&& 255) }
  | .PCL => { rs with PC := (rs.PC &&& 65280) ||| mask8 v }

/-- The register-name width rule of `inc`/`dec` (lines 120–136):
`len(reg) % 2 == 0` — two-character names are the 16-bit registers. -/
def RegName.is16 : RegName → Bool
  | .BC | .DE | .HL | .AF | .IX | .IY | .SP | .PC => true
  | _ => false

/-- Modelled from the spec (§6): the CPU object owned by the external
driver, as visible to machine states: the register file, the membus
(`read`/`write` become a function `Int → Int` with functional update),
IFF1/IFF2, the interrupt mode and the `int` interrupt-pending latch read
by HALT.  `most_recent_instruction` is trace-only and not modelled. -/
structure CPU where
  reg : Regs
  mem : Int → Int
  iff1 : Nat := 0
  iff2 : Nat := 0
  interrupt_mode : Nat := 0
  intlatch : Bool := false

/-- The keys of the cascading parameter bag used by the opcodes executed
here. -/
inductive KwKey where
  | value | address | target
deriving DecidableEq

/-- The cascading parameter bag (`kwargs`), restricted to the keys the
executed opcodes use. -/
structure Kwargs where
  value : Option Int := none
  address : Option Int := none
  target : Option Int := none

/-- The clean parameter bag of a freshly constructed machine state. -/
def emptyKwargs : Kwargs := {}

def kwGet (k : KwKey) (kw : Kwargs) : Option Int :=
  match k with
  | .value => kw.value
  | .address => kw.address
  | .target => kw.target

def kwSet (k : KwKey) (v : Int) (kw : Kwargs) : Kwargs :=
  match k with
  | .value => { kw with value := some v }
  | .address => { kw with address := some v }
  | .target => { kw with target := some v }

/-- The state threaded through one pipeline: the CPU, the parameter bag
(the source transfers it from a finished state to the next, which here is
simple persistence), the shared injected data-source iterator, and the
early-abort flag.  `early_abort` pops the pipeline down to its head; since
no action ever reads the pipeline, raising a flag that makes the runner
drop the queued tail when the current state finishes is observationally
the same truncation. -/
structure Core where
  cpu : CPU
  kwargs : Kwargs := {}
  ds : List Nat := []
  abortFlag : Bool := false

/-- A state-only micro-operation (called as `action(state)`). -/
abbrev Act := Core → Core

/-- A micro-operation taking the cascaded operand (called as
`action(state, D)`). -/
abbrev ActV := Core → Int → Core

def getR (r : RegName) (c : Core) : Nat := regGet r c.cpu.reg

def withReg (r : RegName) (v : Int) (c : Core) : Core :=
  { c with cpu := { c.cpu with reg := regSet r v c.cpu.reg } }

def getflagC (f : Flag) (c : Core) : Nat := getflag f (getR .F c)

/-- `JP()` used as an `SR`/`MR` action: jump to the cascaded operand
(lines 16–32, the `len(args) > 0` branch). -/
def JPa : ActV := fun c v => withReg .PC v c

/-- `JP(value)` with a literal target (lines 16–32, `value is not None`). -/
def JPconst (t : Int) : ActV := fun c _ => withReg .PC t c

/-- `LDr(reg)` used as an action: load the cascaded operand into the
register (lines 48–60, the `len(args) > 0` branch). -/
def LDra (r : RegName) : ActV := fun c v => withReg r v c

/-- `RRr(n, value=callable)` used as an action: store
`value(state, D)` under kwargs key `n` (lines 68–82). -/
def RRra (k : KwKey) (f : Core → Int → Int) : ActV :=
  fun c v => { c with kwargs := kwSet k (f c v) c.kwargs }

/-- `do_each(*actions)` over state-only actions (lines 113–118). -/
def do_each (acts : List Act) : Act :=
  fun c => acts.foldl (fun cc a => a cc) c

/-- `inc(reg)` (lines 120–127): modular increment, width by name length. -/
def inc (reg : RegName) : Act := fun c =>
  if reg.is16 then
    withReg reg (((regGet reg c.cpu.reg + 1) &&& 65535 : Nat) : Int) c
  else
    withReg reg (((regGet reg c.cpu.reg + 1) &&& 255 : Nat) : Int) c

/-- `dec(reg)` (lines 129–136): modular decrement, width by name length. -/
def dec (reg : RegName) : Act := fun c =>
  if reg.is16 then
    withReg reg (((65535 + regGet reg c.cpu.reg) &&& 65535 : Nat) : Int) c
  else
    withReg reg (((255 + regGet reg c.cpu.reg) &&& 255 : Nat) : Int) c

/-- `inta(ds)` (lines 138–145): consume one element of the data source,
ignoring it (exhaustion is swallowed). -/
def inta : Act := fun c => { c with ds := c.ds.tail }

/-- `on_zero(reg, action)` (lines 147–152). -/
def on_zero (reg : RegName) (a : Act) : Act := fun c =>
  if regGet reg c.cpu.reg = 0 then a c else c

/-- `on_flag(flag, action)` (lines 154–159). -/
def on_flag (f : Flag) (a : Act) : Act := fun c =>
  if getflagC f c = 1 then a c else c

/-- `unless_flag(flag, action)` (lines 161–166). -/
def unless_flag (f : Flag) (a : Act) : Act := fun c =>
  if getflagC f c = 0 then a c else c

/-- `on_condition(condition, action)` (lines 168–173). -/
def on_condition (p : Core → Bool) (a : Act) : Act := fun c =>
  if p c then a c else c

/-- `clear_flag(flag)` (lines 188–192). -/
def clear_flag (f : Flag) : Act := fun c =>
  withReg .F ((resetflag f (getR .F c) : Nat) : Int) c

/-- `early_abort()` (lines 194–199): truncate the pipeline to its head
(realised by the runner when the current state completes). -/
def early_abort : Act := fun c => { c with abortFlag := true }

/-- `subfrom(r)` (lines 107–111) used as an `IO` transform: `r - d` on
Python ints (may go negative). -/
def subfrom (r : RegName) : Core → Int → Int :=
  fun c d => (regGet r c.cpu.reg : Int) - d

/-- `set_flags(template)` used as a state-only action with the defaults
`key="value"`, no `source`/`value`/`dest` (the block-instruction call
sites): reads `kwargs['value']` (always present at those sites; a missing
key would raise `KeyError`), applies the template via `set_flags_core`,
and writes the masked 8-bit value back under `kwargs['value']`
(lines 201–269). -/
def set_flags_action (c0 c1 c2 c3 c4 c5 c6 c7 : Char) : Act := fun c =>
  let D := (kwGet .value c.kwargs).getD 0
  let F2 := set_flags_core c0 c1 c2 c3 c4 c5 c6 c7 D (getR .F c) c.cpu.iff2
  let c1' := withReg .F ((F2 : Nat) : Int) c
  { c1' with kwargs := kwSet .value (D % 256) c1'.kwargs }

/-! ## Machine states (machinestates.py lines 326–793)

A deep representation of the machine states spawned by the opcodes executed in
this development; constructor fields mirror the factory parameters (with
higher-order parameters embedded shallowly).  Timing: a state's T-cycle
count is the number of `yield`s of its `run` generator plus one — the last
`clock` call runs the tail of the generator, catches `StopIteration` and
pops the state. -/
inductive MState where
  | ocf (pfx : List Nat) (useDs : Bool) (extra : Nat)
  | od (signed : Bool) (key : KwKey) (compound : Option (Int → Int → Int))
      (action : Option ActV) (useDs : Bool)
  | mr (address : Option Int) (indirect : Option RegName)
      (compound : Option (Int → Int → Int)) (action : Option ActV)
      (incaddr : Bool)
  | mw (address : Option Int) (indirect : Option RegName)
      (value : Option Int) (source : Option RegName) (action : Option ActV)
      (extra : Nat)
  | sr (compound : Option (Int → Int → Int)) (action : Option ActV)
      (extra : Nat)
  | sw (source : Option RegName) (key : KwKey) (extra : Nat)
      (action : Option ActV)
  | io (ticks : Nat) (tValue : Option (Core → Int → Int))
      (tAddress : Option (Core → Int → Int)) (action : Option Act)

/-- `state().setcpu(cpu).set_data_source(ds)` (line 422): the states a
decoding OCF spawns inherit its data source; only OCF and OD ever read
it. -/
def MState.withDs (b : Bool) : MState → MState
  | .ocf p _ e => .ocf p b e
  | .od s k cp a _ => .od s k cp a b
  | s => s

/-- T-cycles of one OCF state (lines 400–431): three fixed `yield`s, then
`for n in range(0, extra + extra_clocks - 1): yield`, then the final call;
Nat subtraction matches Python's empty range for `extra + k - 1 ≤ 0`. -/
def ocfTicks (extra k : Nat) : Nat := 4 + (extra + k - 1)

/-- A semantic decode-table entry: the `(extra_clocks, actions, states)`
triple returned by `decode_instruction`. -/
structure SemEntry where
  extra : Nat
  actions : List Act
  states : List MState

/-- The composite `IO` action of CPIR (table entry `(0xED, 0xB1)`,
lines 2057–2065): flags from template `-Z50311-`, `inc HL`, `dec BC`,
clear V when BC hits zero, abort on BC = 0 and on flag Z. -/
def cpirIOaction : Act :=
  do_each [set_flags_action '-' 'Z' '5' '0' '3' '1' '1' '-',
    inc .HL, dec .BC,
    on_zero .BC (clear_flag .PV),
    on_zero .BC early_abort,
    on_flag .Z early_abort]

/-- The semantic parts (elements 1 and 2 of the table row) of the opcodes
executed in this development, transcribed from `INSTRUCTION_STATES`
(`SR`/`SW`/`MR` keep their default `compound=high_after_low`,
`key='value'`, `incaddr=True`): HALT (0x76), PUSH/POP rr, RET Z (0xC8),
the DD/ED/FD prefix rows, and CPIR ((0xED, 0xB1)). -/
def entrySem : InstKey → Option SemEntry
  | .one 0x76 => some ⟨0,
      [on_condition (fun c => !c.cpu.intlatch) (dec .PC)], []⟩
  | .one 0xC1 => some ⟨0, [],
      [.sr (some high_after_low) none 0,
       .sr (some high_after_low) (some (LDra .BC)) 0]⟩
  | .one 0xC5 => some ⟨1, [],
      [.sw (some .B) .value 0 none, .sw (some .C) .value 0 none]⟩
  | .one 0xC8 => some ⟨1, [unless_flag .Z early_abort],
      [.sr (some high_after_low) none 0,
       .sr (some high_after_low) (some JPa) 0]⟩
  | .one 0xD1 => some ⟨0, [],
      [.sr (some high_after_low) none 0,
       .sr (some high_after_low) (some (LDra .DE)) 0]⟩
  | .one 0xD5 => some ⟨1, [],
      [.sw (some .D) .value 0 none, .sw (some .E) .value 0 none]⟩
  | .one 0xE1 => some ⟨0, [],
      [.sr (some high_after_low) none 0,
       .sr (some high_after_low) (some (LDra .HL)) 0]⟩
  | .one 0xE5 => some ⟨1, [],
      [.sw (some .H) .value 0 none, .sw (some .L) .value 0 none]⟩
  | .one 0xF1 => some ⟨0, [],
      [.sr (some high_after_low) none 0,
       .sr (some high_after_low) (some (LDra .AF)) 0]⟩
  | .one 0xF5 => some ⟨1, [],
      [.sw (some .A) .value 0 none, .sw (some .F) .value 0 none]⟩
  | .one 0xDD => some ⟨0, [], [.ocf [0xDD] false 0]⟩
  | .one 0xED => some ⟨0, [], [.ocf [0xED] false 0]⟩
  | .one 0xFD => some ⟨0, [], [.ocf [0xFD] false 0]⟩
  | .two 0xDD 0xE1 => some ⟨0, [],
      [.sr (some high_after_low) none 0,
       .sr (some high_after_low) (some (LDra .IX)) 0]⟩
  | .two 0xDD 0xE5 => some ⟨1, [],
      [.sw (some .IXH) .value 0 none, .sw (some .IXL) .value 0 none]⟩
  | .two 0xFD 0xE1 => some ⟨0, [],
      [.sr (some high_after_low) none 0,
       .sr (some high_after_low) (some (LDra .IY)) 0]⟩
  | .two 0xFD 0xE5 => some ⟨1, [],
      [.sw (some .IYH) .value 0 none, .sw (some .IYL) .value 0 none]⟩
  | .two 0xED 0xB1 => some ⟨0, [],
      [.mr none (some .HL) (some high_after_low) none true,
       .io 5 (some (subfrom .A)) none (some cpirIOaction),
       .io 5 none none (some (do_each [dec .PC, dec .PC]))]⟩
  | _ => none

/-- Byte fetch of OCF/OD: from the attached data source when present
(`StopIteration` ⇒ 0x00), else `membus.read` at the given address. -/
def fetchByte (useDs : Bool) (addr : Int) (c : Core) : Int × Core :=
  if useDs then
    match c.ds with
    | [] => ((0 : Int), c)
    | d :: rest => ((d : Int), { c with ds := rest })
  else (c.cpu.mem addr, c)

/-- Build the opcode key from an optional prefix (line 412–415). -/
def mkKey (pfx : List Nat) (b : Nat) : Option InstKey :=
  match pfx with
  | [] => some (.one b)
  | [p] => some (.two p b)
  | [p, q] => some (.three p q b)
  | _ => none

/-- Functional membus write. -/
def memWrite (addr v : Int) (c : Core) : Core :=
  { c with cpu :=
      { c.cpu with mem := fun x => if x = addr then v else c.cpu.mem x } }

/-- OCF big step (lines 400–431): latch PC, fetch the opcode byte (data
source or membus), build the (possibly prefixed) key, decode, advance PC
unless fetching from the data source, append the follow-on states (which
inherit the data source), then run the end-of-OCF actions.  `none` models
the uncaught `UnrecognisedInstructionError` of `decode_instruction`. -/
def stepOCF (pfx : List Nat) (useDs : Bool) (extra : Nat) (c : Core)
    (rest : List MState) : Option (Core × List MState × Nat) :=
  let PC0 := c.cpu.reg.PC
  let bc1 := fetchByte useDs (PC0 : Int) c
  match mkKey pfx bc1.1.toNat with
  | none => none
  | some key =>
      match entrySem key with
      | none => none
      | some e =>
          let c2 := if useDs then bc1.2
            else withReg .PC ((PC0 : Int) + 1) bc1.2
          let spawned := e.states.map (MState.withDs useDs)
          let c3 := e.actions.foldl (fun cc a => a cc) c2
          some (c3, rest ++ spawned, ocfTicks extra e.extra)

/-- OD big step (lines 464–487): fetch a data byte at PC (or from the data
source), sign-adjust, advance PC unless on a data source, compound with an
existing kwarg, then action or store. -/
def stepOD (signed : Bool) (key : KwKey) (compound : Option (Int → Int → Int))
    (action : Option ActV) (useDs : Bool) (c : Core) (rest : List MState) :
    Option (Core × List MState × Nat) :=
  let PC0 := c.cpu.reg.PC
  let dc1 := fetchByte useDs (PC0 : Int) c
  let D1 := if signed ∧ 128 ≤ dc1.1 then dc1.1 - 256 else dc1.1
  let c2 := if useDs then dc1.2 else withReg .PC ((PC0 : Int) + 1) dc1.2
  let D2 := match kwGet key c2.kwargs, compound with
    | some old, some f => f D1 old
    | _, _ => D1
  let c3 := match action with
    | some a => a c2 D2
    | none => { c2 with kwargs := kwSet key D2 c2.kwargs }
  some (c3, rest, 3)

/-- Address resolution shared by MR and MW (lines 524–536, 599–611):
literal address, register indirect, or the cascaded `address` kwarg;
`none` models the raised `Exception` when all three are missing. -/
def resolveAddr (address : Option Int) (indirect : Option RegName)
    (c : Core) : Option Int :=
  match address with
  | some a => some a
  | none =>
      match indirect with
      | some r => some ((regGet r c.cpu.reg : Nat) : Int)
      | none => kwGet .address c.kwargs

/-- MR big step (lines 524–560): read membus, compound with the cascaded
`value`, post-increment the `address` kwarg when `incaddr`, then action or
store. -/
def stepMR (address : Option Int) (indirect : Option RegName)
    (compound : Option (Int → Int → Int)) (action : Option ActV)
    (incaddr : Bool) (c : Core) (rest : List MState) :
    Option (Core × List MState × Nat) :=
  match resolveAddr address indirect c with
  | none => none
  | some addr =>
      let D0 := c.cpu.mem addr
      let D1 := match kwGet .value c.kwargs, compound with
        | some old, some f => f D0 old
        | _, _ => D0
      let c1 := if incaddr then
          { c with kwargs := kwSet .address (addr + 1) c.kwargs }
        else c
      let c2 := match action with
        | some a => a c1 D1
        | none => { c1 with kwargs := kwSet .value D1 c1.kwargs }
      some (c2, rest, 3)

/-- MW big step (lines 599–646): resolve address and value (literal,
register or cascaded kwarg), write membus, post-increment the `address`
kwarg, idle `extra` ticks, then action. -/
def stepMW (address : Option Int) (indirect : Option RegName)
    (value : Option Int) (source : Option RegName) (action : Option ActV)
    (extra : Nat) (c : Core) (rest : List MState) :
    Option (Core × List MState × Nat) :=
  match resolveAddr address indirect c with
  | none => none
  | some addr =>
      let vO : Option Int := match value with
        | some v => some v
        | none =>
            match source with
            | some r => some ((regGet r c.cpu.reg : Nat) : Int)
            | none => kwGet .value c.kwargs
      match vO with
      | none => none
      | some v =>
          let c1 := memWrite addr v c
          let c2 := { c1 with kwargs := kwSet .address (addr + 1) c1.kwargs }
          let c3 := match action with
            | some a => a c2 v
            | none => c2
          some (c3, rest, 3 + extra)

/-- SR big step (lines 680–696): read membus at SP, compound into the
cascaded `value`, store it, increment SP, then action. -/
def stepSR (compound : Option (Int → Int → Int)) (action : Option ActV)
    (extra : Nat) (c : Core) (rest : List MState) :
    Option (Core × List MState × Nat) :=
  let addr : Int := (c.cpu.reg.SP : Int)
  let D0 := c.cpu.mem addr
  let D1 := match kwGet .value c.kwargs, compound with
    | some old, some f => f D0 old
    | _, _ => D0
  let c1 := { c with kwargs := kwSet .value D1 c.kwargs }
  let c2 := withReg .SP ((c1.cpu.reg.SP : Int) + 1) c1
  let c3 := match action with
    | some a => a c2 D1
    | none => c2
  some (c3, rest, 3 + extra)

/-- SW big step (lines 728–747): decrement SP, write the register or
cascaded kwarg value at the new SP, then action.  `none` models the
`KeyError` on a missing kwargs key. -/
def stepSW (source : Option RegName) (key : KwKey) (extra : Nat)
    (action : Option ActV) (c : Core) (rest : List MState) :
    Option (Core × List MState × Nat) :=
  let c1 := withReg .SP ((c.cpu.reg.SP : Int) - 1) c
  let addr : Int := (c1.cpu.reg.SP : Int)
  let DO : Option Int := match source with
    | some r => some ((regGet r c1.cpu.reg : Nat) : Int)
    | none => kwGet key c1.kwargs
  match DO with
  | none => none
  | some D =>
      let c2 := memWrite addr D c1
      let c3 := match action with
        | some a => a c2 D
        | none => c2
      some (c3, rest, 3 + extra)

/-- The kwargs-transform loop of IO (lines 782–786) on the tracked keys:
each present kwarg with a matching transform entry is rewritten (the
transforms used read only registers, so sequencing value before address is
the dict-iteration order of the call sites). -/
def ioTransformValue (tValue : Option (Core → Int → Int)) (c : Core) :
    Core :=
  match c.kwargs.value, tValue with
  | some v, some f => { c with kwargs := kwSet .value (f c v) c.kwargs }
  | _, _ => c

def ioTransformAddress (tAddress : Option (Core → Int → Int)) (c : Core) :
    Core :=
  match c.kwargs.address, tAddress with
  | some v, some f => { c with kwargs := kwSet .address (f c v) c.kwargs }
  | _, _ => c

/-- IO big step (lines 781–791): apply the transforms, idle, then run the
action last. -/
def stepIO (ticks : Nat) (tValue tAddress : Option (Core → Int → Int))
    (action : Option Act) (c : Core) (rest : List MState) :
    Option (Core × List MState × Nat) :=
  let c2 := ioTransformAddress tAddress (ioTransformValue tValue c)
  let c3 := match action with
    | some a => a c2
    | none => c2
  some (c3, rest, (ticks - 1) + 1)

/-- Big-step execution of one machine state: returns the new core, the new
pipeline (the states after this one; OCF appends its decoded follow-on
states), and the state's T-cycle count.  `none` models an uncaught Python
exception. -/
def stepState (s : MState) (c : Core) (rest : List MState) :
    Option (Core × List MState × Nat) :=
  match s with
  | .ocf pfx useDs extra => stepOCF pfx useDs extra c rest
  | .od signed key compound action useDs =>
      stepOD signed key compound action useDs c rest
  | .mr address indirect compound action incaddr =>
      stepMR address indirect compound action incaddr c rest
  | .mw address indirect value source action extra =>
      stepMW address indirect value source action extra c rest
  | .sr compound action extra => stepSR compound action extra c rest
  | .sw source key extra action => stepSW source key extra action c rest
  | .io ticks tValue tAddress action =>
      stepIO ticks tValue tAddress action c rest

/-- Run a pipeline to completion (fuel-indexed; `none` when the fuel runs
out or an exception propagates).  A raised abort flag drops the queued
tail when the raising state completes, leaving the pipeline empty —
i.e. the source's truncation to the head, which then pops itself. -/
def runPipe : Nat → Core → List MState → Option (Core × Nat)
  | 0, _, _ => none
  | _ + 1, c, [] => some (c, 0)
  | fuel + 1, c, s :: rest =>
      match stepState s c rest with
      | none => none
      | some (c1, pipe1, t) =>
          let next :=
            if c1.abortFlag then ({ c1 with abortFlag := false }, ([] : List MState))
            else (c1, pipe1)
          match runPipe fuel next.1 next.2 with
          | none => none
          | some (cf, T) => some (cf, t + T)

/-- Modelled from the spec (§4.6): the external driver injects a fresh
`OCF()` — a newly constructed state, so with a clean parameter bag — when
the pipeline is empty, then advances the pipeline one T-cycle per tick to
completion.  This is the execution of one full instruction. -/
def runInstr (c : Core) : Option (Core × Nat) :=
  runPipe 16 { c with kwargs := emptyKwargs, abortFlag := false }
    [.ocf [] false 0]

/-- `interrupt_response(cpu, nmi, ack)` (lines 2337–2363): build the
pipeline that responds to an interrupt.  The data-source generator is the
`Core.ds` iterator; states are marked `useDs` exactly where the source
attaches `ds` (`inta` consumes it in the NMI/IM1 acknowledge, the OCF of
mode 0 and the OD of mode 2 read from it).  Mode 3 (`interrupt_mode` not
in 0/1/2) raises. -/
def interrupt_response (nmi : Bool) (mode : Nat) : Option (List MState) :=
  if nmi then
    some [.io 5 none none (some inta),
      .sw (some .PCH) .value 0 none,
      .sw (some .PCL) .value 0 (some (JPconst 0x0066))]
  else if mode = 0 then
    some [.ocf [] true 2]
  else if mode = 1 then
    some [.io 7 none none (some inta),
      .sw (some .PCH) .value 0 none,
      .sw (some .PCL) .value 0 (some (JPconst 0x0038))]
  else if mode = 2 then
    some [.io 4 none none none,
      .od false .value (some high_after_low)
        (some (RRra .address (fun c v =>
          Int.lor ((regGet .I c.cpu.reg : Int) <<< (8 : Int)) (Int.land v 0xFE))))
        true,
      .sw (some .PCH) .value 0 none,
      .sw (some .PCL) .value 0 none,
      .mr none none (some high_after_low) none true,
      .mr none none (some high_after_low) (some JPa) true]
  else none

/-- Modelled from the spec (§4.7 and §8 scenario 6): the driver accepts a
maskable interrupt by clearing IFF1 and IFF2 and injecting the pipeline
built by `interrupt_response` (freshly constructed states, clean parameter
bag), then ticks it to completion. -/
def acceptINT (c : Core) : Option (Core × Nat) :=
  match interrupt_response false c.cpu.interrupt_mode with
  | none => none
  | some pipe =>
      runPipe 16
        { c with
          kwargs := emptyKwargs, abortFlag := false,
          cpu.iff1 := 0, cpu.iff2 := 0 }
        pipe

def runPushPop (c : Core) : Option (Core × Nat) :=
  match runInstr c with
  | none => none
  | some (c1, t1) =>
      match runInstr c1 with
      | none => none
      | some (c2, t2) => some (c2, t1 + t2)

/-- A parameter bag holding only a cascaded value. -/
def kwValueOnly (v : Int) : Kwargs := { value := some v }

/-- The six 16-bit pairs that have PUSH/POP opcode rows. -/
inductive RrName where
  | BC | DE | HL | AF | IX | IY
deriving DecidableEq

/-- Opcode-sequence length of PUSH rr (and of POP rr). -/
def instrLen : RrName → Nat
  | .BC | .DE | .HL | .AF => 1
  | .IX | .IY => 2

/-- T-cycles this emulator charges for PUSH rr followed by POP rr. -/
def pushPopTicks : RrName → Nat
  | .BC | .DE | .HL | .AF => 20
  | .IX | .IY => 28

def rrHi : RrName → RegName
  | .BC => .B
  | .DE => .D
  | .HL => .H
  | .AF => .A
  | .IX => .IXH
  | .IY => .IYH

def rrLo : RrName → RegName
  | .BC => .C
  | .DE => .E
  | .HL => .L
  | .AF => .F
  | .IX => .IXL
  | .IY => .IYL

/-- Memory holds PUSH rr at PC followed immediately by POP rr. -/
def pushPopProgram (rr : RrName) (c : Core) : Prop :=
  match rr with
  | .BC => c.cpu.mem (c.cpu.reg.PC : Int) = 0xC5 ∧
      c.cpu.mem (((c.cpu.reg.PC + 1) % 65536 : Nat) : Int) = 0xC1
  | .DE => c.cpu.mem (c.cpu.reg.PC : Int) = 0xD5 ∧
      c.cpu.mem (((c.cpu.reg.PC + 1) % 65536 : Nat) : Int) = 0xD1
  | .HL => c.cpu.mem (c.cpu.reg.PC : Int) = 0xE5 ∧
      c.cpu.mem (((c.cpu.reg.PC + 1) % 65536 : Nat) : Int) = 0xE1
  | .AF => c.cpu.mem (c.cpu.reg.PC : Int) = 0xF5 ∧
      c.cpu.mem (((c.cpu.reg.PC + 1) % 65536 : Nat) : Int) = 0xF1
  | .IX => c.cpu.mem (c.cpu.reg.PC : Int) = 0xDD ∧
      c.cpu.mem (((c.cpu.reg.PC + 1) % 65536 : Nat) : Int) = 0xE5 ∧
      c.cpu.mem (((c.cpu.reg.PC + 2) % 65536 : Nat) : Int) = 0xDD ∧
      c.cpu.mem (((c.cpu.reg.PC + 3) % 65536 : Nat) : Int) = 0xE1
  | .IY => c.cpu.mem (c.cpu.reg.PC : Int) = 0xFD ∧
      c.cpu.mem (((c.cpu.reg.PC + 1) % 65536 : Nat) : Int) = 0xE5 ∧
      c.cpu.mem (((c.cpu.reg.PC + 2) % 65536 : Nat) : Int) = 0xFD ∧
      c.cpu.mem (((c.cpu.reg.PC + 3) % 65536 : Nat) : Int) = 0xE1

/-- The POP opcode fetch addresses avoid the two stack cells PUSH wrote. -/
def popFetchApart (rr : RrName) (c : Core) : Prop :=
  match rr with
  | .BC | .DE | .HL | .AF =>
      (c.cpu.reg.PC + 1) % 65536 ≠ (c.cpu.reg.SP + 65535) % 65536 ∧
      (c.cpu.reg.PC + 1) % 65536 ≠ (c.cpu.reg.SP + 65534) % 65536
  | .IX | .IY =>
      (c.cpu.reg.PC + 2) % 65536 ≠ (c.cpu.reg.SP + 65535) % 65536 ∧
      (c.cpu.reg.PC + 2) % 65536 ≠ (c.cpu.reg.SP + 65534) % 65536 ∧
      (c.cpu.reg.PC + 3) % 65536 ≠ (c.cpu.reg.SP + 65535) % 65536 ∧
      (c.cpu.reg.PC + 3) % 65536 ≠ (c.cpu.reg.SP + 65534) % 65536

/-- A concrete machine: PUSH BC at 0x0000, POP BC at 0x0001, B=0x12,
C=0x34, SP=0x8000, everything else zero. -/
def wRegs : Regs := { B := 0x12, C := 0x34, SP := 0x8000 }

def wMem : Int → Int := fun a => if a = 0 then 0xC5 else if a = 1 then 0xC1 else 0

def wCore : Core := { cpu := { reg := wRegs, mem := wMem } }

/-- The parameter bag left behind by the IM 2 response: the vector word
(0) cascaded as `value`, `address` post-incremented past the vector. -/
def imVecKwargs : Kwargs := { value := some 0, address := some 0x8002 }

/-- The IM 2 scenario machine: mode 2, I=0x80, vector table [0x00, 0x90]
at 0x8000, PC=0x1234, SP=0x4000, data source yielding one 0x00 byte. -/
def iMem : Int → Int := fun a => if a = 0x8001 then 0x90 else 0

def iRegs : Regs := { PC := 0x1234, SP := 0x4000, I := 0x80 }

def iCore : Core :=
  { cpu := { reg := iRegs, mem := iMem, interrupt_mode := 2 }, ds := [0] }

/-- HL as read by the CPIR states: `(H << 8) | L`. -/
def cpirHL0 (c : Core) : Nat := c.cpu.reg.H <<< 8 ||| c.cpu.reg.L

/-- BC after the `dec('BC')` of one CPIR iteration. -/
def cpirBC (c : Core) : Nat :=
  (65535 + (c.cpu.reg.B <<< 8 ||| c.cpu.reg.C)) % 65536

/-- HL after the `inc('HL')` of one CPIR iteration. -/
def cpirHL (c : Core) : Nat := (cpirHL0 c + 1) % 65536

/-- The comparison value `A - (HL)` of one CPIR iteration (a Python int,
possibly negative). -/
def cpirD (c : Core) : Int :=
  (c.cpu.reg.A : Int) - c.cpu.mem ((cpirHL0 c : Nat) : Int)

/-- F after the `set_flags('-Z50311-')` of one CPIR iteration. -/
def cpirF1 (c : Core) : Nat :=
  set_flags_core '-' 'Z' '5' '0' '3' '1' '1' '-' (cpirD c)
    c.cpu.reg.F c.cpu.iff2 % 256

/-- F at the end of one CPIR iteration: PV cleared when BC hit zero. -/
def cpirF2 (c : Core) : Nat :=
  if cpirBC c = 0 then resetflag .PV (cpirF1 c) % 256 else cpirF1 c

/-- Whether one CPIR iteration raises `early_abort`: the decremented BC is
zero, or the Z flag just computed is set. -/
def cpirAbort (c : Core) : Bool :=
  decide (cpirBC c = 0) || decide (getflag .Z (cpirF2 c) = 1)

/-- T-cycles of one CPIR iteration: 4+4+3+5 = 16 when aborting (the final
IO state is dropped), plus the 5-tick PC-rewind IO state otherwise. -/
def cpirTicks (c : Core) : Nat := if cpirAbort c then 16 else 21

/-- The parameter bag after one CPIR iteration. -/
def cpirKwargs (c : Core) : Kwargs :=
  { value := some (cpirD c % 256), address := some ((cpirHL0 c : Int) + 1) }

/-- The machine state after one CPIR iteration: flags and BC/HL updated;
PC back on the ED B1 opcode on a non-terminal iteration, past it on the
aborting one. -/
def cpirNext (c : Core) : Core :=
  { c with
      kwargs := cpirKwargs c,
      abortFlag := false,
      cpu.reg.F := cpirF2 c,
      cpu.reg.B := cpirBC c >>> 8,
      cpu.reg.C := cpirBC c &&& 255,
      cpu.reg.H := cpirHL c >>> 8,
      cpu.reg.L := cpirHL c &&& 255,
      cpu.reg.PC :=
        if cpirAbort c then (c.cpu.reg.PC + 2) % 65536 else c.cpu.reg.PC }

/-- Modelled from the spec (§4.6): the driver re-injects a fresh OCF after
each instruction; since a non-terminal CPIR iteration rewinds PC onto its
own opcode, iterate `runInstr` until PC moves.  Returns the final core, the
iteration count and the total T-cycles. -/
def cpirRun : Nat → Core → Option (Core × Nat × Nat)
  | 0, _ => none
  | fuel + 1, c =>
      match runInstr c with
      | none => none
      | some (c1, t) =>
          if c1.cpu.reg.PC = c.cpu.reg.PC then
            match cpirRun fuel c1 with
            | none => none
            | some (cf, n, T) => some (cf, n + 1, t + T)
          else some (c1, 1, t)

/-- The CPIR scenario machine: ED B1 at PC=0, A=5, BC=3, HL=0x2000,
memory holding 1 everywhere except a 5 (the match) at 0x2002. -/
def zMem : Int → Int := fun a =>
  if a = 0 then 0xED else if a = 1 then 0xB1
  else if a = 0x2002 then 5 else 1

def zRegs : Regs := { A := 5, C := 3, H := 0x20 }

def zCore : Core := { cpu := { reg := zRegs, mem := zMem } }

/-- The HALT scenario machine: 0x76 at PC=0, no pending interrupt. -/
def hMem : Int → Int := fun a => if a = 0 then 0x76 else 0

def hCore : Core := { cpu := { reg := {}, mem := hMem } }

/-- The RET-Z scenario machine: 0xC8 at PC=0, flag Z set (F=0x40),
SP=0x0100, every other byte 0x20. -/
def rMem : Int → Int := fun a => if a = 0 then 0xC8 else 0x20

def rRegs : Regs := { F := 0x40, SP := 0x100 }

def rCore : Core := { cpu := { reg := rRegs, mem := rMem } }

/-- The Python exceptions the disassembler can raise, and a fuel marker
for the non-terminating `length == 0` pop loop. -/
inductive DisasmErr where
  | valueError (k : InstKey)
  | typeError
  | indexError
  | fuelOut
deriving DecidableEq

/-- Whether `pat` is a prefix of `s` (on character lists). -/
def listPrefix : List Char → List Char → Bool
  | [], _ => true
  | _ :: _, [] => false
  | a :: as, b :: bs => a == b && listPrefix as bs

def containsFrom (pat : List Char) : List Char → Bool
  | [] => listPrefix pat []
  | c :: rest => listPrefix pat (c :: rest) || containsFrom pat rest

/-- Python's `pat in s` on strings. -/
def strContains (s pat : String) : Bool := containsFrom pat.data s.data

/-- Python's `s.replace(pat, rep)`: every non-overlapping occurrence,
left to right.  Fuel-indexed structurally; `s.length` fuel always
suffices since every step consumes at least one character. -/
def replaceFuel : Nat → List Char → List Char → List Char → List Char
  | 0, s, _, _ => s
  | fuel + 1, s, pat, rep =>
      match s with
      | [] => []
      | c :: rest =>
          if listPrefix pat s ∧ pat ≠ [] then
            rep ++ replaceFuel fuel (s.drop pat.length) pat rep
          else c :: replaceFuel fuel rest pat rep

def pyReplace (s pat rep : String) : String :=
  String.mk (replaceFuel s.length s.data pat.data rep.data)

/-- One upper-case hex digit. -/
def hexDigit (n : Nat) : Char :=
  if n < 10 then Char.ofNat (48 + n) else Char.ofNat (55 + n)

/-- Python hex formatting of a byte: two upper-case hex digits. -/
def hex2 (n : Nat) : String :=
  String.mk [hexDigit (n / 16 % 16), hexDigit (n % 16)]

/-- Python hex formatting of a 16-bit word: four upper-case hex digits. -/
def hex4 (n : Nat) : String :=
  String.mk [hexDigit (n / 4096 % 16), hexDigit (n / 256 % 16),
    hexDigit (n / 16 % 16), hexDigit (n % 16)]

/-- Python list indexing `l[i]`, including the negative-index rule;
`none` is an `IndexError`. -/
def pyGet (l : List Nat) (i : Int) : Option Nat :=
  if 0 ≤ i then l.get? i.toNat
  else if (-i).toNat ≤ l.length then l.get? (l.length - (-i).toNat)
  else none

/-- Lines 2369–2400: resolve the mnemonic and length for the head of the
byte list.  `(code, length) = INSTRUCTION_STATES[k][3:]` unpacking a row
with no length element raises `ValueError`; an unprefixed byte not in the
table yields `("???", "1")` whose string length raises `TypeError` at the
`range(0, length)` pop loop. -/
def disasmKey (ins : List Nat) : Except DisasmErr (String × Nat) :=
  match ins with
  | [] => .error .indexError
  | b0 :: rest =>
      match lookupMeta (.one b0) with
      | none => .error .typeError
      | some e0 =>
          match e0.length with
          | none => .error (.valueError (.one b0))
          | some l0 =>
              if l0 = 0 then
                match rest with
                | [] => .ok ("???", 2)
                | b1 :: _ =>
                    match lookupMeta (.two b0 b1) with
                    | none => .ok ("???", 2)
                    | some e1 =>
                        match e1.length with
                        | none => .error (.valueError (.two b0 b1))
                        | some l1 =>
                            if l1 = 0 then
                              if 3 < ins.length then
                                match ins.get? 3 with
                                | none => .error .indexError
                                | some b3 =>
                                    match lookupMeta (.three b0 b1 b3) with
                                    | none => .ok ("???", 4)
                                    | some e2 =>
                                        match e2.length with
                                        | none =>
                                            .error (.valueError (.three b0 b1 b3))
                                        | some l2 => .ok (e2.mnemonic, l2)
                              else .ok ("???", 4)
                            else .ok (e1.mnemonic, l1)
              else .ok (e0.mnemonic, l0)

/-- Lines 2402–2410: substitute `nn`, `n` and `+d` in the mnemonic with
hex-formatted operand bytes (Python's `elif` skips the `n` branch whenever
`nn` occurs in the mnemonic). -/
def disasmSubst (ins : List Nat) (code : String) (length : Nat) :
    Except DisasmErr String :=
  let step1 : Except DisasmErr String :=
    if strContains code "nn" ∧ length ≤ ins.length then
      match pyGet ins ((length : Int) - 1), pyGet ins ((length : Int) - 2) with
      | some hi, some lo =>
          .ok (pyReplace code "nn" ("0x" ++ hex4 ((hi <<< 8) + lo)))
      | _, _ => .error .indexError
    else if strContains code "n" ∧ length ≤ ins.length then
      match pyGet ins ((length : Int) - 1) with
      | some d => .ok (pyReplace code "n" ("0x" ++ hex2 d))
      | none => .error .indexError
    else .ok code
  match step1 with
  | .error e => .error e
  | .ok code2 =>
      if strContains code2 "+d" ∧ 3 ≤ ins.length then
        match pyGet ins 2 with
        | some d => .ok (pyReplace code2 "+d" ("+0x" ++ hex2 d))
        | none => .error .indexError
      else .ok code2

/-- The `while len(instructions) > 0` loop (lines 2368–2415), fuel-indexed:
resolve, substitute, pop `min(length, len(instructions))` bytes, emit the
`(code, length)` pair.  A resolved length of 0 pops nothing and loops
forever; with fuel above the list length that surfaces as `fuelOut`. -/
def disasmGo : Nat → List Nat → Except DisasmErr (List (String × Nat))
  | 0, _ => .error .fuelOut
  | _ + 1, [] => .ok []
  | fuel + 1, b0 :: rest =>
      match disasmKey (b0 :: rest) with
      | .error e => .error e
      | .ok (code, length) =>
          match disasmSubst (b0 :: rest) code length with
          | .error e => .error e
          | .ok code2 =>
              match disasmGo fuel ((b0 :: rest).drop length) with
              | .error e => .error e
              | .ok tail => .ok ((code2, length) :: tail)

/-- `disassemble_instructions(instructions)`: run the loop with enough
fuel that only a genuinely non-terminating pop loop exhausts it. -/
def disassemble_instructions (ins : List Nat) :
    Except DisasmErr (List (String × Nat)) :=
  disasmGo (ins.length + 1) ins

/-! ## Theorems -/

/-! ## Bit-level helper lemmas for the flag model -/

theorem testBit_ite (P : Prop) [Decidable P] (a b i : Nat) :
    (if P then a else b).testBit i = if P then a.testBit i else b.testBit i :=
  apply_ite (fun x => Nat.testBit x i) P a b

theorem testBit_one_shiftLeft (b i : Nat) :
    (1 <<< b).testBit i = decide (b = i) := by
  rw [Nat.shiftLeft_eq, one_mul, Nat.testBit_two_pow]

theorem testBit_setflag (f : Flag) (F i : Nat) :
    (setflag f F).testBit i = (F.testBit i || decide (f.bit = i)) := by
  unfold setflag
  rw [Nat.testBit_or, testBit_one_shiftLeft]

theorem testBit_maskOut (b i : Nat) (hb : b < 8) (hi : i < 8) :
    (255 - (1 <<< b)).testBit i = !decide (b = i) := by
  interval_cases b <;> interval_cases i <;> decide

theorem testBit_resetflag (f : Flag) (F i : Nat) (hi : i < 8) :
    (resetflag f F).testBit i = (F.testBit i && !decide (f.bit = i)) := by
  unfold resetflag
  rw [Nat.testBit_and, testBit_maskOut f.bit i (by cases f <;> simp [Flag.bit]) hi]

theorem testBit_litStep (c : Char) (n F i : Nat) (hn : n < 8) (hi : i < 8) :
    (litStep c n F).testBit i =
      if c = '1' then (F.testBit i || decide (n = i))
      else if c = '0' then (F.testBit i && !decide (n = i))
      else F.testBit i := by
  unfold litStep
  rw [testBit_ite, testBit_ite, Nat.testBit_or, testBit_one_shiftLeft,
    Nat.testBit_and, testBit_maskOut n i hn hi]

theorem testBit_litStep_ne (c : Char) (n F i : Nat) (hn : n < 8) (hi : i < 8)
    (h : ¬n = i) : (litStep c n F).testBit i = F.testBit i := by
  rw [testBit_litStep c n F i hn hi, decide_eq_false h]
  simp

theorem testBit_litStep_eq (c : Char) (n F : Nat) (hn : n < 8) :
    (litStep c n F).testBit n =
      if c = '1' then true else if c = '0' then false else F.testBit n := by
  rw [testBit_litStep c n F n hn hn, decide_eq_true (Eq.refl n)]
  by_cases h1 : c = '1' <;> by_cases h0 : c = '0' <;> simp [h1, h0]

theorem testBit_sfStageS_ne (c0 : Char) (d F i : Nat) (hi : i < 8)
    (h : ¬(7 : Nat) = i) : (sfStageS c0 d F).testBit i = F.testBit i := by
  unfold sfStageS
  rw [testBit_ite, testBit_ite, testBit_setflag,
    testBit_resetflag _ _ _ hi]
  simp [Flag.bit, decide_eq_false h]

theorem testBit_sfStageS_eq (c0 : Char) (d F : Nat) :
    (sfStageS c0 d F).testBit 7 =
      if c0 = 'S' then decide ((d >>> 7) &&& 1 = 1) else F.testBit 7 := by
  unfold sfStageS
  rw [testBit_ite, testBit_ite, testBit_setflag,
    testBit_resetflag _ _ _ (by norm_num)]
  simp [Flag.bit]

theorem testBit_sfStageZ_ne (c1 : Char) (d F i : Nat) (hi : i < 8)
    (h : ¬(6 : Nat) = i) : (sfStageZ c1 d F).testBit i = F.testBit i := by
  unfold sfStageZ
  rw [testBit_ite, testBit_ite, testBit_setflag,
    testBit_resetflag _ _ _ hi]
  simp [Flag.bit, decide_eq_false h]

theorem testBit_sfStageZ_eq (c1 : Char) (d F : Nat) :
    (sfStageZ c1 d F).testBit 6 =
      if c1 = 'Z' then decide (d = 0) else F.testBit 6 := by
  unfold sfStageZ
  rw [testBit_ite, testBit_ite, testBit_setflag,
    testBit_resetflag _ _ _ (by norm_num)]
  simp [Flag.bit]

theorem testBit_sfStage5_ne (c2 : Char) (d F i : Nat) (hi : i < 8)
    (h : ¬(5 : Nat) = i) : (sfStage5 c2 d F).testBit i = F.testBit i := by
  unfold sfStage5
  rw [testBit_ite, testBit_ite, testBit_setflag,
    testBit_resetflag _ _ _ hi]
  simp [Flag.bit, decide_eq_false h]

theorem testBit_sfStage5_eq (c2 : Char) (d F : Nat) :
    (sfStage5 c2 d F).testBit 5 =
      if c2 = '5' then decide ((d >>> 5) &&& 1 = 1) else F.testBit 5 := by
  unfold sfStage5
  rw [testBit_ite, testBit_ite, testBit_setflag,
    testBit_resetflag _ _ _ (by norm_num)]
  simp [Flag.bit]

theorem testBit_sfStage3_ne (c4 : Char) (d F i : Nat) (hi : i < 8)
    (h : ¬(3 : Nat) = i) : (sfStage3 c4 d F).testBit i = F.testBit i := by
  unfold sfStage3
  rw [testBit_ite, testBit_ite, testBit_setflag,
    testBit_resetflag _ _ _ hi]
  simp [Flag.bit, decide_eq_false h]

theorem testBit_sfStage3_eq (c4 : Char) (d F : Nat) :
    (sfStage3 c4 d F).testBit 3 =
      if c4 = '3' then decide ((d >>> 3) &&& 1 = 1) else F.testBit 3 := by
  unfold sfStage3
  rw [testBit_ite, testBit_ite, testBit_setflag,
    testBit_resetflag _ _ _ (by norm_num)]
  simp [Flag.bit]

theorem testBit_sfStagePV_ne (c5 : Char) (D : Int) (d iff2 F i : Nat)
    (hi : i < 8) (h : ¬(2 : Nat) = i) :
    (sfStagePV c5 D d iff2 F).testBit i = F.testBit i := by
  unfold sfStagePV
  rw [testBit_ite, testBit_ite, testBit_ite, testBit_ite, testBit_ite,
    testBit_ite]
  simp only [testBit_setflag, testBit_resetflag _ _ _ hi, Flag.bit,
    decide_eq_false h]
  simp

theorem testBit_sfStagePV_eq (c5 : Char) (D : Int) (d iff2 F : Nat) :
    (sfStagePV c5 D d iff2 F).testBit 2 =
      if c5 = '*' then decide (iff2 = 1)
      else if c5 = 'V' then decide (127 < D ∨ D < -128)
      else if c5 = 'P' then decide (parityLoop d = 0)
      else F.testBit 2 := by
  unfold sfStagePV
  rw [testBit_ite, testBit_ite, testBit_ite, testBit_ite, testBit_ite,
    testBit_ite]
  simp only [testBit_setflag, testBit_resetflag _ _ _ (show (2:Nat) < 8 by norm_num),
    Flag.bit]
  simp

theorem testBit_sfStageC_ne (c7 : Char) (D : Int) (F i : Nat) (hi : i < 8)
    (h : ¬(0 : Nat) = i) : (sfStageC c7 D F).testBit i = F.testBit i := by
  unfold sfStageC
  rw [testBit_ite, testBit_ite, testBit_setflag,
    testBit_resetflag _ _ _ hi]
  simp [Flag.bit, decide_eq_false h]

theorem testBit_sfStageC_eq (c7 : Char) (D : Int) (F : Nat) :
    (sfStageC c7 D F).testBit 0 =
      if c7 = 'C' then decide (255 < D ∨ D < 0) else F.testBit 0 := by
  unfold sfStageC
  rw [testBit_ite, testBit_ite, testBit_setflag,
    testBit_resetflag _ _ _ (by norm_num)]
  simp [Flag.bit]

/-- Claim C4 (amended), full per-bit characterisation of `set_flags` on an
eight-character template: a `-` (indeed, any character other than the ones
matched below) leaves the corresponding flag bit of F untouched; a literal
`0`/`1` forces the bit at the Z, 5, H, 3, P/V, N and C positions; at the S
position a literal `0`/`1` is ignored (the literal loop runs only over bits
0–6), so the S bit changes only when its template character is `'S'`. -/
theorem C4_set_flags_template (c0 c1 c2 c3 c4 c5 c6 c7 : Char) (D : Int)
    (F iff2 : Nat) :
    ((set_flags_core c0 c1 c2 c3 c4 c5 c6 c7 D F iff2).testBit 7 =
        if c0 = 'S' then decide ((((D % 256).toNat >>> 7) &&& 1) = 1)
        else F.testBit 7)
    ∧ ((set_flags_core c0 c1 c2 c3 c4 c5 c6 c7 D F iff2).testBit 6 =
        if c1 = 'Z' then decide ((D % 256).toNat = 0)
        else if c1 = '1' then true else if c1 = '0' then false
        else F.testBit 6)
    ∧ ((set_flags_core c0 c1 c2 c3 c4 c5 c6 c7 D F iff2).testBit 5 =
        if c2 = '5' then decide ((((D % 256).toNat >>> 5) &&& 1) = 1)
        else if c2 = '1' then true else if c2 = '0' then false
        else F.testBit 5)
    ∧ ((set_flags_core c0 c1 c2 c3 c4 c5 c6 c7 D F iff2).testBit 4 =
        if c3 = '1' then true else if c3 = '0' then false
        else F.testBit 4)
    ∧ ((set_flags_core c0 c1 c2 c3 c4 c5 c6 c7 D F iff2).testBit 3 =
        if c4 = '3' then decide ((((D % 256).toNat >>> 3) &&& 1) = 1)
        else if c4 = '1' then true else if c4 = '0' then false
        else F.testBit 3)
    ∧ ((set_flags_core c0 c1 c2 c3 c4 c5 c6 c7 D F iff2).testBit 2 =
        if c5 = '*' then decide (iff2 = 1)
        else if c5 = 'V' then decide (127 < D ∨ D < -128)
        else if c5 = 'P' then decide (parityLoop (D % 256).toNat = 0)
        else if c5 = '1' then true else if c5 = '0' then false
        else F.testBit 2)
    ∧ ((set_flags_core c0 c1 c2 c3 c4 c5 c6 c7 D F iff2).testBit 1 =
        if c6 = '1' then true else if c6 = '0' then false
        else F.testBit 1)
    ∧ ((set_flags_core c0 c1 c2 c3 c4 c5 c6 c7 D F iff2).testBit 0 =
        if c7 = 'C' then decide (255 < D ∨ D < 0)
        else if c7 = '1' then true else if c7 = '0' then false
        else F.testBit 0) := by
  refine ⟨?_, ?_, ?_, ?_, ?_, ?_, ?_, ?_⟩
  · simp only [set_flags_core]
    rw [testBit_litStep_ne c1 6 _ 7 (by norm_num) (by norm_num) (by norm_num),
      testBit_litStep_ne c2 5 _ 7 (by norm_num) (by norm_num) (by norm_num),
      testBit_litStep_ne c3 4 _ 7 (by norm_num) (by norm_num) (by norm_num),
      testBit_litStep_ne c4 3 _ 7 (by norm_num) (by norm_num) (by norm_num),
      testBit_litStep_ne c5 2 _ 7 (by norm_num) (by norm_num) (by norm_num),
      testBit_litStep_ne c6 1 _ 7 (by norm_num) (by norm_num) (by norm_num),
      testBit_litStep_ne c7 0 _ 7 (by norm_num) (by norm_num) (by norm_num),
      testBit_sfStageC_ne c7 D _ 7 (by norm_num) (by norm_num),
      testBit_sfStagePV_ne c5 D _ iff2 _ 7 (by norm_num) (by norm_num),
      testBit_sfStage3_ne c4 _ _ 7 (by norm_num) (by norm_num),
      testBit_sfStage5_ne c2 _ _ 7 (by norm_num) (by norm_num),
      testBit_sfStageZ_ne c1 _ _ 7 (by norm_num) (by norm_num),
      testBit_sfStageS_eq c0 _ F]
  · simp only [set_flags_core]
    rw [testBit_litStep_eq c1 6 _ (by norm_num),
      testBit_litStep_ne c2 5 _ 6 (by norm_num) (by norm_num) (by norm_num),
      testBit_litStep_ne c3 4 _ 6 (by norm_num) (by norm_num) (by norm_num),
      testBit_litStep_ne c4 3 _ 6 (by norm_num) (by norm_num) (by norm_num),
      testBit_litStep_ne c5 2 _ 6 (by norm_num) (by norm_num) (by norm_num),
      testBit_litStep_ne c6 1 _ 6 (by norm_num) (by norm_num) (by norm_num),
      testBit_litStep_ne c7 0 _ 6 (by norm_num) (by norm_num) (by norm_num),
      testBit_sfStageC_ne c7 D _ 6 (by norm_num) (by norm_num),
      testBit_sfStagePV_ne c5 D _ iff2 _ 6 (by norm_num) (by norm_num),
      testBit_sfStage3_ne c4 _ _ 6 (by norm_num) (by norm_num),
      testBit_sfStage5_ne c2 _ _ 6 (by norm_num) (by norm_num),
      testBit_sfStageZ_eq c1 _ _,
      testBit_sfStageS_ne c0 _ F 6 (by norm_num) (by norm_num)]
    by_cases hZ : c1 = 'Z' <;> simp [hZ]
  · simp only [set_flags_core]
    rw [testBit_litStep_ne c1 6 _ 5 (by norm_num) (by norm_num) (by norm_num),
      testBit_litStep_eq c2 5 _ (by norm_num),
      testBit_litStep_ne c3 4 _ 5 (by norm_num) (by norm_num) (by norm_num),
      testBit_litStep_ne c4 3 _ 5 (by norm_num) (by norm_num) (by norm_num),
      testBit_litStep_ne c5 2 _ 5 (by norm_num) (by norm_num) (by norm_num),
      testBit_litStep_ne c6 1 _ 5 (by norm_num) (by norm_num) (by norm_num),
      testBit_litStep_ne c7 0 _ 5 (by norm_num) (by norm_num) (by norm_num),
      testBit_sfStageC_ne c7 D _ 5 (by norm_num) (by norm_num),
      testBit_sfStagePV_ne c5 D _ iff2 _ 5 (by norm_num) (by norm_num),
      testBit_sfStage3_ne c4 _ _ 5 (by norm_num) (by norm_num),
      testBit_sfStage5_eq c2 _ _,
      testBit_sfStageZ_ne c1 _ _ 5 (by norm_num) (by norm_num),
      testBit_sfStageS_ne c0 _ F 5 (by norm_num) (by norm_num)]
    by_cases h5 : c2 = '5' <;> simp [h5]
  · simp only [set_flags_core]
    rw [testBit_litStep_ne c1 6 _ 4 (by norm_num) (by norm_num) (by norm_num),
      testBit_litStep_ne c2 5 _ 4 (by norm_num) (by norm_num) (by norm_num),
      testBit_litStep_eq c3 4 _ (by norm_num),
      testBit_litStep_ne c4 3 _ 4 (by norm_num) (by norm_num) (by norm_num),
      testBit_litStep_ne c5 2 _ 4 (by norm_num) (by norm_num) (by norm_num),
      testBit_litStep_ne c6 1 _ 4 (by norm_num) (by norm_num) (by norm_num),
      testBit_litStep_ne c7 0 _ 4 (by norm_num) (by norm_num) (by norm_num),
      testBit_sfStageC_ne c7 D _ 4 (by norm_num) (by norm_num),
      testBit_sfStagePV_ne c5 D _ iff2 _ 4 (by norm_num) (by norm_num),
      testBit_sfStage3_ne c4 _ _ 4 (by norm_num) (by norm_num),
      testBit_sfStage5_ne c2 _ _ 4 (by norm_num) (by norm_num),
      testBit_sfStageZ_ne c1 _ _ 4 (by norm_num) (by norm_num),
      testBit_sfStageS_ne c0 _ F 4 (by norm_num) (by norm_num)]
  · simp only [set_flags_core]
    rw [testBit_litStep_ne c1 6 _ 3 (by norm_num) (by norm_num) (by norm_num),
      testBit_litStep_ne c2 5 _ 3 (by norm_num) (by norm_num) (by norm_num),
      testBit_litStep_ne c3 4 _ 3 (by norm_num) (by norm_num) (by norm_num),
      testBit_litStep_eq c4 3 _ (by norm_num),
      testBit_litStep_ne c5 2 _ 3 (by norm_num) (by norm_num) (by norm_num),
      testBit_litStep_ne c6 1 _ 3 (by norm_num) (by norm_num) (by norm_num),
      testBit_litStep_ne c7 0 _ 3 (by norm_num) (by norm_num) (by norm_num),
      testBit_sfStageC_ne c7 D _ 3 (by norm_num) (by norm_num),
      testBit_sfStagePV_ne c5 D _ iff2 _ 3 (by norm_num) (by norm_num),
      testBit_sfStage3_eq c4 _ _,
      testBit_sfStage5_ne c2 _ _ 3 (by norm_num) (by norm_num),
      testBit_sfStageZ_ne c1 _ _ 3 (by norm_num) (by norm_num),
      testBit_sfStageS_ne c0 _ F 3 (by norm_num) (by norm_num)]
    by_cases h3 : c4 = '3' <;> simp [h3]
  · simp only [set_flags_core]
    rw [testBit_litStep_ne c1 6 _ 2 (by norm_num) (by norm_num) (by norm_num),
      testBit_litStep_ne c2 5 _ 2 (by norm_num) (by norm_num) (by norm_num),
      testBit_litStep_ne c3 4 _ 2 (by norm_num) (by norm_num) (by norm_num),
      testBit_litStep_ne c4 3 _ 2 (by norm_num) (by norm_num) (by norm_num),
      testBit_litStep_eq c5 2 _ (by norm_num),
      testBit_litStep_ne c6 1 _ 2 (by norm_num) (by norm_num) (by norm_num),
      testBit_litStep_ne c7 0 _ 2 (by norm_num) (by norm_num) (by norm_num),
      testBit_sfStageC_ne c7 D _ 2 (by norm_num) (by norm_num),
      testBit_sfStagePV_eq c5 D _ iff2 _,
      testBit_sfStage3_ne c4 _ _ 2 (by norm_num) (by norm_num),
      testBit_sfStage5_ne c2 _ _ 2 (by norm_num) (by norm_num),
      testBit_sfStageZ_ne c1 _ _ 2 (by norm_num) (by norm_num),
      testBit_sfStageS_ne c0 _ F 2 (by norm_num) (by norm_num)]
    by_cases hs : c5 = '*' <;> by_cases hv : c5 = 'V' <;>
      by_cases hp : c5 = 'P' <;> simp [hs, hv, hp]
  · simp only [set_flags_core]
    rw [testBit_litStep_ne c1 6 _ 1 (by norm_num) (by norm_num) (by norm_num),
      testBit_litStep_ne c2 5 _ 1 (by norm_num) (by norm_num) (by norm_num),
      testBit_litStep_ne c3 4 _ 1 (by norm_num) (by norm_num) (by norm_num),
      testBit_litStep_ne c4 3 _ 1 (by norm_num) (by norm_num) (by norm_num),
      testBit_litStep_ne c5 2 _ 1 (by norm_num) (by norm_num) (by norm_num),
      testBit_litStep_eq c6 1 _ (by norm_num),
      testBit_litStep_ne c7 0 _ 1 (by norm_num) (by norm_num) (by norm_num),
      testBit_sfStageC_ne c7 D _ 1 (by norm_num) (by norm_num),
      testBit_sfStagePV_ne c5 D _ iff2 _ 1 (by norm_num) (by norm_num),
      testBit_sfStage3_ne c4 _ _ 1 (by norm_num) (by norm_num),
      testBit_sfStage5_ne c2 _ _ 1 (by norm_num) (by norm_num),
      testBit_sfStageZ_ne c1 _ _ 1 (by norm_num) (by norm_num),
      testBit_sfStageS_ne c0 _ F 1 (by norm_num) (by norm_num)]
  · simp only [set_flags_core]
    rw [testBit_litStep_ne c1 6 _ 0 (by norm_num) (by norm_num) (by norm_num),
      testBit_litStep_ne c2 5 _ 0 (by norm_num) (by norm_num) (by norm_num),
      testBit_litStep_ne c3 4 _ 0 (by norm_num) (by norm_num) (by norm_num),
      testBit_litStep_ne c4 3 _ 0 (by norm_num) (by norm_num) (by norm_num),
      testBit_litStep_ne c5 2 _ 0 (by norm_num) (by norm_num) (by norm_num),
      testBit_litStep_ne c6 1 _ 0 (by norm_num) (by norm_num) (by norm_num),
      testBit_litStep_eq c7 0 _ (by norm_num),
      testBit_sfStageC_eq c7 D _,
      testBit_sfStagePV_ne c5 D _ iff2 _ 0 (by norm_num) (by norm_num),
      testBit_sfStage3_ne c4 _ _ 0 (by norm_num) (by norm_num),
      testBit_sfStage5_ne c2 _ _ 0 (by norm_num) (by norm_num),
      testBit_sfStageZ_ne c1 _ _ 0 (by norm_num) (by norm_num),
      testBit_sfStageS_ne c0 _ F 0 (by norm_num) (by norm_num)]
    by_cases hC : c7 = 'C' <;> simp [hC]

/-- Claim C4, counterexample to the original claim: a literal `'1'` at the
S position does not force flag S.  With template `"1-------"`, value 0 and
F = 0, the source leaves F = 0 (its literal loop is `range(0,7)` and never
touches bit 7), so flag S stays 0 where the claim requires 1. -/
theorem C4_counterexample :
    (set_flags_core '1' '-' '-' '-' '-' '-' '-' '-' 0 0 0).testBit 7 = false := by
  decide

/-- Claim C6, counterexample to the stated formula: `high_after_low` is
`(new << 8) | old`, not `new | (old << 8)`; at new = 1, old = 0 the code
gives 0x100 while the claimed formula gives 1. -/
theorem C6_counterexample :
    high_after_low 1 0 = 256 ∧ Int.lor 1 ((0 : Int) <<< (8 : Int)) = 1 := by
  constructor <;> decide

/-- Claim C6 (amended): the default combiner `high_after_low` of `OD` and
`MR` combines the newly read byte `new` with the previously cascaded value
`old` as `(new << 8) | old`; hence two sequential byte reads, low byte
first (cascaded as `old`) and high byte second (arriving as `new`),
assemble the little-endian 16-bit value `256 * high + low`. -/
theorem C6_high_after_low (lo hi : Nat) (hlo : lo < 256) :
    high_after_low (hi : Int) (lo : Int) = ((256 * hi + lo : Nat) : Int) := by
  unfold high_after_low
  have hsh : ((hi : Int) <<< (8 : Int)) = ((hi <<< 8 : Nat) : Int) := by
    exact_mod_cast Int.shiftLeft_coe_nat hi 8
  rw [hsh]
  have hlor : Int.lor ((hi <<< 8 : Nat) : Int) ((lo : Nat) : Int)
      = (((hi <<< 8) ||| lo : Nat) : Int) := rfl
  rw [hlor]
  congr 1
  apply Nat.eq_of_testBit_eq
  intro i
  have h256 : (256 : Nat) * hi + lo = 2 ^ 8 * hi + lo := by norm_num
  rw [Nat.testBit_or, Nat.shiftLeft_eq, h256,
    Nat.testBit_mul_pow_two_add _ hlo, Nat.mul_comm hi (2 ^ 8),
    Nat.testBit_mul_pow_two]
  by_cases hi8 : i < 8
  · simp [hi8, Nat.not_le.2 hi8]
  · have hlo0 : lo.testBit i = false := by
      apply Nat.testBit_eq_false_of_lt
      calc lo < 256 := hlo
      _ = 2 ^ 8 := by norm_num
      _ ≤ 2 ^ i := Nat.pow_le_pow_right (by norm_num) (Nat.not_lt.1 hi8)
    simp [hi8, Nat.not_lt.1 hi8, hlo0]

/-- Witness for `C6_high_after_low` at lo = 0x34, hi = 0x12. -/
theorem C6_high_after_low_witness :
    (0x34 : Nat) < 256 ∧
      high_after_low (0x12 : Nat) ((0x34 : Nat) : Int) =
        ((256 * 0x12 + 0x34 : Nat) : Int) :=
  ⟨by norm_num, C6_high_after_low 0x34 0x12 (by norm_num)⟩

/-- Claim C8: `decode_instruction` raises `UnrecognisedInstruction` if and
only if the opcode key (single byte or 2- or 3-byte tuple) is absent from
the decode table; the raised error carries the offending key verbatim;
every key present in the table decodes to its table entry without raising. -/
theorem C8_decode_instruction :
    (∀ k : InstKey, lookupMeta k = none →
        decode_instruction k = Except.error ⟨k⟩)
    ∧ (∀ (k : InstKey) (e : MetaEntry), lookupMeta k = some e →
        decode_instruction k = Except.ok e)
    ∧ (∀ (k : InstKey) (err : UnrecognisedInstructionError),
        decode_instruction k = Except.error err →
        err.inst = k ∧ lookupMeta k = none)
    ∧ (∀ (k : InstKey) (e : MetaEntry), decode_instruction k = Except.ok e →
        lookupMeta k = some e) := by
  refine ⟨?_, ?_, ?_, ?_⟩
  · intro k h
    simp [decode_instruction, h]
  · intro k e h
    simp [decode_instruction, h]
  · intro k err h
    unfold decode_instruction at h
    cases hk : lookupMeta k with
    | some e => rw [hk] at h; cases h
    | none =>
        rw [hk] at h
        have hinj : (⟨k⟩ : UnrecognisedInstructionError) = err := by
          injection h
        exact ⟨by rw [← hinj], rfl⟩
  · intro k e h
    unfold decode_instruction at h
    cases hk : lookupMeta k with
    | some e2 =>
        rw [hk] at h
        have he : e2 = e := by injection h
        rw [he]
    | none => rw [hk] at h; cases h

/-- Witness for `C8_decode_instruction`: opcode 0x00 (`NOP`) is in the
table and decodes without raising; the two-byte key 0xED 0x01 is not in
the table and raises an error carrying that tuple. -/
theorem C8_decode_instruction_witness :
    lookupMeta (InstKey.one 0x00) = some (MetaEntry.mk 0 "NOP" (some 1))
    ∧ decode_instruction (InstKey.one 0x00) =
        Except.ok (MetaEntry.mk 0 "NOP" (some 1))
    ∧ lookupMeta (InstKey.two 0xED 0x01) = none
    ∧ decode_instruction (InstKey.two 0xED 0x01) =
        Except.error ⟨InstKey.two 0xED 0x01⟩ :=
  ⟨by rfl, C8_decode_instruction.2.1 _ _ (by rfl), by decide,
    C8_decode_instruction.1 _ (by decide)⟩

theorem and_65535_eq_mod (x : Nat) : x &&& 65535 = x % 65536 := by
  have h : (65535 : Nat) = 2 ^ 16 - 1 := by norm_num
  have h2 : (65536 : Nat) = 2 ^ 16 := by norm_num
  rw [h, h2, Nat.and_pow_two_sub_one_eq_mod]

theorem and_255_eq_mod (x : Nat) : x &&& 255 = x % 256 := by
  have h : (255 : Nat) = 2 ^ 8 - 1 := by norm_num
  have h2 : (256 : Nat) = 2 ^ 8 := by norm_num
  rw [h, h2, Nat.and_pow_two_sub_one_eq_mod]

theorem mask16_coe (v : Int) : (mask16 v : Int) = v % 65536 := by
  unfold mask16
  rw [Int.toNat_of_nonneg (Int.emod_nonneg _ (by norm_num))]

theorem mask16_natCast (n : Nat) : mask16 (n : Int) = n % 65536 := by
  have := mask16_coe (n : Int)
  omega

theorem mask16_add_one (n : Nat) : mask16 ((n : Int) + 1) = (n + 1) % 65536 := by
  have := mask16_coe ((n : Int) + 1)
  omega

theorem C10_halt (c : Core) (hpc : c.cpu.reg.PC < 65536)
    (hop : c.cpu.mem (c.cpu.reg.PC : Int) = 0x76) :
    runInstr c = some
      ({ c with
          kwargs := emptyKwargs, abortFlag := false,
          cpu.reg.PC :=
            if c.cpu.intlatch then (c.cpu.reg.PC + 1) % 65536
            else c.cpu.reg.PC }, 4) := by
  unfold runInstr
  have hsem : entrySem (InstKey.one 118) =
      some ⟨0, [on_condition (fun c => !c.cpu.intlatch) (dec .PC)], []⟩ := rfl
  by_cases hint : c.cpu.intlatch = true <;>
    simp [runPipe, stepState, stepOCF, fetchByte, hop, mkKey, hsem,
      withReg, regSet, regGet, on_condition, dec, RegName.is16, ocfTicks,
      List.foldl, hint, emptyKwargs, mask16_natCast, and_65535_eq_mod] <;>
    simp [mask16] <;> omega

theorem shiftLeft8_or_eq (B C : Nat) (h : C < 256) :
    (B <<< 8) ||| C = 256 * B + C := by
  have h256 : (256 : Nat) = 2 ^ 8 := by norm_num
  apply Nat.eq_of_testBit_eq
  intro i
  rw [Nat.testBit_or, Nat.shiftLeft_eq, Nat.mul_comm, h256,
    Nat.testBit_mul_pow_two_add _ (by omega), Nat.testBit_mul_pow_two]
  by_cases hi8 : i < 8
  · simp [hi8, Nat.not_le.2 hi8]
  · have hlo : C.testBit i = false := by
      apply Nat.testBit_eq_false_of_lt
      calc C < 256 := h
      _ = 2 ^ 8 := h256
      _ ≤ 2 ^ i := Nat.pow_le_pow_right (by norm_num) (Nat.not_lt.1 hi8)
    simp [hi8, Nat.not_lt.1 hi8, hlo]

theorem high_after_low_bytes (lo hi : Nat) (hlo : lo < 256) :
    high_after_low (hi : Int) (lo : Int) = ((256 * hi + lo : Nat) : Int) := by
  unfold high_after_low
  have hsh : ((hi : Int) <<< (8 : Int)) = ((hi <<< 8 : Nat) : Int) := by
    exact_mod_cast Int.shiftLeft_coe_nat hi 8
  rw [hsh]
  have hlor : Int.lor ((hi <<< 8 : Nat) : Int) ((lo : Nat) : Int)
      = (((hi <<< 8) ||| lo : Nat) : Int) := rfl
  rw [hlor, shiftLeft8_or_eq hi lo hlo]

theorem mask16_high_after_low (hi lo : Int) (hhi0 : 0 ≤ hi)
    (hhi : hi < 256) (hlo0 : 0 ≤ lo) (hlo : lo < 256) :
    mask16 (high_after_low hi lo) = 256 * hi.toNat + lo.toNat := by
  have h1 : hi = (hi.toNat : Int) := (Int.toNat_of_nonneg hhi0).symm
  have h2 : lo = (lo.toNat : Int) := (Int.toNat_of_nonneg hlo0).symm
  rw [h1, h2, high_after_low_bytes lo.toNat hi.toNat (by omega),
    mask16_natCast]
  omega

theorem C9_ret_z (c : Core) (hpc : c.cpu.reg.PC < 65536)
    (hsp : c.cpu.reg.SP < 65536)
    (hop : c.cpu.mem (c.cpu.reg.PC : Int) = 0xC8)
    (hby : ∀ a : Int, 0 ≤ c.cpu.mem a ∧ c.cpu.mem a < 256) :
    lookupMeta (InstKey.one 0xC8) = some (MetaEntry.mk 1 "RET NZ" (some 1))
    ∧ (getflag .Z c.cpu.reg.F = 0 →
        runInstr c = some
          ({ c with
              kwargs := emptyKwargs, abortFlag := false,
              cpu.reg.PC := (c.cpu.reg.PC + 1) % 65536 }, 4))
    ∧ (getflag .Z c.cpu.reg.F = 1 →
        (runInstr c).map (fun p => (p.1.cpu.reg, p.1.cpu.mem, p.2)) = some
          ({ c.cpu.reg with
              PC := 256 * (c.cpu.mem (((c.cpu.reg.SP + 1) % 65536 : Nat) : Int)).toNat
                      + (c.cpu.mem ((c.cpu.reg.SP : Nat) : Int)).toNat,
              SP := (c.cpu.reg.SP + 2) % 65536 }, c.cpu.mem, 10)) := by
  have hsem : entrySem (InstKey.one 0xC8) =
      some ⟨1, [unless_flag .Z early_abort],
        [.sr (some high_after_low) none 0,
         .sr (some high_after_low) (some JPa) 0]⟩ := rfl
  refine ⟨by decide, ?_, ?_⟩
  · intro hz
    unfold runInstr
    simp [runPipe, stepState, stepOCF, stepSR, fetchByte, hop, mkKey, hsem,
      withReg, regSet, regGet, unless_flag, early_abort, getflagC, getR,
      List.foldl, hz, emptyKwargs, ocfTicks, mask16_natCast,
      and_65535_eq_mod]
    simp [mask16]
    omega
  · intro hz
    unfold runInstr
    simp [runPipe, stepState, stepOCF, stepSR, fetchByte, MState.withDs,
      hop, mkKey, hsem, withReg, regSet, regGet, unless_flag, early_abort,
      getflagC, getR, kwGet, kwSet, JPa, List.foldl, hz, emptyKwargs,
      ocfTicks, mask16_natCast, and_65535_eq_mod]
    constructor
    · simp [mask16]
      omega
    · rw [show ((mask16 ((c.cpu.reg.SP : Int) + 1)) : Int)
            = ((c.cpu.reg.SP : Int) + 1) % 65536 from mask16_coe _]
      exact mask16_high_after_low _ _ (hby _).1 (hby _).2 (hby _).1 (hby _).2

theorem runInstr_push_BC (c : Core) (hpc : c.cpu.reg.PC < 65536)
    (hsp : c.cpu.reg.SP < 65536)
    (hb : c.cpu.mem (c.cpu.reg.PC : Int) = 0xC5) :
    runInstr c = some
      ({ c with
          kwargs := emptyKwargs, abortFlag := false,
          cpu.reg.PC := (c.cpu.reg.PC + 1) % 65536,
          cpu.reg.SP := (c.cpu.reg.SP + 65534) % 65536,
          cpu.mem := fun x =>
            if x = (((c.cpu.reg.SP + 65534) % 65536 : Nat) : Int)
            then (c.cpu.reg.C : Int)
            else if x = (((c.cpu.reg.SP + 65535) % 65536 : Nat) : Int)
            then (c.cpu.reg.B : Int)
            else c.cpu.mem x }, 10) := by
  have hsem : entrySem (InstKey.one 0xC5) = some ⟨1, [],
      [.sw (some .B) .value 0 none, .sw (some .C) .value 0 none]⟩ := rfl
  have hm1 : mask16 ((c.cpu.reg.SP : Int) - 1) = (c.cpu.reg.SP + 65535) % 65536 := by
    simp [mask16]
    omega
  have hm2 : mask16 ((((c.cpu.reg.SP + 65535) % 65536 : Nat) : Int) - 1)
      = (c.cpu.reg.SP + 65534) % 65536 := by
    simp [mask16]
    omega
  unfold runInstr
  simp [runPipe, stepState, stepOCF, stepSW, fetchByte, MState.withDs, hb,
    mkKey, hsem, withReg, regSet, regGet, memWrite, kwGet, kwSet,
    List.foldl, emptyKwargs, ocfTicks]
  refine ⟨⟨?_, ?_⟩, ?_⟩
  · simp [mask16]
    omega
  · simp [mask16]
    omega
  · funext x
    rw [show (((mask16 ((mask16 ((c.cpu.reg.SP : Int) - 1) : Nat) - 1)) : Nat) : Int)
          = ((c.cpu.reg.SP : Int) + 65534) % 65536 by simp [mask16]; omega,
       show (((mask16 ((c.cpu.reg.SP : Int) - 1)) : Nat) : Int)
          = ((c.cpu.reg.SP : Int) + 65535) % 65536 by simp [mask16]; omega]

theorem runInstr_pop_BC (c : Core) (hpc : c.cpu.reg.PC < 65536)
    (hsp : c.cpu.reg.SP < 65536)
    (hb : c.cpu.mem (c.cpu.reg.PC : Int) = 0xC1)
    (hlo0 : 0 ≤ c.cpu.mem ((c.cpu.reg.SP : Nat) : Int))
    (hlo : c.cpu.mem ((c.cpu.reg.SP : Nat) : Int) < 256)
    (hhi0 : 0 ≤ c.cpu.mem (((c.cpu.reg.SP + 1) % 65536 : Nat) : Int))
    (hhi : c.cpu.mem (((c.cpu.reg.SP + 1) % 65536 : Nat) : Int) < 256) :
    runInstr c = some
      ({ c with
          abortFlag := false,
          cpu.reg.PC := (c.cpu.reg.PC + 1) % 65536,
          cpu.reg.SP := (c.cpu.reg.SP + 2) % 65536,
          cpu.reg.B := (c.cpu.mem (((c.cpu.reg.SP + 1) % 65536 : Nat) : Int)).toNat,
          cpu.reg.C := (c.cpu.mem ((c.cpu.reg.SP : Nat) : Int)).toNat,
          kwargs := kwValueOnly
            (high_after_low (c.cpu.mem (((c.cpu.reg.SP + 1) % 65536 : Nat) : Int))
              (c.cpu.mem ((c.cpu.reg.SP : Nat) : Int))) }, 10) := by
  have hsem : entrySem (InstKey.one 0xC1) = some ⟨0, [],
      [.sr (some high_after_low) none 0,
       .sr (some high_after_low) (some (LDra .BC)) 0]⟩ := rfl
  unfold runInstr
  simp [runPipe, stepState, stepOCF, stepSR, fetchByte, MState.withDs, hb,
    mkKey, hsem, withReg, regSet, regGet, kwGet, kwSet, LDra, List.foldl,
    emptyKwargs, kwValueOnly, ocfTicks]
  have hA : ((mask16 ((c.cpu.reg.SP : Int) + 1) : Nat) : Int)
      = ((c.cpu.reg.SP : Int) + 1) % 65536 := by
    simp [mask16]
    omega
  rw [hA]
  push_cast at hlo0 hlo hhi0 hhi
  refine ⟨⟨?_, ?_, ?_, ?_⟩, rfl⟩
  · rw [mask16_high_after_low _ _ hhi0 hhi hlo0 hlo,
      Nat.shiftRight_eq_div_pow]
    omega
  · rw [mask16_high_after_low _ _ hhi0 hhi hlo0 hlo, and_255_eq_mod]
    omega
  · simp [mask16]
    omega
  · simp [mask16]
    omega

theorem C7_case_BC (c : Core) (hpc : c.cpu.reg.PC < 65536)
    (hsp : c.cpu.reg.SP < 65536)
    (hB : c.cpu.reg.B < 256) (hC : c.cpu.reg.C < 256)
    (hb0 : c.cpu.mem (c.cpu.reg.PC : Int) = 0xC5)
    (hb1 : c.cpu.mem (((c.cpu.reg.PC + 1) % 65536 : Nat) : Int) = 0xC1)
    (hne1 : (c.cpu.reg.PC + 1) % 65536 ≠ (c.cpu.reg.SP + 65535) % 65536)
    (hne2 : (c.cpu.reg.PC + 1) % 65536 ≠ (c.cpu.reg.SP + 65534) % 65536) :
    (runPushPop c).map (fun p => (p.1.cpu.reg, p.2)) = some
      ({ c.cpu.reg with PC := (c.cpu.reg.PC + 2) % 65536 }, 20) := by
  have e1 : ((c.cpu.reg.SP : Int) + 65534 + 1) % 65536
      = ((c.cpu.reg.SP : Int) + 65535) % 65536 := by omega
  have e3 : ((c.cpu.reg.SP : Int) + 65535) % 65536
      ≠ ((c.cpu.reg.SP : Int) + 65534) % 65536 := by omega
  have hne1i : ((c.cpu.reg.PC : Int) + 1) % 65536
      ≠ ((c.cpu.reg.SP : Int) + 65535) % 65536 := by omega
  have hne2i : ((c.cpu.reg.PC : Int) + 1) % 65536
      ≠ ((c.cpu.reg.SP : Int) + 65534) % 65536 := by omega
  have hb1i : c.cpu.mem (((c.cpu.reg.PC : Int) + 1) % 65536) = 0xC1 := by
    rw [show ((c.cpu.reg.PC : Int) + 1) % 65536
        = (((c.cpu.reg.PC + 1) % 65536 : Nat) : Int) by push_cast; ring_nf]
    exact hb1
  unfold runPushPop
  rw [runInstr_push_BC c hpc hsp hb0]
  dsimp only
  rw [runInstr_pop_BC _ (by simp; omega) (by simp; omega) ?op ?lo0 ?lo ?hi0 ?hi]
  case op =>
    simp [hne1i, hne2i, hb1i]
  case lo0 =>
    simp
  case lo =>
    simp
    omega
  case hi0 =>
    simp [e1, e3]
  case hi =>
    simp [e1, e3]
    omega
  have n1 : ((c.cpu.reg.SP + 65534) % 65536 + 1) % 65536
      = (c.cpu.reg.SP + 65535) % 65536 := by omega
  have n3 : ((c.cpu.reg.SP + 65535) % 65536 : Nat)
      ≠ (c.cpu.reg.SP + 65534) % 65536 := by omega
  dsimp only
  rw [n1]
  simp [n3]
  constructor <;> omega

theorem runInstr_push_DE (c : Core) (hpc : c.cpu.reg.PC < 65536)
    (hsp : c.cpu.reg.SP < 65536)
    (hb : c.cpu.mem (c.cpu.reg.PC : Int) = 0xD5) :
    runInstr c = some
      ({ c with
          kwargs := emptyKwargs, abortFlag := false,
          cpu.reg.PC := (c.cpu.reg.PC + 1) % 65536,
          cpu.reg.SP := (c.cpu.reg.SP + 65534) % 65536,
          cpu.mem := fun x =>
            if x = (((c.cpu.reg.SP + 65534) % 65536 : Nat) : Int)
            then (c.cpu.reg.E : Int)
            else if x = (((c.cpu.reg.SP + 65535) % 65536 : Nat) : Int)
            then (c.cpu.reg.D : Int)
            else c.cpu.mem x }, 10) := by
  have hsem : entrySem (InstKey.one 0xD5) = some ⟨1, [],
      [.sw (some .D) .value 0 none, .sw (some .E) .value 0 none]⟩ := rfl
  have hm1 : mask16 ((c.cpu.reg.SP : Int) - 1) = (c.cpu.reg.SP + 65535) % 65536 := by
    simp [mask16]
    omega
  have hm2 : mask16 ((((c.cpu.reg.SP + 65535) % 65536 : Nat) : Int) - 1)
      = (c.cpu.reg.SP + 65534) % 65536 := by
    simp [mask16]
    omega
  unfold runInstr
  simp [runPipe, stepState, stepOCF, stepSW, fetchByte, MState.withDs, hb,
    mkKey, hsem, withReg, regSet, regGet, memWrite, kwGet, kwSet,
    List.foldl, emptyKwargs, ocfTicks]
  refine ⟨⟨?_, ?_⟩, ?_⟩
  · simp [mask16]
    omega
  · simp [mask16]
    omega
  · funext x
    rw [show (((mask16 ((mask16 ((c.cpu.reg.SP : Int) - 1) : Nat) - 1)) : Nat) : Int)
          = ((c.cpu.reg.SP : Int) + 65534) % 65536 by simp [mask16]; omega,
       show (((mask16 ((c.cpu.reg.SP : Int) - 1)) : Nat) : Int)
          = ((c.cpu.reg.SP : Int) + 65535) % 65536 by simp [mask16]; omega]

theorem runInstr_pop_DE (c : Core) (hpc : c.cpu.reg.PC < 65536)
    (hsp : c.cpu.reg.SP < 65536)
    (hb : c.cpu.mem (c.cpu.reg.PC : Int) = 0xD1)
    (hlo0 : 0 ≤ c.cpu.mem ((c.cpu.reg.SP : Nat) : Int))
    (hlo : c.cpu.mem ((c.cpu.reg.SP : Nat) : Int) < 256)
    (hhi0 : 0 ≤ c.cpu.mem (((c.cpu.reg.SP + 1) % 65536 : Nat) : Int))
    (hhi : c.cpu.mem (((c.cpu.reg.SP + 1) % 65536 : Nat) : Int) < 256) :
    runInstr c = some
      ({ c with
          abortFlag := false,
          cpu.reg.PC := (c.cpu.reg.PC + 1) % 65536,
          cpu.reg.SP := (c.cpu.reg.SP + 2) % 65536,
          cpu.reg.D := (c.cpu.mem (((c.cpu.reg.SP + 1) % 65536 : Nat) : Int)).toNat,
          cpu.reg.E := (c.cpu.mem ((c.cpu.reg.SP : Nat) : Int)).toNat,
          kwargs := kwValueOnly
            (high_after_low (c.cpu.mem (((c.cpu.reg.SP + 1) % 65536 : Nat) : Int))
              (c.cpu.mem ((c.cpu.reg.SP : Nat) : Int))) }, 10) := by
  have hsem : entrySem (InstKey.one 0xD1) = some ⟨0, [],
      [.sr (some high_after_low) none 0,
       .sr (some high_after_low) (some (LDra .DE)) 0]⟩ := rfl
  unfold runInstr
  simp [runPipe, stepState, stepOCF, stepSR, fetchByte, MState.withDs, hb,
    mkKey, hsem, withReg, regSet, regGet, kwGet, kwSet, LDra, List.foldl,
    emptyKwargs, kwValueOnly, ocfTicks]
  have hA : ((mask16 ((c.cpu.reg.SP : Int) + 1) : Nat) : Int)
      = ((c.cpu.reg.SP : Int) + 1) % 65536 := by
    simp [mask16]
    omega
  rw [hA]
  push_cast at hlo0 hlo hhi0 hhi
  refine ⟨⟨?_, ?_, ?_, ?_⟩, rfl⟩
  · rw [mask16_high_after_low _ _ hhi0 hhi hlo0 hlo,
      Nat.shiftRight_eq_div_pow]
    omega
  · rw [mask16_high_after_low _ _ hhi0 hhi hlo0 hlo, and_255_eq_mod]
    omega
  · simp [mask16]
    omega
  · simp [mask16]
    omega

theorem C7_case_DE (c : Core) (hpc : c.cpu.reg.PC < 65536)
    (hsp : c.cpu.reg.SP < 65536)
    (hB : c.cpu.reg.D < 256) (hC : c.cpu.reg.E < 256)
    (hb0 : c.cpu.mem (c.cpu.reg.PC : Int) = 0xD5)
    (hb1 : c.cpu.mem (((c.cpu.reg.PC + 1) % 65536 : Nat) : Int) = 0xD1)
    (hne1 : (c.cpu.reg.PC + 1) % 65536 ≠ (c.cpu.reg.SP + 65535) % 65536)
    (hne2 : (c.cpu.reg.PC + 1) % 65536 ≠ (c.cpu.reg.SP + 65534) % 65536) :
    (runPushPop c).map (fun p => (p.1.cpu.reg, p.2)) = some
      ({ c.cpu.reg with PC := (c.cpu.reg.PC + 2) % 65536 }, 20) := by
  have e1 : ((c.cpu.reg.SP : Int) + 65534 + 1) % 65536
      = ((c.cpu.reg.SP : Int) + 65535) % 65536 := by omega
  have e3 : ((c.cpu.reg.SP : Int) + 65535) % 65536
      ≠ ((c.cpu.reg.SP : Int) + 65534) % 65536 := by omega
  have hne1i : ((c.cpu.reg.PC : Int) + 1) % 65536
      ≠ ((c.cpu.reg.SP : Int) + 65535) % 65536 := by omega
  have hne2i : ((c.cpu.reg.PC : Int) + 1) % 65536
      ≠ ((c.cpu.reg.SP : Int) + 65534) % 65536 := by omega
  have hb1i : c.cpu.mem (((c.cpu.reg.PC : Int) + 1) % 65536) = 0xD1 := by
    rw [show ((c.cpu.reg.PC : Int) + 1) % 65536
        = (((c.cpu.reg.PC + 1) % 65536 : Nat) : Int) by push_cast; ring_nf]
    exact hb1
  unfold runPushPop
  rw [runInstr_push_DE c hpc hsp hb0]
  dsimp only
  rw [runInstr_pop_DE _ (by simp; omega) (by simp; omega) ?op ?lo0 ?lo ?hi0 ?hi]
  case op =>
    simp [hne1i, hne2i, hb1i]
  case lo0 =>
    simp
  case lo =>
    simp
    omega
  case hi0 =>
    simp [e1, e3]
  case hi =>
    simp [e1, e3]
    omega
  have n1 : ((c.cpu.reg.SP + 65534) % 65536 + 1) % 65536
      = (c.cpu.reg.SP + 65535) % 65536 := by omega
  have n3 : ((c.cpu.reg.SP + 65535) % 65536 : Nat)
      ≠ (c.cpu.reg.SP + 65534) % 65536 := by omega
  dsimp only
  rw [n1]
  simp [n3]
  constructor <;> omega

theorem runInstr_push_HL (c : Core) (hpc : c.cpu.reg.PC < 65536)
    (hsp : c.cpu.reg.SP < 65536)
    (hb : c.cpu.mem (c.cpu.reg.PC : Int) = 0xE5) :
    runInstr c = some
      ({ c with
          kwargs := emptyKwargs, abortFlag := false,
          cpu.reg.PC := (c.cpu.reg.PC + 1) % 65536,
          cpu.reg.SP := (c.cpu.reg.SP + 65534) % 65536,
          cpu.mem := fun x =>
            if x = (((c.cpu.reg.SP + 65534) % 65536 : Nat) : Int)
            then (c.cpu.reg.L : Int)
            else if x = (((c.cpu.reg.SP + 65535) % 65536 : Nat) : Int)
            then (c.cpu.reg.H : Int)
            else c.cpu.mem x }, 10) := by
  have hsem : entrySem (InstKey.one 0xE5) = some ⟨1, [],
      [.sw (some .H) .value 0 none, .sw (some .L) .value 0 none]⟩ := rfl
  have hm1 : mask16 ((c.cpu.reg.SP : Int) - 1) = (c.cpu.reg.SP + 65535) % 65536 := by
    simp [mask16]
    omega
  have hm2 : mask16 ((((c.cpu.reg.SP + 65535) % 65536 : Nat) : Int) - 1)
      = (c.cpu.reg.SP + 65534) % 65536 := by
    simp [mask16]
    omega
  unfold runInstr
  simp [runPipe, stepState, stepOCF, stepSW, fetchByte, MState.withDs, hb,
    mkKey, hsem, withReg, regSet, regGet, memWrite, kwGet, kwSet,
    List.foldl, emptyKwargs, ocfTicks]
  refine ⟨⟨?_, ?_⟩, ?_⟩
  · simp [mask16]
    omega
  · simp [mask16]
    omega
  · funext x
    rw [show (((mask16 ((mask16 ((c.cpu.reg.SP : Int) - 1) : Nat) - 1)) : Nat) : Int)
          = ((c.cpu.reg.SP : Int) + 65534) % 65536 by simp [mask16]; omega,
       show (((mask16 ((c.cpu.reg.SP : Int) - 1)) : Nat) : Int)
          = ((c.cpu.reg.SP : Int) + 65535) % 65536 by simp [mask16]; omega]

theorem runInstr_pop_HL (c : Core) (hpc : c.cpu.reg.PC < 65536)
    (hsp : c.cpu.reg.SP < 65536)
    (hb : c.cpu.mem (c.cpu.reg.PC : Int) = 0xE1)
    (hlo0 : 0 ≤ c.cpu.mem ((c.cpu.reg.SP : Nat) : Int))
    (hlo : c.cpu.mem ((c.cpu.reg.SP : Nat) : Int) < 256)
    (hhi0 : 0 ≤ c.cpu.mem (((c.cpu.reg.SP + 1) % 65536 : Nat) : Int))
    (hhi : c.cpu.mem (((c.cpu.reg.SP + 1) % 65536 : Nat) : Int) < 256) :
    runInstr c = some
      ({ c with
          abortFlag := false,
          cpu.reg.PC := (c.cpu.reg.PC + 1) % 65536,
          cpu.reg.SP := (c.cpu.reg.SP + 2) % 65536,
          cpu.reg.H := (c.cpu.mem (((c.cpu.reg.SP + 1) % 65536 : Nat) : Int)).toNat,
          cpu.reg.L := (c.cpu.mem ((c.cpu.reg.SP : Nat) : Int)).toNat,
          kwargs := kwValueOnly
            (high_after_low (c.cpu.mem (((c.cpu.reg.SP + 1) % 65536 : Nat) : Int))
              (c.cpu.mem ((c.cpu.reg.SP : Nat) : Int))) }, 10) := by
  have hsem : entrySem (InstKey.one 0xE1) = some ⟨0, [],
      [.sr (some high_after_low) none 0,
       .sr (some high_after_low) (some (LDra .HL)) 0]⟩ := rfl
  unfold runInstr
  simp [runPipe, stepState, stepOCF, stepSR, fetchByte, MState.withDs, hb,
    mkKey, hsem, withReg, regSet, regGet, kwGet, kwSet, LDra, List.foldl,
    emptyKwargs, kwValueOnly, ocfTicks]
  have hA : ((mask16 ((c.cpu.reg.SP : Int) + 1) : Nat) : Int)
      = ((c.cpu.reg.SP : Int) + 1) % 65536 := by
    simp [mask16]
    omega
  rw [hA]
  push_cast at hlo0 hlo hhi0 hhi
  refine ⟨⟨?_, ?_, ?_, ?_⟩, rfl⟩
  · rw [mask16_high_after_low _ _ hhi0 hhi hlo0 hlo,
      Nat.shiftRight_eq_div_pow]
    omega
  · rw [mask16_high_after_low _ _ hhi0 hhi hlo0 hlo, and_255_eq_mod]
    omega
  · simp [mask16]
    omega
  · simp [mask16]
    omega

theorem C7_case_HL (c : Core) (hpc : c.cpu.reg.PC < 65536)
    (hsp : c.cpu.reg.SP < 65536)
    (hB : c.cpu.reg.H < 256) (hC : c.cpu.reg.L < 256)
    (hb0 : c.cpu.mem (c.cpu.reg.PC : Int) = 0xE5)
    (hb1 : c.cpu.mem (((c.cpu.reg.PC + 1) % 65536 : Nat) : Int) = 0xE1)
    (hne1 : (c.cpu.reg.PC + 1) % 65536 ≠ (c.cpu.reg.SP + 65535) % 65536)
    (hne2 : (c.cpu.reg.PC + 1) % 65536 ≠ (c.cpu.reg.SP + 65534) % 65536) :
    (runPushPop c).map (fun p => (p.1.cpu.reg, p.2)) = some
      ({ c.cpu.reg with PC := (c.cpu.reg.PC + 2) % 65536 }, 20) := by
  have e1 : ((c.cpu.reg.SP : Int) + 65534 + 1) % 65536
      = ((c.cpu.reg.SP : Int) + 65535) % 65536 := by omega
  have e3 : ((c.cpu.reg.SP : Int) + 65535) % 65536
      ≠ ((c.cpu.reg.SP : Int) + 65534) % 65536 := by omega
  have hne1i : ((c.cpu.reg.PC : Int) + 1) % 65536
      ≠ ((c.cpu.reg.SP : Int) + 65535) % 65536 := by omega
  have hne2i : ((c.cpu.reg.PC : Int) + 1) % 65536
      ≠ ((c.cpu.reg.SP : Int) + 65534) % 65536 := by omega
  have hb1i : c.cpu.mem (((c.cpu.reg.PC : Int) + 1) % 65536) = 0xE1 := by
    rw [show ((c.cpu.reg.PC : Int) + 1) % 65536
        = (((c.cpu.reg.PC + 1) % 65536 : Nat) : Int) by push_cast; ring_nf]
    exact hb1
  unfold runPushPop
  rw [runInstr_push_HL c hpc hsp hb0]
  dsimp only
  rw [runInstr_pop_HL _ (by simp; omega) (by simp; omega) ?op ?lo0 ?lo ?hi0 ?hi]
  case op =>
    simp [hne1i, hne2i, hb1i]
  case lo0 =>
    simp
  case lo =>
    simp
    omega
  case hi0 =>
    simp [e1, e3]
  case hi =>
    simp [e1, e3]
    omega
  have n1 : ((c.cpu.reg.SP + 65534) % 65536 + 1) % 65536
      = (c.cpu.reg.SP + 65535) % 65536 := by omega
  have n3 : ((c.cpu.reg.SP + 65535) % 65536 : Nat)
      ≠ (c.cpu.reg.SP + 65534) % 65536 := by omega
  dsimp only
  rw [n1]
  simp [n3]
  constructor <;> omega

theorem runInstr_push_AF (c : Core) (hpc : c.cpu.reg.PC < 65536)
    (hsp : c.cpu.reg.SP < 65536)
    (hb : c.cpu.mem (c.cpu.reg.PC : Int) = 0xF5) :
    runInstr c = some
      ({ c with
          kwargs := emptyKwargs, abortFlag := false,
          cpu.reg.PC := (c.cpu.reg.PC + 1) % 65536,
          cpu.reg.SP := (c.cpu.reg.SP + 65534) % 65536,
          cpu.mem := fun x =>
            if x = (((c.cpu.reg.SP + 65534) % 65536 : Nat) : Int)
            then (c.cpu.reg.F : Int)
            else if x = (((c.cpu.reg.SP + 65535) % 65536 : Nat) : Int)
            then (c.cpu.reg.A : Int)
            else c.cpu.mem x }, 10) := by
  have hsem : entrySem (InstKey.one 0xF5) = some ⟨1, [],
      [.sw (some .A) .value 0 none, .sw (some .F) .value 0 none]⟩ := rfl
  have hm1 : mask16 ((c.cpu.reg.SP : Int) - 1) = (c.cpu.reg.SP + 65535) % 65536 := by
    simp [mask16]
    omega
  have hm2 : mask16 ((((c.cpu.reg.SP + 65535) % 65536 : Nat) : Int) - 1)
      = (c.cpu.reg.SP + 65534) % 65536 := by
    simp [mask16]
    omega
  unfold runInstr
  simp [runPipe, stepState, stepOCF, stepSW, fetchByte, MState.withDs, hb,
    mkKey, hsem, withReg, regSet, regGet, memWrite, kwGet, kwSet,
    List.foldl, emptyKwargs, ocfTicks]
  refine ⟨⟨?_, ?_⟩, ?_⟩
  · simp [mask16]
    omega
  · simp [mask16]
    omega
  · funext x
    rw [show (((mask16 ((mask16 ((c.cpu.reg.SP : Int) - 1) : Nat) - 1)) : Nat) : Int)
          = ((c.cpu.reg.SP : Int) + 65534) % 65536 by simp [mask16]; omega,
       show (((mask16 ((c.cpu.reg.SP : Int) - 1)) : Nat) : Int)
          = ((c.cpu.reg.SP : Int) + 65535) % 65536 by simp [mask16]; omega]

theorem runInstr_pop_AF (c : Core) (hpc : c.cpu.reg.PC < 65536)
    (hsp : c.cpu.reg.SP < 65536)
    (hb : c.cpu.mem (c.cpu.reg.PC : Int) = 0xF1)
    (hlo0 : 0 ≤ c.cpu.mem ((c.cpu.reg.SP : Nat) : Int))
    (hlo : c.cpu.mem ((c.cpu.reg.SP : Nat) : Int) < 256)
    (hhi0 : 0 ≤ c.cpu.mem (((c.cpu.reg.SP + 1) % 65536 : Nat) : Int))
    (hhi : c.cpu.mem (((c.cpu.reg.SP + 1) % 65536 : Nat) : Int) < 256) :
    runInstr c = some
      ({ c with
          abortFlag := false,
          cpu.reg.PC := (c.cpu.reg.PC + 1) % 65536,
          cpu.reg.SP := (c.cpu.reg.SP + 2) % 65536,
          cpu.reg.A := (c.cpu.mem (((c.cpu.reg.SP + 1) % 65536 : Nat) : Int)).toNat,
          cpu.reg.F := (c.cpu.mem ((c.cpu.reg.SP : Nat) : Int)).toNat,
          kwargs := kwValueOnly
            (high_after_low (c.cpu.mem (((c.cpu.reg.SP + 1) % 65536 : Nat) : Int))
              (c.cpu.mem ((c.cpu.reg.SP : Nat) : Int))) }, 10) := by
  have hsem : entrySem (InstKey.one 0xF1) = some ⟨0, [],
      [.sr (some high_after_low) none 0,
       .sr (some high_after_low) (some (LDra .AF)) 0]⟩ := rfl
  unfold runInstr
  simp [runPipe, stepState, stepOCF, stepSR, fetchByte, MState.withDs, hb,
    mkKey, hsem, withReg, regSet, regGet, kwGet, kwSet, LDra, List.foldl,
    emptyKwargs, kwValueOnly, ocfTicks]
  have hA : ((mask16 ((c.cpu.reg.SP : Int) + 1) : Nat) : Int)
      = ((c.cpu.reg.SP : Int) + 1) % 65536 := by
    simp [mask16]
    omega
  rw [hA]
  push_cast at hlo0 hlo hhi0 hhi
  refine ⟨⟨?_, ?_, ?_, ?_⟩, rfl⟩
  · rw [mask16_high_after_low _ _ hhi0 hhi hlo0 hlo,
      Nat.shiftRight_eq_div_pow]
    omega
  · rw [mask16_high_after_low _ _ hhi0 hhi hlo0 hlo, and_255_eq_mod]
    omega
  · simp [mask16]
    omega
  · simp [mask16]
    omega

theorem C7_case_AF (c : Core) (hpc : c.cpu.reg.PC < 65536)
    (hsp : c.cpu.reg.SP < 65536)
    (hB : c.cpu.reg.A < 256) (hC : c.cpu.reg.F < 256)
    (hb0 : c.cpu.mem (c.cpu.reg.PC : Int) = 0xF5)
    (hb1 : c.cpu.mem (((c.cpu.reg.PC + 1) % 65536 : Nat) : Int) = 0xF1)
    (hne1 : (c.cpu.reg.PC + 1) % 65536 ≠ (c.cpu.reg.SP + 65535) % 65536)
    (hne2 : (c.cpu.reg.PC + 1) % 65536 ≠ (c.cpu.reg.SP + 65534) % 65536) :
    (runPushPop c).map (fun p => (p.1.cpu.reg, p.2)) = some
      ({ c.cpu.reg with PC := (c.cpu.reg.PC + 2) % 65536 }, 20) := by
  have e1 : ((c.cpu.reg.SP : Int) + 65534 + 1) % 65536
      = ((c.cpu.reg.SP : Int) + 65535) % 65536 := by omega
  have e3 : ((c.cpu.reg.SP : Int) + 65535) % 65536
      ≠ ((c.cpu.reg.SP : Int) + 65534) % 65536 := by omega
  have hne1i : ((c.cpu.reg.PC : Int) + 1) % 65536
      ≠ ((c.cpu.reg.SP : Int) + 65535) % 65536 := by omega
  have hne2i : ((c.cpu.reg.PC : Int) + 1) % 65536
      ≠ ((c.cpu.reg.SP : Int) + 65534) % 65536 := by omega
  have hb1i : c.cpu.mem (((c.cpu.reg.PC : Int) + 1) % 65536) = 0xF1 := by
    rw [show ((c.cpu.reg.PC : Int) + 1) % 65536
        = (((c.cpu.reg.PC + 1) % 65536 : Nat) : Int) by push_cast; ring_nf]
    exact hb1
  unfold runPushPop
  rw [runInstr_push_AF c hpc hsp hb0]
  dsimp only
  rw [runInstr_pop_AF _ (by simp; omega) (by simp; omega) ?op ?lo0 ?lo ?hi0 ?hi]
  case op =>
    simp [hne1i, hne2i, hb1i]
  case lo0 =>
    simp
  case lo =>
    simp
    omega
  case hi0 =>
    simp [e1, e3]
  case hi =>
    simp [e1, e3]
    omega
  have n1 : ((c.cpu.reg.SP + 65534) % 65536 + 1) % 65536
      = (c.cpu.reg.SP + 65535) % 65536 := by omega
  have n3 : ((c.cpu.reg.SP + 65535) % 65536 : Nat)
      ≠ (c.cpu.reg.SP + 65534) % 65536 := by omega
  dsimp only
  rw [n1]
  simp [n3]
  constructor <;> omega

theorem runInstr_push_IX (c : Core) (hpc : c.cpu.reg.PC < 65536)
    (hsp : c.cpu.reg.SP < 65536)
    (hb0 : c.cpu.mem (c.cpu.reg.PC : Int) = 0xDD)
    (hb1 : c.cpu.mem (((c.cpu.reg.PC + 1) % 65536 : Nat) : Int) = 0xE5) :
    runInstr c = some
      ({ c with
          kwargs := emptyKwargs, abortFlag := false,
          cpu.reg.PC := (c.cpu.reg.PC + 2) % 65536,
          cpu.reg.SP := (c.cpu.reg.SP + 65534) % 65536,
          cpu.mem := fun x =>
            if x = (((c.cpu.reg.SP + 65534) % 65536 : Nat) : Int)
            then (c.cpu.reg.IXL : Int)
            else if x = (((c.cpu.reg.SP + 65535) % 65536 : Nat) : Int)
            then (c.cpu.reg.IXH : Int)
            else c.cpu.mem x }, 14) := by
  have hsemP : entrySem (InstKey.one 0xDD) = some ⟨0, [],
      [.ocf [0xDD] false 0]⟩ := rfl
  have hsem : entrySem (InstKey.two 0xDD 0xE5) = some ⟨1, [],
      [.sw (some .IXH) .value 0 none, .sw (some .IXL) .value 0 none]⟩ := rfl
  have hb1m : c.cpu.mem (((mask16 ((c.cpu.reg.PC : Int) + 1)) : Nat) : Int)
      = 0xE5 := by
    rw [show ((mask16 ((c.cpu.reg.PC : Int) + 1) : Nat) : Int)
        = (((c.cpu.reg.PC + 1) % 65536 : Nat) : Int) by simp [mask16]; omega]
    exact hb1
  unfold runInstr
  simp [runPipe, stepState, stepOCF, stepSW, fetchByte, MState.withDs, hb0,
    hb1m, mkKey, hsemP, hsem, withReg, regSet, regGet, memWrite, kwGet, kwSet,
    List.foldl, emptyKwargs, ocfTicks]
  refine ⟨⟨?_, ?_⟩, ?_⟩
  · simp [mask16]
    omega
  · simp [mask16]
    omega
  · funext x
    rw [show (((mask16 ((mask16 ((c.cpu.reg.SP : Int) - 1) : Nat) - 1)) : Nat) : Int)
          = ((c.cpu.reg.SP : Int) + 65534) % 65536 by simp [mask16]; omega,
       show (((mask16 ((c.cpu.reg.SP : Int) - 1)) : Nat) : Int)
          = ((c.cpu.reg.SP : Int) + 65535) % 65536 by simp [mask16]; omega]

theorem runInstr_pop_IX (c : Core) (hpc : c.cpu.reg.PC < 65536)
    (hsp : c.cpu.reg.SP < 65536)
    (hb0 : c.cpu.mem (c.cpu.reg.PC : Int) = 0xDD)
    (hb1 : c.cpu.mem (((c.cpu.reg.PC + 1) % 65536 : Nat) : Int) = 0xE1)
    (hlo0 : 0 ≤ c.cpu.mem ((c.cpu.reg.SP : Nat) : Int))
    (hlo : c.cpu.mem ((c.cpu.reg.SP : Nat) : Int) < 256)
    (hhi0 : 0 ≤ c.cpu.mem (((c.cpu.reg.SP + 1) % 65536 : Nat) : Int))
    (hhi : c.cpu.mem (((c.cpu.reg.SP + 1) % 65536 : Nat) : Int) < 256) :
    runInstr c = some
      ({ c with
          abortFlag := false,
          cpu.reg.PC := (c.cpu.reg.PC + 2) % 65536,
          cpu.reg.SP := (c.cpu.reg.SP + 2) % 65536,
          cpu.reg.IXH := (c.cpu.mem (((c.cpu.reg.SP + 1) % 65536 : Nat) : Int)).toNat,
          cpu.reg.IXL := (c.cpu.mem ((c.cpu.reg.SP : Nat) : Int)).toNat,
          kwargs := kwValueOnly
            (high_after_low (c.cpu.mem (((c.cpu.reg.SP + 1) % 65536 : Nat) : Int))
              (c.cpu.mem ((c.cpu.reg.SP : Nat) : Int))) }, 14) := by
  have hsemP : entrySem (InstKey.one 0xDD) = some ⟨0, [],
      [.ocf [0xDD] false 0]⟩ := rfl
  have hsem : entrySem (InstKey.two 0xDD 0xE1) = some ⟨0, [],
      [.sr (some high_after_low) none 0,
       .sr (some high_after_low) (some (LDra .IX)) 0]⟩ := rfl
  have hb1m : c.cpu.mem (((mask16 ((c.cpu.reg.PC : Int) + 1)) : Nat) : Int)
      = 0xE1 := by
    rw [show ((mask16 ((c.cpu.reg.PC : Int) + 1) : Nat) : Int)
        = (((c.cpu.reg.PC + 1) % 65536 : Nat) : Int) by simp [mask16]; omega]
    exact hb1
  unfold runInstr
  simp [runPipe, stepState, stepOCF, stepSR, fetchByte, MState.withDs, hb0,
    hb1m, mkKey, hsemP, hsem, withReg, regSet, regGet, kwGet, kwSet, LDra,
    List.foldl, emptyKwargs, kwValueOnly, ocfTicks]
  have hA : ((mask16 ((c.cpu.reg.SP : Int) + 1) : Nat) : Int)
      = ((c.cpu.reg.SP : Int) + 1) % 65536 := by
    simp [mask16]
    omega
  rw [hA]
  push_cast at hlo0 hlo hhi0 hhi
  refine ⟨⟨?_, ?_, ?_, ?_⟩, rfl⟩
  · rw [mask16_high_after_low _ _ hhi0 hhi hlo0 hlo,
      Nat.shiftRight_eq_div_pow]
    omega
  · rw [mask16_high_after_low _ _ hhi0 hhi hlo0 hlo, and_255_eq_mod]
    omega
  · simp [mask16]
    omega
  · simp [mask16]
    omega

theorem C7_case_IX (c : Core) (hpc : c.cpu.reg.PC < 65536)
    (hsp : c.cpu.reg.SP < 65536)
    (hB : c.cpu.reg.IXH < 256) (hC : c.cpu.reg.IXL < 256)
    (hb0 : c.cpu.mem (c.cpu.reg.PC : Int) = 0xDD)
    (hb1 : c.cpu.mem (((c.cpu.reg.PC + 1) % 65536 : Nat) : Int) = 0xE5)
    (hb2 : c.cpu.mem (((c.cpu.reg.PC + 2) % 65536 : Nat) : Int) = 0xDD)
    (hb3 : c.cpu.mem (((c.cpu.reg.PC + 3) % 65536 : Nat) : Int) = 0xE1)
    (hne2a : (c.cpu.reg.PC + 2) % 65536 ≠ (c.cpu.reg.SP + 65535) % 65536)
    (hne2b : (c.cpu.reg.PC + 2) % 65536 ≠ (c.cpu.reg.SP + 65534) % 65536)
    (hne3a : (c.cpu.reg.PC + 3) % 65536 ≠ (c.cpu.reg.SP + 65535) % 65536)
    (hne3b : (c.cpu.reg.PC + 3) % 65536 ≠ (c.cpu.reg.SP + 65534) % 65536) :
    (runPushPop c).map (fun p => (p.1.cpu.reg, p.2)) = some
      ({ c.cpu.reg with PC := (c.cpu.reg.PC + 4) % 65536 }, 28) := by
  have e1 : ((c.cpu.reg.SP : Int) + 65534 + 1) % 65536
      = ((c.cpu.reg.SP : Int) + 65535) % 65536 := by omega
  have e3 : ((c.cpu.reg.SP : Int) + 65535) % 65536
      ≠ ((c.cpu.reg.SP : Int) + 65534) % 65536 := by omega
  have hne2ai : ((c.cpu.reg.PC : Int) + 2) % 65536
      ≠ ((c.cpu.reg.SP : Int) + 65535) % 65536 := by omega
  have hne2bi : ((c.cpu.reg.PC : Int) + 2) % 65536
      ≠ ((c.cpu.reg.SP : Int) + 65534) % 65536 := by omega
  have hne3ai : ((c.cpu.reg.PC : Int) + 2 + 1) % 65536
      ≠ ((c.cpu.reg.SP : Int) + 65535) % 65536 := by omega
  have hne3bi : ((c.cpu.reg.PC : Int) + 2 + 1) % 65536
      ≠ ((c.cpu.reg.SP : Int) + 65534) % 65536 := by omega
  have hb2i : c.cpu.mem (((c.cpu.reg.PC : Int) + 2) % 65536) = 0xDD := by
    rw [show ((c.cpu.reg.PC : Int) + 2) % 65536
        = (((c.cpu.reg.PC + 2) % 65536 : Nat) : Int) by push_cast; ring_nf]
    exact hb2
  have hb3i : c.cpu.mem (((c.cpu.reg.PC : Int) + 2 + 1) % 65536) = 0xE1 := by
    rw [show ((c.cpu.reg.PC : Int) + 2 + 1) % 65536
        = (((c.cpu.reg.PC + 3) % 65536 : Nat) : Int) by push_cast; ring_nf]
    exact hb3
  unfold runPushPop
  rw [runInstr_push_IX c hpc hsp hb0 hb1]
  dsimp only
  rw [runInstr_pop_IX _ (by simp; omega) (by simp; omega) ?b0 ?b1 ?lo0 ?lo ?hi0 ?hi]
  case b0 =>
    simp [hne2ai, hne2bi, hb2i]
  case b1 =>
    simp [hne3ai, hne3bi, hb3i]
  case lo0 =>
    simp
  case lo =>
    simp
    omega
  case hi0 =>
    simp [e1, e3]
  case hi =>
    simp [e1, e3]
    omega
  have n1 : ((c.cpu.reg.SP + 65534) % 65536 + 1) % 65536
      = (c.cpu.reg.SP + 65535) % 65536 := by omega
  have n3 : ((c.cpu.reg.SP + 65535) % 65536 : Nat)
      ≠ (c.cpu.reg.SP + 65534) % 65536 := by omega
  dsimp only
  rw [n1]
  simp [n3]
  constructor <;> omega

theorem runInstr_push_IY (c : Core) (hpc : c.cpu.reg.PC < 65536)
    (hsp : c.cpu.reg.SP < 65536)
    (hb0 : c.cpu.mem (c.cpu.reg.PC : Int) = 0xFD)
    (hb1 : c.cpu.mem (((c.cpu.reg.PC + 1) % 65536 : Nat) : Int) = 0xE5) :
    runInstr c = some
      ({ c with
          kwargs := emptyKwargs, abortFlag := false,
          cpu.reg.PC := (c.cpu.reg.PC + 2) % 65536,
          cpu.reg.SP := (c.cpu.reg.SP + 65534) % 65536,
          cpu.mem := fun x =>
            if x = (((c.cpu.reg.SP + 65534) % 65536 : Nat) : Int)
            then (c.cpu.reg.IYL : Int)
            else if x = (((c.cpu.reg.SP + 65535) % 65536 : Nat) : Int)
            then (c.cpu.reg.IYH : Int)
            else c.cpu.mem x }, 14) := by
  have hsemP : entrySem (InstKey.one 0xFD) = some ⟨0, [],
      [.ocf [0xFD] false 0]⟩ := rfl
  have hsem : entrySem (InstKey.two 0xFD 0xE5) = some ⟨1, [],
      [.sw (some .IYH) .value 0 none, .sw (some .IYL) .value 0 none]⟩ := rfl
  have hb1m : c.cpu.mem (((mask16 ((c.cpu.reg.PC : Int) + 1)) : Nat) : Int)
      = 0xE5 := by
    rw [show ((mask16 ((c.cpu.reg.PC : Int) + 1) : Nat) : Int)
        = (((c.cpu.reg.PC + 1) % 65536 : Nat) : Int) by simp [mask16]; omega]
    exact hb1
  unfold runInstr
  simp [runPipe, stepState, stepOCF, stepSW, fetchByte, MState.withDs, hb0,
    hb1m, mkKey, hsemP, hsem, withReg, regSet, regGet, memWrite, kwGet, kwSet,
    List.foldl, emptyKwargs, ocfTicks]
  refine ⟨⟨?_, ?_⟩, ?_⟩
  · simp [mask16]
    omega
  · simp [mask16]
    omega
  · funext x
    rw [show (((mask16 ((mask16 ((c.cpu.reg.SP : Int) - 1) : Nat) - 1)) : Nat) : Int)
          = ((c.cpu.reg.SP : Int) + 65534) % 65536 by simp [mask16]; omega,
       show (((mask16 ((c.cpu.reg.SP : Int) - 1)) : Nat) : Int)
          = ((c.cpu.reg.SP : Int) + 65535) % 65536 by simp [mask16]; omega]

theorem runInstr_pop_IY (c : Core) (hpc : c.cpu.reg.PC < 65536)
    (hsp : c.cpu.reg.SP < 65536)
    (hb0 : c.cpu.mem (c.cpu.reg.PC : Int) = 0xFD)
    (hb1 : c.cpu.mem (((c.cpu.reg.PC + 1) % 65536 : Nat) : Int) = 0xE1)
    (hlo0 : 0 ≤ c.cpu.mem ((c.cpu.reg.SP : Nat) : Int))
    (hlo : c.cpu.mem ((c.cpu.reg.SP : Nat) : Int) < 256)
    (hhi0 : 0 ≤ c.cpu.mem (((c.cpu.reg.SP + 1) % 65536 : Nat) : Int))
    (hhi : c.cpu.mem (((c.cpu.reg.SP + 1) % 65536 : Nat) : Int) < 256) :
    runInstr c = some
      ({ c with
          abortFlag := false,
          cpu.reg.PC := (c.cpu.reg.PC + 2) % 65536,
          cpu.reg.SP := (c.cpu.reg.SP + 2) % 65536,
          cpu.reg.IYH := (c.cpu.mem (((c.cpu.reg.SP + 1) % 65536 : Nat) : Int)).toNat,
          cpu.reg.IYL := (c.cpu.mem ((c.cpu.reg.SP : Nat) : Int)).toNat,
          kwargs := kwValueOnly
            (high_after_low (c.cpu.mem (((c.cpu.reg.SP + 1) % 65536 : Nat) : Int))
              (c.cpu.mem ((c.cpu.reg.SP : Nat) : Int))) }, 14) := by
  have hsemP : entrySem (InstKey.one 0xFD) = some ⟨0, [],
      [.ocf [0xFD] false 0]⟩ := rfl
  have hsem : entrySem (InstKey.two 0xFD 0xE1) = some ⟨0, [],
      [.sr (some high_after_low) none 0,
       .sr (some high_after_low) (some (LDra .IY)) 0]⟩ := rfl
  have hb1m : c.cpu.mem (((mask16 ((c.cpu.reg.PC : Int) + 1)) : Nat) : Int)
      = 0xE1 := by
    rw [show ((mask16 ((c.cpu.reg.PC : Int) + 1) : Nat) : Int)
        = (((c.cpu.reg.PC + 1) % 65536 : Nat) : Int) by simp [mask16]; omega]
    exact hb1
  unfold runInstr
  simp [runPipe, stepState, stepOCF, stepSR, fetchByte, MState.withDs, hb0,
    hb1m, mkKey, hsemP, hsem, withReg, regSet, regGet, kwGet, kwSet, LDra,
    List.foldl, emptyKwargs, kwValueOnly, ocfTicks]
  have hA : ((mask16 ((c.cpu.reg.SP : Int) + 1) : Nat) : Int)
      = ((c.cpu.reg.SP : Int) + 1) % 65536 := by
    simp [mask16]
    omega
  rw [hA]
  push_cast at hlo0 hlo hhi0 hhi
  refine ⟨⟨?_, ?_, ?_, ?_⟩, rfl⟩
  · rw [mask16_high_after_low _ _ hhi0 hhi hlo0 hlo,
      Nat.shiftRight_eq_div_pow]
    omega
  · rw [mask16_high_after_low _ _ hhi0 hhi hlo0 hlo, and_255_eq_mod]
    omega
  · simp [mask16]
    omega
  · simp [mask16]
    omega

theorem C7_case_IY (c : Core) (hpc : c.cpu.reg.PC < 65536)
    (hsp : c.cpu.reg.SP < 65536)
    (hB : c.cpu.reg.IYH < 256) (hC : c.cpu.reg.IYL < 256)
    (hb0 : c.cpu.mem (c.cpu.reg.PC : Int) = 0xFD)
    (hb1 : c.cpu.mem (((c.cpu.reg.PC + 1) % 65536 : Nat) : Int) = 0xE5)
    (hb2 : c.cpu.mem (((c.cpu.reg.PC + 2) % 65536 : Nat) : Int) = 0xFD)
    (hb3 : c.cpu.mem (((c.cpu.reg.PC + 3) % 65536 : Nat) : Int) = 0xE1)
    (hne2a : (c.cpu.reg.PC + 2) % 65536 ≠ (c.cpu.reg.SP + 65535) % 65536)
    (hne2b : (c.cpu.reg.PC + 2) % 65536 ≠ (c.cpu.reg.SP + 65534) % 65536)
    (hne3a : (c.cpu.reg.PC + 3) % 65536 ≠ (c.cpu.reg.SP + 65535) % 65536)
    (hne3b : (c.cpu.reg.PC + 3) % 65536 ≠ (c.cpu.reg.SP + 65534) % 65536) :
    (runPushPop c).map (fun p => (p.1.cpu.reg, p.2)) = some
      ({ c.cpu.reg with PC := (c.cpu.reg.PC + 4) % 65536 }, 28) := by
  have e1 : ((c.cpu.reg.SP : Int) + 65534 + 1) % 65536
      = ((c.cpu.reg.SP : Int) + 65535) % 65536 := by omega
  have e3 : ((c.cpu.reg.SP : Int) + 65535) % 65536
      ≠ ((c.cpu.reg.SP : Int) + 65534) % 65536 := by omega
  have hne2ai : ((c.cpu.reg.PC : Int) + 2) % 65536
      ≠ ((c.cpu.reg.SP : Int) + 65535) % 65536 := by omega
  have hne2bi : ((c.cpu.reg.PC : Int) + 2) % 65536
      ≠ ((c.cpu.reg.SP : Int) + 65534) % 65536 := by omega
  have hne3ai : ((c.cpu.reg.PC : Int) + 2 + 1) % 65536
      ≠ ((c.cpu.reg.SP : Int) + 65535) % 65536 := by omega
  have hne3bi : ((c.cpu.reg.PC : Int) + 2 + 1) % 65536
      ≠ ((c.cpu.reg.SP : Int) + 65534) % 65536 := by omega
  have hb2i : c.cpu.mem (((c.cpu.reg.PC : Int) + 2) % 65536) = 0xFD := by
    rw [show ((c.cpu.reg.PC : Int) + 2) % 65536
        = (((c.cpu.reg.PC + 2) % 65536 : Nat) : Int) by push_cast; ring_nf]
    exact hb2
  have hb3i : c.cpu.mem (((c.cpu.reg.PC : Int) + 2 + 1) % 65536) = 0xE1 := by
    rw [show ((c.cpu.reg.PC : Int) + 2 + 1) % 65536
        = (((c.cpu.reg.PC + 3) % 65536 : Nat) : Int) by push_cast; ring_nf]
    exact hb3
  unfold runPushPop
  rw [runInstr_push_IY c hpc hsp hb0 hb1]
  dsimp only
  rw [runInstr_pop_IY _ (by simp; omega) (by simp; omega) ?b0 ?b1 ?lo0 ?lo ?hi0 ?hi]
  case b0 =>
    simp [hne2ai, hne2bi, hb2i]
  case b1 =>
    simp [hne3ai, hne3bi, hb3i]
  case lo0 =>
    simp
  case lo =>
    simp
    omega
  case hi0 =>
    simp [e1, e3]
  case hi =>
    simp [e1, e3]
    omega
  have n1 : ((c.cpu.reg.SP + 65534) % 65536 + 1) % 65536
      = (c.cpu.reg.SP + 65535) % 65536 := by omega
  have n3 : ((c.cpu.reg.SP + 65535) % 65536 : Nat)
      ≠ (c.cpu.reg.SP + 65534) % 65536 := by omega
  dsimp only
  rw [n1]
  simp [n3]
  constructor <;> omega

/-- C7 (amended): for every rr in {BC, DE, HL, AF, IX, IY}, running PUSH rr
then POP rr leaves every register and every flag except PC bit-identical to
the start state and restores SP; PC does change — it ends past the two
instructions (PC+2 for the one-byte pairs, PC+4 for IX/IY) — and the pair
costs 20 T-cycles (28 for IX/IY) as this emulator counts them. -/
theorem C7_push_pop (rr : RrName) (c : Core)
    (hpc : c.cpu.reg.PC < 65536) (hsp : c.cpu.reg.SP < 65536)
    (hhi : regGet (rrHi rr) c.cpu.reg < 256)
    (hlo : regGet (rrLo rr) c.cpu.reg < 256)
    (hprog : pushPopProgram rr c) (hapart : popFetchApart rr c) :
    (runPushPop c).map (fun p => (p.1.cpu.reg, p.2)) = some
      ({ c.cpu.reg with PC := (c.cpu.reg.PC + 2 * instrLen rr) % 65536 },
        pushPopTicks rr) := by
  cases rr
  case BC =>
    obtain ⟨h0, h1⟩ := hprog
    obtain ⟨d0, d1⟩ := hapart
    simpa using C7_case_BC c hpc hsp hhi hlo h0 h1 d0 d1
  case DE =>
    obtain ⟨h0, h1⟩ := hprog
    obtain ⟨d0, d1⟩ := hapart
    simpa using C7_case_DE c hpc hsp hhi hlo h0 h1 d0 d1
  case HL =>
    obtain ⟨h0, h1⟩ := hprog
    obtain ⟨d0, d1⟩ := hapart
    simpa using C7_case_HL c hpc hsp hhi hlo h0 h1 d0 d1
  case AF =>
    obtain ⟨h0, h1⟩ := hprog
    obtain ⟨d0, d1⟩ := hapart
    simpa using C7_case_AF c hpc hsp hhi hlo h0 h1 d0 d1
  case IX =>
    obtain ⟨h0, h1, h2, h3⟩ := hprog
    obtain ⟨d0, d1, d2, d3⟩ := hapart
    simpa using C7_case_IX c hpc hsp hhi hlo h0 h1 h2 h3 d0 d1 d2 d3
  case IY =>
    obtain ⟨h0, h1, h2, h3⟩ := hprog
    obtain ⟨d0, d1, d2, d3⟩ := hapart
    simpa using C7_case_IY c hpc hsp hhi hlo h0 h1 h2 h3 d0 d1 d2 d3

/-- C7, the claim as stated is false: running PUSH BC then POP BC on the
concrete machine `wCore` ends with a register file that is NOT bit-identical
to the start one — PC has moved from 0x0000 to 0x0002. -/
theorem C7_counterexample :
    (runPushPop wCore).map (fun p => (p.1.cpu.reg, p.2)) = some
      ({ wCore.cpu.reg with PC := 2 }, 20) ∧
    ({ wCore.cpu.reg with PC := 2 } : Regs) ≠ wCore.cpu.reg := by
  constructor
  · simpa [wCore, wRegs] using C7_case_BC wCore (by decide) (by decide)
      (by decide) (by decide) (by decide) (by decide) (by decide) (by decide)
  · decide

/-- C7 witness: the amended theorem applied to the concrete machine. -/
theorem C7_push_pop_witness :
    (runPushPop wCore).map (fun p => (p.1.cpu.reg, p.2)) = some
      ({ wCore.cpu.reg with
          PC := (wCore.cpu.reg.PC + 2 * instrLen RrName.BC) % 65536 },
        pushPopTicks RrName.BC) :=
  C7_push_pop RrName.BC wCore (by decide) (by decide) (by decide) (by decide)
    (by exact ⟨by decide, by decide⟩) (by exact ⟨by decide, by decide⟩)

theorem C5_im2_accept (c : Core) (hpc : c.cpu.reg.PC < 65536)
    (hsp : c.cpu.reg.SP < 65536)
    (hmode : c.cpu.interrupt_mode = 2)
    (hI : c.cpu.reg.I = 0x80)
    (hds : c.ds = [0])
    (hv0 : c.cpu.mem 0x8000 = 0)
    (hv1 : c.cpu.mem 0x8001 = 0x90)
    (hs1a : (c.cpu.reg.SP + 65535) % 65536 ≠ 0x8000)
    (hs1b : (c.cpu.reg.SP + 65535) % 65536 ≠ 0x8001)
    (hs2a : (c.cpu.reg.SP + 65534) % 65536 ≠ 0x8000)
    (hs2b : (c.cpu.reg.SP + 65534) % 65536 ≠ 0x8001) :
    acceptINT c = some
      ({ c with
          ds := [],
          kwargs := imVecKwargs,
          abortFlag := false,
          cpu.iff1 := 0,
          cpu.iff2 := 0,
          cpu.reg.PC := 0x9000,
          cpu.reg.SP := (c.cpu.reg.SP + 65534) % 65536,
          cpu.mem := fun x =>
            if x = (((c.cpu.reg.SP + 65534) % 65536 : Nat) : Int)
            then ((c.cpu.reg.PC &&& 255 : Nat) : Int)
            else if x = (((c.cpu.reg.SP + 65535) % 65536 : Nat) : Int)
            then (((c.cpu.reg.PC >>> 8) &&& 255 : Nat) : Int)
            else c.cpu.mem x }, 19) := by
  have d1 : ((0x8000 : Int)) ≠ (((mask16 ((c.cpu.reg.SP : Int) - 1)) : Nat) : Int) := by
    simp [mask16]
    omega
  have d2 : ((0x8000 : Int)) ≠
      (((mask16 ((((mask16 ((c.cpu.reg.SP : Int) - 1)) : Nat) : Int) - 1)) : Nat) : Int) := by
    simp [mask16]
    omega
  have d3 : ((0x8001 : Int)) ≠ (((mask16 ((c.cpu.reg.SP : Int) - 1)) : Nat) : Int) := by
    simp [mask16]
    omega
  have d4 : ((0x8001 : Int)) ≠
      (((mask16 ((((mask16 ((c.cpu.reg.SP : Int) - 1)) : Nat) : Int) - 1)) : Nat) : Int) := by
    simp [mask16]
    omega
  have hvec : ((128 : Int) <<< 8).lor ((0 : Int).land 254) = 32768 := by decide
  have hjp : mask16 (((144 : Int) <<< 8).lor 0) = 36864 := by decide
  unfold acceptINT
  rw [hmode]
  simp only [interrupt_response]
  norm_num
  simp [runPipe, stepState, stepIO, stepOD, stepSW, stepMR, resolveAddr,
    fetchByte, MState.withDs, hds, hI, RRra, JPa, ioTransformValue,
    ioTransformAddress, withReg, regSet, regGet, kwGet, kwSet, memWrite,
    List.foldl, emptyKwargs, imVecKwargs, d1, d2, d3, d4, hv0, hv1,
    high_after_low, hvec, hjp]
  constructor
  · simp [mask16]
    omega
  · funext x
    rw [show ((PyZ80.mask16 ((((PyZ80.mask16 ((c.cpu.reg.SP : Int) - 1)) : Nat) : Int) - 1) : Nat) : Int)
          = ((c.cpu.reg.SP : Int) + 65534) % 65536 by simp [mask16]; omega,
       show ((PyZ80.mask16 ((c.cpu.reg.SP : Int) - 1) : Nat) : Int)
          = ((c.cpu.reg.SP : Int) + 65535) % 65536 by simp [mask16]; omega]

theorem C5_im2_accept_witness :
    acceptINT iCore = some
      ({ iCore with
          ds := [],
          kwargs := imVecKwargs,
          abortFlag := false,
          cpu.iff1 := 0,
          cpu.iff2 := 0,
          cpu.reg.PC := 0x9000,
          cpu.reg.SP := (iCore.cpu.reg.SP + 65534) % 65536,
          cpu.mem := fun x =>
            if x = (((iCore.cpu.reg.SP + 65534) % 65536 : Nat) : Int)
            then ((iCore.cpu.reg.PC &&& 255 : Nat) : Int)
            else if x = (((iCore.cpu.reg.SP + 65535) % 65536 : Nat) : Int)
            then (((iCore.cpu.reg.PC >>> 8) &&& 255 : Nat) : Int)
            else iCore.cpu.mem x }, 19) :=
  C5_im2_accept iCore (by decide) (by decide) rfl rfl rfl (by decide)
    (by decide) (by decide) (by decide) (by decide) (by decide)

theorem mask8_natCast (n : Nat) : mask8 (n : Int) = n % 256 := by
  unfold mask8
  omega

theorem recompose16 (a : Nat) : (a >>> 8) <<< 8 ||| (a &&& 255) = a := by
  rw [and_255_eq_mod, shiftLeft8_or_eq _ _ (Nat.mod_lt _ (by norm_num)),
    Nat.shiftRight_eq_div_pow]
  omega

theorem cpir_iter (c : Core) (hpc : c.cpu.reg.PC < 65536)
    (hb0 : c.cpu.mem (c.cpu.reg.PC : Int) = 0xED)
    (hb1 : c.cpu.mem (((c.cpu.reg.PC + 1) % 65536 : Nat) : Int) = 0xB1) :
    runInstr c = some (cpirNext c, cpirTicks c) := by
  have hsemP : entrySem (InstKey.one 0xED) = some ⟨0, [],
      [.ocf [0xED] false 0]⟩ := rfl
  have hsem : entrySem (InstKey.two 0xED 0xB1) = some ⟨0, [],
      [.mr none (some .HL) (some high_after_low) none true,
       .io 5 (some (subfrom .A)) none (some cpirIOaction),
       .io 5 none none (some (do_each [dec .PC, dec .PC]))]⟩ := rfl
  have hb1i : c.cpu.mem (((c.cpu.reg.PC : Int) + 1) % 65536) = 0xB1 := by
    rw [show ((c.cpu.reg.PC : Int) + 1) % 65536
        = (((c.cpu.reg.PC + 1) % 65536 : Nat) : Int) by push_cast; ring_nf]
    exact hb1
  have hD : ((c.cpu.reg.A : Int) -
      c.cpu.mem (((c.cpu.reg.H <<< 8 ||| c.cpu.reg.L : Nat)) : Int)) = cpirD c := by
    rw [cpirD, cpirHL0]
  have hF1 : set_flags_core '-' 'Z' '5' '0' '3' '1' '1' '-' (cpirD c)
      c.cpu.reg.F c.cpu.iff2 % 256 = cpirF1 c := by
    rw [cpirF1]
  have hBC : mask16 (((65535 : Int) +
      ((c.cpu.reg.B <<< 8 ||| c.cpu.reg.C : Nat) : Int)) % 65536) = cpirBC c := by
    simp [cpirBC, mask16]
    omega
  have hHL : mask16 ((((c.cpu.reg.H <<< 8 ||| c.cpu.reg.L : Nat) : Int) + 1)
      % 65536) = cpirHL c := by
    simp [cpirHL, cpirHL0, mask16]
    omega
  have hPC : mask16 (((c.cpu.reg.PC : Int) + 1) % 65536 + 1)
      = (c.cpu.reg.PC + 2) % 65536 := by
    simp [mask16]
    omega
  unfold runInstr
  simp [runPipe, stepState, stepOCF, stepMR, stepIO, resolveAddr, fetchByte,
    MState.withDs, hb0, hb1, hb1i, mkKey, hsemP, hsem, withReg, regSet,
    regGet, kwGet, kwSet, ioTransformValue, ioTransformAddress, subfrom,
    set_flags_action, do_each, dec, on_zero, on_flag, clear_flag,
    early_abort, cpirIOaction, List.foldl, emptyKwargs, ocfTicks,
    RegName.is16, getflagC, getR, inc, mask16_natCast, mask16_add_one,
    mask8_natCast, and_65535_eq_mod, recompose16, hD, hF1, hBC, hHL, hPC]
  have hRewind : (65535 + (65535 + (c.cpu.reg.PC + 2) % 65536) % 65536) % 65536
      = c.cpu.reg.PC := by omega
  split_ifs
  all_goals dsimp only
  all_goals simp_all [runPipe, stepState, stepIO, ioTransformValue,
    ioTransformAddress, do_each, dec, withReg,
    regSet, regGet, kwGet, kwSet, RegName.is16, List.foldl, recompose16,
    mask8_natCast, mask16_natCast, and_65535_eq_mod, cpirNext, cpirKwargs,
    cpirTicks, cpirAbort, cpirF2, cpirHL0, getR, getflagC, hRewind]
  all_goals simp [mask16]
  all_goals omega

theorem cpirNext_mem (c : Core) : (cpirNext c).cpu.mem = c.cpu.mem := rfl

theorem cpirNext_PC (c : Core) : (cpirNext c).cpu.reg.PC =
    if cpirAbort c then (c.cpu.reg.PC + 2) % 65536 else c.cpu.reg.PC := rfl

theorem cpirNext_F (c : Core) : (cpirNext c).cpu.reg.F = cpirF2 c := rfl

theorem cpirBC_lt (c : Core) : cpirBC c < 65536 := by
  unfold cpirBC
  omega

theorem cpirNext_BC (c : Core) :
    regGet .BC (cpirNext c).cpu.reg = cpirBC c := by
  show (cpirBC c >>> 8) <<< 8 ||| (cpirBC c &&& 255) = cpirBC c
  exact recompose16 _

theorem cpirBC_next (c : Core) :
    cpirBC (cpirNext c) = (65535 + cpirBC c) % 65536 := by
  show (65535 + ((cpirBC c >>> 8) <<< 8 ||| (cpirBC c &&& 255))) % 65536 = _
  rw [recompose16]

theorem cpirAbort_of_BC_zero (c : Core) (h : cpirBC c = 0) :
    cpirAbort c = true := by
  simp [cpirAbort, h]

theorem cpirRun_spec (fuel : Nat) (c : Core) (hfuel : cpirBC c < fuel)
    (hpc : c.cpu.reg.PC < 65536)
    (hb0 : c.cpu.mem (c.cpu.reg.PC : Int) = 0xED)
    (hb1 : c.cpu.mem (((c.cpu.reg.PC + 1) % 65536 : Nat) : Int) = 0xB1) :
    ∃ cf n T, cpirRun fuel c = some (cf, n, T) ∧ 1 ≤ n ∧
      T = 21 * (n - 1) + 16 ∧
      (regGet .BC cf.cpu.reg = 0 ∨ getflag .Z cf.cpu.reg.F = 1) := by
  induction fuel generalizing c with
  | zero => omega
  | succ fuel ih =>
    have hne : (c.cpu.reg.PC + 2) % 65536 ≠ c.cpu.reg.PC := by omega
    unfold cpirRun
    rw [cpir_iter c hpc hb0 hb1]
    by_cases ha : cpirAbort c = true
    · refine ⟨cpirNext c, 1, 16, ?_, by omega, by omega, ?_⟩
      · simp [cpirNext_PC, ha, hne, cpirTicks]
      · rw [cpirNext_BC, cpirNext_F]
        have ha2 : cpirBC c = 0 ∨ getflag .Z (cpirF2 c) = 1 := by
          simpa [cpirAbort, Bool.or_eq_true, decide_eq_true_eq] using ha
        exact ha2
    · have hbc0 : cpirBC c ≠ 0 := fun h => ha (cpirAbort_of_BC_zero c h)
      have hfuel2 : cpirBC (cpirNext c) < fuel := by
        rw [cpirBC_next]
        have := cpirBC_lt c
        omega
      have hpc2 : (cpirNext c).cpu.reg.PC < 65536 := by
        rw [cpirNext_PC]
        simp [ha]
        omega
      have hb02 : (cpirNext c).cpu.mem ((cpirNext c).cpu.reg.PC : Int)
          = 0xED := by
        rw [cpirNext_mem, cpirNext_PC]
        simpa [ha] using hb0
      have hb12 : (cpirNext c).cpu.mem
          ((((cpirNext c).cpu.reg.PC + 1) % 65536 : Nat) : Int) = 0xB1 := by
        rw [cpirNext_mem, cpirNext_PC]
        simpa [ha] using hb1
      obtain ⟨cf, n, T, hrun, hn, hT, hfin⟩ := ih (cpirNext c) hfuel2 hpc2
        hb02 hb12
      refine ⟨cf, n + 1, 21 + T, ?_, by omega, by omega, hfin⟩
      simp [cpirNext_PC, ha, cpirTicks, hrun]

/-- C2: from every start state whose PC points at the two CPIR opcode
bytes ED B1, iterating `runInstr` (the driver re-runs the opcode because
each non-terminal iteration's final IO state rewinds PC by 2) terminates:
within 65536 iterations the instruction aborts early, the final state has
BC = 0 or flag Z set, and the total T-cycle count is 21·(n−1)+16 for n
iterations. -/
theorem C2_cpir (c : Core) (hpc : c.cpu.reg.PC < 65536)
    (hb0 : c.cpu.mem (c.cpu.reg.PC : Int) = 0xED)
    (hb1 : c.cpu.mem (((c.cpu.reg.PC + 1) % 65536 : Nat) : Int) = 0xB1) :
    ∃ cf n T, cpirRun 65536 c = some (cf, n, T) ∧ 1 ≤ n ∧
      T = 21 * (n - 1) + 16 ∧
      (regGet .BC cf.cpu.reg = 0 ∨ getflag .Z cf.cpu.reg.F = 1) :=
  cpirRun_spec 65536 c (cpirBC_lt c) hpc hb0 hb1

theorem C2_cpir_witness :
    ∃ cf n T, cpirRun 65536 zCore = some (cf, n, T) ∧ 1 ≤ n ∧
      T = 21 * (n - 1) + 16 ∧
      (regGet .BC cf.cpu.reg = 0 ∨ getflag .Z cf.cpu.reg.F = 1) :=
  C2_cpir zCore (by decide) (by decide) (by decide)

/-- C1, as stated the claim is false (code bug): an OCF state with
`extra=0` for an opcode whose decode entry carries `extra_ocf_ticks=1`
ticks only 4 times, not 4+0+1=5 — the loop `range(0, extra+extra_clocks-1)`
drops one cycle — so PUSH BC (decoder extra 1) totals 10 T-cycles instead
of the documented 11 = 5+3+3. -/
theorem C1_ocf_tick_shortfall :
    ocfTicks 0 1 = 4 ∧ ¬ ocfTicks 0 1 = 4 + 0 + 1 ∧
    lookupMeta (InstKey.one 0xC5) = some (MetaEntry.mk 1 "PUSH BC" (some 1)) ∧
    (runInstr wCore).map (fun p => p.2) = some 10 ∧ ¬ (10 : Nat) = 11 := by
  refine ⟨rfl, by decide, by decide, ?_, by decide⟩
  rw [runInstr_push_BC wCore (by decide) (by decide) (by decide)]
  rfl

theorem C10_halt_witness :
    runInstr hCore = some
      ({ hCore with
          kwargs := emptyKwargs, abortFlag := false,
          cpu.reg.PC :=
            if hCore.cpu.intlatch then (hCore.cpu.reg.PC + 1) % 65536
            else hCore.cpu.reg.PC }, 4) :=
  C10_halt hCore (by decide) (by decide)

theorem C9_ret_z_witness :
    lookupMeta (InstKey.one 0xC8) = some (MetaEntry.mk 1 "RET NZ" (some 1))
    ∧ (getflag .Z rCore.cpu.reg.F = 0 →
        runInstr rCore = some
          ({ rCore with
              kwargs := emptyKwargs, abortFlag := false,
              cpu.reg.PC := (rCore.cpu.reg.PC + 1) % 65536 }, 4))
    ∧ (getflag .Z rCore.cpu.reg.F = 1 →
        (runInstr rCore).map (fun p => (p.1.cpu.reg, p.1.cpu.mem, p.2)) = some
          ({ rCore.cpu.reg with
              PC := 256 * (rCore.cpu.mem (((rCore.cpu.reg.SP + 1) % 65536 : Nat) : Int)).toNat
                      + (rCore.cpu.mem ((rCore.cpu.reg.SP : Nat) : Int)).toNat,
              SP := (rCore.cpu.reg.SP + 2) % 65536 }, rCore.cpu.mem, 10)) :=
  C9_ret_z rCore (by decide) (by decide) (by decide)
    (by
      intro a
      show 0 ≤ rMem a ∧ rMem a < 256
      unfold rMem
      split <;> norm_num)

/-- C3, as stated the claim is false (code bug): the disassembler raises.
Decode-table rows that end at the mnemonic (no length element, e.g. 0x2E
`LD L,n` and the (0xDD, 0xCB) prefix row) make the
`(code, length) = row[3:]` unpacking raise `ValueError`, so a byte list
headed by such an opcode is not disassembled to `???`/default-length pairs
— while ordinary bytes such as 0x00 do produce `(mnemonic, length)`. -/
theorem C3_disassembler_raises :
    disassemble_instructions [0x00] = .ok [("NOP", 1)] ∧
    disassemble_instructions [0x2E] = .error (.valueError (.one 0x2E)) ∧
    disassemble_instructions [0xDD, 0xCB, 0x01, 0x06]
      = .error (.valueError (.two 0xDD 0xCB)) := by
  refine ⟨?_, ?_, ?_⟩ <;> rfl

end PyZ80
